import Mathlib

/-! # Seed finding of the ACTS fork: duplet search, conformal transform, triplet search, seed filter

Shallow embedding of

* `Core/include/Acts/Seeding/SeedfinderCPUFunctions.ipp`
  (`SearchDoublet`, `transformCoordinates`, `SearchTriplet`),
* `Core/include/Acts/Seeding/SeedFilter.hpp` (`CuSeedFilter::filterSeeds_2SpFixed`; the declared
  `SeedFilter::filterSeeds_1SpFixed` is modelled from the specification),
* `Core/include/Acts/Seeding/IExperimentCuts.hpp` (`CuIExperimentCuts`),
* `Core/include/ACTS/EventData/detail/make_projection_matrix.hpp` (`make_projection_matrix`).

Conventions of the embedding.

* The C++ `float` values are elements of a linearly ordered field `K`, and the operations are
  the exact ones of the field.  Every definition is computable for `K = ℚ`.
* Infinities and NaN are not values of `K`.  Where the control flow of the code depends on them
  the definitions branch as the code does: the division by `deltaR = 0` in `SearchDoublet` (an
  infinite `cotTheta` fails the angle test, a NaN passes every comparison) and the square root of
  a negative `error2` in `SearchTriplet` (NaN: the two scattering tests are false).  Elsewhere
  division is the total division of the field (`x / 0 = 0`); `SearchTriplet.tripletCutsChecked`
  and `transformCoordinates.checked` are the functions with their divisions failing on a zero
  denominator.
* Rounding: section `Binary32` gives the rounding to binary32 on `ℚ` and the functions with the
  result of every operation rounded (`…Rounded`); without rounding they are the exact functions.
* `std::sqrt` is a parameter `sqrt : K → K` of the functions that call it.
* A `std::vector` is a `List`; `push_back` appends at the end.  A pointer to a space point is the
  space point record itself.  Indexing a vector with `operator[]` is `List` lookup into `Option`:
  an access outside the vector makes the embedded function return `none`.
* A raw array argument (`const float*`, `bool*`, ...) is a total map `Nat → _`; an output array is
  returned as the updated map.  Distinct array arguments are assumed not to overlap.
* A `for` loop is a structurally recursive function; `continue` is the recursive call on the rest,
  `break` returns the current state.
-/

namespace Acts

/-! ## Data model -/

/-- The accessors of `InternalSpacePoint` read by the seed finder. -/
structure InternalSpacePoint (K : Type) where
  x : K
  y : K
  z : K
  radius : K
  varianceR : K
  varianceZ : K

/-- Modelled from the spec: `SeedfinderConfig.hpp` is not among the sources; these are the fields of
`SeedfinderConfig` that the three functions of `SeedfinderCPUFunctions.ipp` read, together with
`rMax` of the configuration table of the specification (section 6). -/
structure SeedfinderConfig (K : Type) where
  rMax : K
  deltaRMin : K
  deltaRMax : K
  cotThetaMax : K
  collisionRegionMin : K
  collisionRegionMax : K
  maxScatteringAngle2 : K
  sigmaScattering : K
  minHelixDiameter2 : K
  pT2perRadius : K
  impactMax : K

/-- The struct `LinCircle` of `Seedfinder.hpp`. -/
structure LinCircle (K : Type) where
  Zo : K
  cotTheta : K
  iDeltaR : K
  Er : K
  U : K
  V : K

/-- The struct `SeedFilterConfig` of `SeedFilter.hpp`. -/
structure SeedFilterConfig (K : Type) where
  deltaInvHelixDiameter : K
  impactWeightFactor : K
  compatSeedWeight : K
  deltaRMin : K
  maxSeedsPerSpM : Nat
  compatSeedLimit : Nat

section Doublet

variable {K : Type} [LinearOrderedField K]

/-! ## `SearchDoublet` -/

/-- The loop of the bottom branch of `SearchDoublet` (source lines 29-52); `compatSPs` is the
vector filled so far.  The float division of line 41 does not trap on `deltaR = 0`: the quotient
`cotTheta` is then an infinity when `zM - z ≠ 0`, so that `std::fabs(cotTheta) >
config.cotThetaMax` holds and the pass ends with `continue`, and it is NaN when `zM - z = 0`, so
that the comparisons of lines 42 and 47-48 with `cotTheta` and with `zOrigin = zM - rM * cotTheta`
are all false and the partner is pushed. -/
def SearchDoublet.bottomLoop (spM : InternalSpacePoint K) (config : SeedfinderConfig K) :
    List (InternalSpacePoint K) → List (InternalSpacePoint K) → List (InternalSpacePoint K)
  | [], compatSPs => compatSPs
  | sp :: SPs, compatSPs =>
    let rM := spM.radius
    let zM := spM.z
    let rB := sp.radius
    let deltaR := rM - rB
    if deltaR > config.deltaRMax then
      SearchDoublet.bottomLoop spM config SPs compatSPs
    else if deltaR < config.deltaRMin then
      SearchDoublet.bottomLoop spM config SPs compatSPs
    else if deltaR = 0 then
      if zM - sp.z = 0 then
        SearchDoublet.bottomLoop spM config SPs (compatSPs ++ [sp])
      else
        SearchDoublet.bottomLoop spM config SPs compatSPs
    else
      let cotTheta := (zM - sp.z) / deltaR
      if |cotTheta| > config.cotThetaMax then
        SearchDoublet.bottomLoop spM config SPs compatSPs
      else
        let zOrigin := zM - rM * cotTheta
        if zOrigin < config.collisionRegionMin ∨ zOrigin > config.collisionRegionMax then
          SearchDoublet.bottomLoop spM config SPs compatSPs
        else
          SearchDoublet.bottomLoop spM config SPs (compatSPs ++ [sp])

/-- The loop of the top branch of `SearchDoublet` (source lines 57-78); the second test leaves
the loop with `break`.  The division of line 68 by `deltaR = 0` is treated as in the bottom
branch: an infinite `cotTheta` (`z - zM ≠ 0`) fails the test of line 69, a NaN `cotTheta`
(`z - zM = 0`) passes every comparison and the partner is pushed. -/
def SearchDoublet.topLoop (spM : InternalSpacePoint K) (config : SeedfinderConfig K) :
    List (InternalSpacePoint K) → List (InternalSpacePoint K) → List (InternalSpacePoint K)
  | [], compatSPs => compatSPs
  | sp :: SPs, compatSPs =>
    let rM := spM.radius
    let zM := spM.z
    let rT := sp.radius
    let deltaR := rT - rM
    if deltaR < config.deltaRMin then
      SearchDoublet.topLoop spM config SPs compatSPs
    else if deltaR > config.deltaRMax then
      compatSPs
    else if deltaR = 0 then
      if sp.z - zM = 0 then
        SearchDoublet.topLoop spM config SPs (compatSPs ++ [sp])
      else
        SearchDoublet.topLoop spM config SPs compatSPs
    else
      let cotTheta := (sp.z - zM) / deltaR
      if |cotTheta| > config.cotThetaMax then
        SearchDoublet.topLoop spM config SPs compatSPs
      else
        let zOrigin := zM - rM * cotTheta
        if zOrigin < config.collisionRegionMin ∨ zOrigin > config.collisionRegionMax then
          SearchDoublet.topLoop spM config SPs compatSPs
        else
          SearchDoublet.topLoop spM config SPs (compatSPs ++ [sp])

/-- The function `SeedfinderCPUFunctions::SearchDoublet`. -/
def SearchDoublet (isBottom : Bool) (SPs : List (InternalSpacePoint K))
    (spM : InternalSpacePoint K) (config : SeedfinderConfig K) : List (InternalSpacePoint K) :=
  if isBottom then SearchDoublet.bottomLoop spM config SPs []
  else SearchDoublet.topLoop spM config SPs []

/-! ### The duplet tests as the specification words them (section 4.3) -/

/-- Specification, section 4.3, role BOTTOM: radial gap in range, forward angle, origin on the
beam axis. -/
def DupletSpec.bottomAccepted (config : SeedfinderConfig K) (M S : InternalSpacePoint K) : Prop :=
  (config.deltaRMin ≤ M.radius - S.radius ∧ M.radius - S.radius ≤ config.deltaRMax) ∧
  |(M.z - S.z) / (M.radius - S.radius)| ≤ config.cotThetaMax ∧
  (config.collisionRegionMin ≤ M.z - M.radius * ((M.z - S.z) / (M.radius - S.radius)) ∧
    M.z - M.radius * ((M.z - S.z) / (M.radius - S.radius)) ≤ config.collisionRegionMax)

/-- Specification, section 4.3, role TOP. -/
def DupletSpec.topAccepted (config : SeedfinderConfig K) (M S : InternalSpacePoint K) : Prop :=
  (config.deltaRMin ≤ S.radius - M.radius ∧ S.radius - M.radius ≤ config.deltaRMax) ∧
  |(S.z - M.z) / (S.radius - M.radius)| ≤ config.cotThetaMax ∧
  (config.collisionRegionMin ≤ M.z - M.radius * ((S.z - M.z) / (S.radius - M.radius)) ∧
    M.z - M.radius * ((S.z - M.z) / (S.radius - M.radius)) ≤ config.collisionRegionMax)

instance DupletSpec.decBottomAccepted (config : SeedfinderConfig K) (M S : InternalSpacePoint K) :
    Decidable (DupletSpec.bottomAccepted config M S) := by
  unfold DupletSpec.bottomAccepted; infer_instance

instance DupletSpec.decTopAccepted (config : SeedfinderConfig K) (M S : InternalSpacePoint K) :
    Decidable (DupletSpec.topAccepted config M S) := by
  unfold DupletSpec.topAccepted; infer_instance

/-! ### The condition under which a pass of `SearchDoublet` pushes its partner -/

/-- A pass of the bottom loop pushes the partner `S` of the middle `M` exactly when the gap
`deltaR = rM - rB` is in the window and, for `deltaR ≠ 0`, the tests on `cotTheta` and `zOrigin`
do not end the pass; for `deltaR = 0` (division by zero) exactly when `zM - z = 0`. -/
def SearchDoublet.bottomKeeps (config : SeedfinderConfig K) (M S : InternalSpacePoint K) : Prop :=
  (config.deltaRMin ≤ M.radius - S.radius ∧ M.radius - S.radius ≤ config.deltaRMax) ∧
  if M.radius - S.radius = 0 then M.z - S.z = 0
  else
    |(M.z - S.z) / (M.radius - S.radius)| ≤ config.cotThetaMax ∧
    (config.collisionRegionMin ≤ M.z - M.radius * ((M.z - S.z) / (M.radius - S.radius)) ∧
      M.z - M.radius * ((M.z - S.z) / (M.radius - S.radius)) ≤ config.collisionRegionMax)

/-- The same for a pass of the top loop that the two gap tests let through
(`deltaR = rT - rM`). -/
def SearchDoublet.topKeeps (config : SeedfinderConfig K) (M S : InternalSpacePoint K) : Prop :=
  (config.deltaRMin ≤ S.radius - M.radius ∧ S.radius - M.radius ≤ config.deltaRMax) ∧
  if S.radius - M.radius = 0 then S.z - M.z = 0
  else
    |(S.z - M.z) / (S.radius - M.radius)| ≤ config.cotThetaMax ∧
    (config.collisionRegionMin ≤ M.z - M.radius * ((S.z - M.z) / (S.radius - M.radius)) ∧
      M.z - M.radius * ((S.z - M.z) / (S.radius - M.radius)) ≤ config.collisionRegionMax)

instance SearchDoublet.decBottomKeeps (config : SeedfinderConfig K) (M S : InternalSpacePoint K) :
    Decidable (SearchDoublet.bottomKeeps config M S) := by
  unfold SearchDoublet.bottomKeeps; infer_instance

instance SearchDoublet.decTopKeeps (config : SeedfinderConfig K) (M S : InternalSpacePoint K) :
    Decidable (SearchDoublet.topKeeps config M S) := by
  unfold SearchDoublet.topKeeps; infer_instance

end Doublet

section Conformal

variable {K : Type} [LinearOrderedField K]

/-! ## `transformCoordinates` -/

/-- The loop of `transformCoordinates` (source lines 97-132); `cosPhiM` and `sinPhiM` are computed
before the loop, `linCircleVec` is the output vector filled so far.  Arithmetic is exact and the
division of line 108 is the total division of the field: for a partner at the `(x, y)` of the
middle, where the code stores infinities and NaN, see `transformCoordinates.loopChecked`; for the
rounding of the operations see `transformCoordinates.loopRounded`. -/
def transformCoordinates.loop (sqrt : K → K) (spM : InternalSpacePoint K) (bottom : Bool)
    (cosPhiM sinPhiM : K) :
    List (InternalSpacePoint K) → List (LinCircle K) → List (LinCircle K)
  | [], linCircleVec => linCircleVec
  | sp :: vec, linCircleVec =>
    let xM := spM.x
    let yM := spM.y
    let zM := spM.z
    let rM := spM.radius
    let varianceZM := spM.varianceZ
    let varianceRM := spM.varianceR
    let deltaX := sp.x - xM
    let deltaY := sp.y - yM
    let deltaZ := sp.z - zM
    let x := deltaX * cosPhiM + deltaY * sinPhiM
    let y := deltaY * cosPhiM - deltaX * sinPhiM
    let iDeltaR2 := 1 / (deltaX * deltaX + deltaY * deltaY)
    let iDeltaR := sqrt iDeltaR2
    let bottomFactor : Int := 1 * (if !bottom then 1 else 0) - 1 * (if bottom then 1 else 0)
    let cot_theta := deltaZ * iDeltaR * (bottomFactor : K)
    let l : LinCircle K :=
      { cotTheta := cot_theta
        Zo := zM - rM * cot_theta
        iDeltaR := iDeltaR
        U := x * iDeltaR2
        V := y * iDeltaR2
        Er := ((varianceZM + sp.varianceZ) +
          (cot_theta * cot_theta) * (varianceRM + sp.varianceR)) * iDeltaR2 }
    transformCoordinates.loop sqrt spM bottom cosPhiM sinPhiM vec (linCircleVec ++ [l])

/-- The function `SeedfinderCPUFunctions::transformCoordinates`; the result is the vector
`linCircleVec` after the call. -/
def transformCoordinates (sqrt : K → K) (vec : List (InternalSpacePoint K))
    (spM : InternalSpacePoint K) (bottom : Bool) (linCircleVec : List (LinCircle K)) :
    List (LinCircle K) :=
  let xM := spM.x
  let yM := spM.y
  let rM := spM.radius
  let cosPhiM := xM / rM
  let sinPhiM := yM / rM
  transformCoordinates.loop sqrt spM bottom cosPhiM sinPhiM vec linCircleVec

/-- Specification, section 4.3, conformal transform: the `LinCircle` of the partner `S` with the
middle `M` as origin; `sign` is `+1` for TOP (`bottom = false`) and `-1` for BOTTOM. -/
def ConformalSpec.linCircle (sqrt : K → K) (M : InternalSpacePoint K) (bottom : Bool)
    (S : InternalSpacePoint K) : LinCircle K :=
  let cosPhi := M.x / M.radius
  let sinPhi := M.y / M.radius
  let dx := S.x - M.x
  let dy := S.y - M.y
  let dz := S.z - M.z
  let iDeltaR2 := 1 / (dx ^ 2 + dy ^ 2)
  let iDeltaR := sqrt iDeltaR2
  let sign : K := if bottom then -1 else 1
  let cotTheta := dz * iDeltaR * sign
  { Zo := M.z - M.radius * cotTheta
    cotTheta := cotTheta
    iDeltaR := iDeltaR
    Er := ((M.varianceZ + S.varianceZ) + cotTheta ^ 2 * (M.varianceR + S.varianceR)) * iDeltaR2
    U := (dx * cosPhi + dy * sinPhi) * iDeltaR2
    V := (-dx * sinPhi + dy * cosPhi) * iDeltaR2 }

end Conformal

section Triplet

variable {K : Type} [LinearOrderedField K]

/-! ## `SearchTriplet` -/

/-- The three vectors `topSpVec`, `curvatures`, `impactParameters` that `SearchTriplet` clears for
every bottom and fills in its inner loop. -/
structure SearchTriplet.TopVectors (K : Type) where
  topSpVec : List (InternalSpacePoint K)
  curvatures : List K
  impactParameters : List K

/-- The cuts of one pass of the inner loop of `SearchTriplet` (source lines 192-257) for the
bottom `LinCircle` fields read at lines 164-185 and the top `LinCircle` `lt`: `none` when the pass
ends in a `continue` or fails the test `Im <= config.impactMax`, else the curvature
`B / sqrt(S2)` and the impact `Im` that lines 261-262 push.  The variable
`dCotThetaMinusError2` is assigned only under `deltaCotTheta2 - error2 > 0` and read only under
the same test; it is bound here to the value assigned, and the nested tests of lines 206-220 are
written as one conjunction.  For `error2 < 0` the value of `std::sqrt(error2)` is NaN, so is
`dCotThetaMinusError2`, and the two comparisons that read it (lines 217 and 247-249) are false:
this is the conjunct `0 ≤ error2` of the two tests. -/
def SearchTriplet.tripletCuts (sqrt : K → K) (spM : InternalSpacePoint K)
    (config : SeedfinderConfig K) (cotThetaB Vb Ub ErB iDeltaRB iSinTheta2 scatteringInRegion2 : K)
    (lt : LinCircle K) : Option (K × K) :=
  let rM := spM.radius
  let varianceRM := spM.varianceR
  let varianceZM := spM.varianceZ
  let error2 := lt.Er + ErB +
    2 * (cotThetaB * lt.cotTheta * varianceRM + varianceZM) * iDeltaRB * lt.iDeltaR
  let deltaCotTheta := cotThetaB - lt.cotTheta
  let deltaCotTheta2 := deltaCotTheta * deltaCotTheta
  let dCotThetaMinusError2 := deltaCotTheta2 + error2 - 2 * |deltaCotTheta| * sqrt error2
  if deltaCotTheta2 - error2 > 0 ∧ 0 ≤ error2 ∧ dCotThetaMinusError2 > scatteringInRegion2
  then none
  else
    let dU := lt.U - Ub
    if dU = 0 then none
    else
      let A := (lt.V - Vb) / dU
      let S2 := 1 + A * A
      let B := Vb - A * Ub
      let B2 := B * B
      if S2 < B2 * config.minHelixDiameter2 then none
      else
        let iHelixDiameter2 := B2 / S2
        let pT2scatter := 4 * iHelixDiameter2 * config.pT2perRadius
        let p2scatter := pT2scatter * iSinTheta2
        if deltaCotTheta2 - error2 > 0 ∧ 0 ≤ error2 ∧
            dCotThetaMinusError2 > p2scatter * config.sigmaScattering * config.sigmaScattering
        then none
        else
          let Im := |(A - B * rM) * rM|
          if Im ≤ config.impactMax then some (B / sqrt S2, Im) else none

/-- The inner loop `for (size_t t = 0; t < numTopSP; t++)` of `SearchTriplet`: `n` passes are left,
`t` is the loop variable. -/
def SearchTriplet.topLoop (sqrt : K → K) (spM : InternalSpacePoint K)
    (compatTopSP : List (InternalSpacePoint K)) (linCircleTop : List (LinCircle K))
    (config : SeedfinderConfig K)
    (cotThetaB Vb Ub ErB iDeltaRB iSinTheta2 scatteringInRegion2 : K) :
    Nat → Nat → SearchTriplet.TopVectors K → Option (SearchTriplet.TopVectors K)
  | 0, _, vecs => some vecs
  | n + 1, t, vecs =>
    match linCircleTop[t]? with
    | none => none
    | some lt =>
      match SearchTriplet.tripletCuts sqrt spM config cotThetaB Vb Ub ErB iDeltaRB iSinTheta2
          scatteringInRegion2 lt with
      | none =>
        SearchTriplet.topLoop sqrt spM compatTopSP linCircleTop config cotThetaB Vb Ub ErB
          iDeltaRB iSinTheta2 scatteringInRegion2 n (t + 1) vecs
      | some (curvature, Im) =>
        match compatTopSP[t]? with
        | none => none
        | some spT =>
          SearchTriplet.topLoop sqrt spM compatTopSP linCircleTop config cotThetaB Vb Ub ErB
            iDeltaRB iSinTheta2 scatteringInRegion2 n (t + 1)
            { topSpVec := vecs.topSpVec ++ [spT]
              curvatures := vecs.curvatures ++ [curvature]
              impactParameters := vecs.impactParameters ++ [Im] }

/-- The part of one pass of the outer loop of `SearchTriplet` before the filter call (source
lines 163-264): the vectors filled for the bottom whose `LinCircle` is `lb`. -/
def SearchTriplet.topsForBottom (sqrt : K → K) (spM : InternalSpacePoint K)
    (compatTopSP : List (InternalSpacePoint K)) (linCircleTop : List (LinCircle K))
    (config : SeedfinderConfig K) (lb : LinCircle K) : Option (SearchTriplet.TopVectors K) :=
  let cotThetaB := lb.cotTheta
  let Vb := lb.V
  let Ub := lb.U
  let ErB := lb.Er
  let iDeltaRB := lb.iDeltaR
  let iSinTheta2 := 1 + cotThetaB * cotThetaB
  let scatteringInRegion2 := config.maxScatteringAngle2 * iSinTheta2
  let scatteringInRegion2 := scatteringInRegion2 * (config.sigmaScattering * config.sigmaScattering)
  let numTopSP := compatTopSP.length
  SearchTriplet.topLoop sqrt spM compatTopSP linCircleTop config cotThetaB Vb Ub ErB iDeltaRB
    iSinTheta2 scatteringInRegion2 numTopSP 0 { topSpVec := [], curvatures := [], impactParameters := [] }

/-- The outer loop `for (size_t b = 0; b < numBotSP; b++)` of `SearchTriplet`.  The seed filter
`config.seedFilter->filterSeeds_2SpFixed`, whose implementation is not among the sources, is the
parameter `filterSeeds_2SpFixed`; `σ` is the type of the weighted seeds it returns. -/
def SearchTriplet.bottomLoop {σ : Type} (sqrt : K → K)
    (filterSeeds_2SpFixed : InternalSpacePoint K → InternalSpacePoint K →
      List (InternalSpacePoint K) → List K → List K → K → List σ)
    (spM : InternalSpacePoint K)
    (compatBottomSP compatTopSP : List (InternalSpacePoint K))
    (linCircleBottom linCircleTop : List (LinCircle K)) (config : SeedfinderConfig K) :
    Nat → Nat → List σ → Option (List σ)
  | 0, _, seedsPerSpM => some seedsPerSpM
  | n + 1, b, seedsPerSpM =>
    match linCircleBottom[b]? with
    | none => none
    | some lb =>
      let Zob := lb.Zo
      match SearchTriplet.topsForBottom sqrt spM compatTopSP linCircleTop config lb with
      | none => none
      | some vecs =>
        if !vecs.topSpVec.isEmpty then
          match compatBottomSP[b]? with
          | none => none
          | some spB =>
            let sameTrackSeeds := filterSeeds_2SpFixed spB spM vecs.topSpVec vecs.curvatures
              vecs.impactParameters Zob
            SearchTriplet.bottomLoop sqrt filterSeeds_2SpFixed spM compatBottomSP compatTopSP
              linCircleBottom linCircleTop config n (b + 1) (seedsPerSpM ++ sameTrackSeeds)
        else
          SearchTriplet.bottomLoop sqrt filterSeeds_2SpFixed spM compatBottomSP compatTopSP
            linCircleBottom linCircleTop config n (b + 1) seedsPerSpM

/-- The function `SeedfinderCPUFunctions::SearchTriplet`; `none` stands for an access outside
`linCircleBottom`, `linCircleTop` or the partner vectors. -/
def SearchTriplet {σ : Type} (sqrt : K → K)
    (filterSeeds_2SpFixed : InternalSpacePoint K → InternalSpacePoint K →
      List (InternalSpacePoint K) → List K → List K → K → List σ)
    (spM : InternalSpacePoint K)
    (compatBottomSP compatTopSP : List (InternalSpacePoint K))
    (linCircleBottom linCircleTop : List (LinCircle K)) (config : SeedfinderConfig K) :
    Option (List σ) :=
  let numBotSP := compatBottomSP.length
  SearchTriplet.bottomLoop sqrt filterSeeds_2SpFixed spM compatBottomSP compatTopSP
    linCircleBottom linCircleTop config numBotSP 0 []

/-- The arguments of one call of `filterSeeds_2SpFixed` made by `SearchTriplet` (the middle, which
is the same in every call, is left out). -/
structure SearchTriplet.FilterCall (K : Type) where
  bottomSP : InternalSpacePoint K
  topSpVec : List (InternalSpacePoint K)
  curvatures : List K
  impactParameters : List K
  zOrigin : K

/-- A seed filter that returns its own arguments: run with it, `SearchTriplet` returns the
sequence of filter calls it makes. -/
def SearchTriplet.recordCall (bottomSP _middleSP : InternalSpacePoint K)
    (topSpVec : List (InternalSpacePoint K)) (curvatures impactParameters : List K) (zOrigin : K) :
    List (SearchTriplet.FilterCall K) :=
  [{ bottomSP := bottomSP, topSpVec := topSpVec, curvatures := curvatures,
     impactParameters := impactParameters, zOrigin := zOrigin }]

/-! ### The triplet cuts as the specification words them (section 4.4) -/

/-- Specification 4.4, `error²`. -/
def TripletSpec.error2 (M : InternalSpacePoint K) (lb lt : LinCircle K) : K :=
  lt.Er + lb.Er + 2 * (lb.cotTheta * lt.cotTheta * M.varianceR + M.varianceZ) *
    lb.iDeltaR * lt.iDeltaR

/-- Specification 4.4, `ΔcotΘ`. -/
def TripletSpec.deltaCotTheta (lb lt : LinCircle K) : K :=
  lb.cotTheta - lt.cotTheta

/-- Specification 4.4, `residual²`. -/
def TripletSpec.residual2 (sqrt : K → K) (M : InternalSpacePoint K) (lb lt : LinCircle K) : K :=
  TripletSpec.deltaCotTheta lb lt ^ 2 + TripletSpec.error2 M lb lt -
    2 * |TripletSpec.deltaCotTheta lb lt| * sqrt (TripletSpec.error2 M lb lt)

/-- Specification 4.4, slope `A` of the line through the two conformal points. -/
def TripletSpec.A (lb lt : LinCircle K) : K :=
  (lt.V - lb.V) / (lt.U - lb.U)

/-- Specification 4.4, intercept `B`. -/
def TripletSpec.B (lb lt : LinCircle K) : K :=
  lb.V - TripletSpec.A lb lt * lb.U

/-- Specification 4.4, `S² = 1 + A²`. -/
def TripletSpec.S2 (lb lt : LinCircle K) : K :=
  1 + TripletSpec.A lb lt ^ 2

/-- Specification 4.4, impact parameter `Im = |(A - B·r_M)·r_M|`. -/
def TripletSpec.Im (M : InternalSpacePoint K) (lb lt : LinCircle K) : K :=
  |(TripletSpec.A lb lt - TripletSpec.B lb lt * M.radius) * M.radius|

/-- Specification 4.4, curvature `B/√S²` recorded for an accepted top. -/
def TripletSpec.curvature (sqrt : K → K) (lb lt : LinCircle K) : K :=
  TripletSpec.B lb lt / sqrt (TripletSpec.S2 lb lt)

/-- Rejection (1): scattering budget of the lower pT cut exceeded. -/
def TripletSpec.rejected1 (sqrt : K → K) (config : SeedfinderConfig K) (M : InternalSpacePoint K)
    (lb lt : LinCircle K) : Prop :=
  TripletSpec.deltaCotTheta lb lt ^ 2 - TripletSpec.error2 M lb lt > 0 ∧
    TripletSpec.residual2 sqrt M lb lt >
      config.maxScatteringAngle2 * (1 + lb.cotTheta ^ 2) * config.sigmaScattering ^ 2

/-- Rejection (2): degenerate conformal slope, `dU = U_t - U_b = 0`. -/
def TripletSpec.rejected2 (lb lt : LinCircle K) : Prop :=
  lt.U - lb.U = 0

/-- Rejection (3): helix too tight, `S² < B²·minHelixDiameter²`. -/
def TripletSpec.rejected3 (config : SeedfinderConfig K) (lb lt : LinCircle K) : Prop :=
  TripletSpec.S2 lb lt < TripletSpec.B lb lt ^ 2 * config.minHelixDiameter2

/-- Rejection (4): scattering budget for the pT of the fitted helix exceeded. -/
def TripletSpec.rejected4 (sqrt : K → K) (config : SeedfinderConfig K) (M : InternalSpacePoint K)
    (lb lt : LinCircle K) : Prop :=
  TripletSpec.deltaCotTheta lb lt ^ 2 - TripletSpec.error2 M lb lt > 0 ∧
    TripletSpec.residual2 sqrt M lb lt >
      4 * (TripletSpec.B lb lt ^ 2 / TripletSpec.S2 lb lt) * config.pT2perRadius *
        (1 + lb.cotTheta ^ 2) * config.sigmaScattering ^ 2

/-- Rejection (5): impact parameter above `impactMax`. -/
def TripletSpec.rejected5 (config : SeedfinderConfig K) (M : InternalSpacePoint K)
    (lb lt : LinCircle K) : Prop :=
  TripletSpec.Im M lb lt > config.impactMax

/-- None of the five rejections of specification 4.4 applies. -/
def TripletSpec.accepted (sqrt : K → K) (config : SeedfinderConfig K) (M : InternalSpacePoint K)
    (lb lt : LinCircle K) : Prop :=
  ¬ TripletSpec.rejected1 sqrt config M lb lt ∧ ¬ TripletSpec.rejected2 lb lt ∧
    ¬ TripletSpec.rejected3 config lb lt ∧ ¬ TripletSpec.rejected4 sqrt config M lb lt ∧
    ¬ TripletSpec.rejected5 config M lb lt

instance TripletSpec.decAccepted (sqrt : K → K) (config : SeedfinderConfig K)
    (M : InternalSpacePoint K) (lb lt : LinCircle K) :
    Decidable (TripletSpec.accepted sqrt config M lb lt) := by
  unfold TripletSpec.accepted TripletSpec.rejected1 TripletSpec.rejected2 TripletSpec.rejected3
    TripletSpec.rejected4 TripletSpec.rejected5
  infer_instance

/-- The tops the specification accepts for the bottom with `LinCircle` `lb`, each with its
`LinCircle`, in the order of `compatTopSP`. -/
def TripletSpec.acceptedTops (sqrt : K → K) (config : SeedfinderConfig K)
    (M : InternalSpacePoint K) (compatTopSP : List (InternalSpacePoint K))
    (linCircleTop : List (LinCircle K)) (lb : LinCircle K) :
    List (InternalSpacePoint K × LinCircle K) :=
  (compatTopSP.zip linCircleTop).filter
    (fun p => decide (TripletSpec.accepted sqrt config M lb p.2))

/-- The filter calls the specification prescribes: one for every bottom with at least one accepted
top, in the order of the bottoms, with the accepted tops, their curvatures `B/√S²` and their
impact parameters `Im`, and the origin `Zo` of the bottom duplet. -/
def TripletSpec.filterCalls (sqrt : K → K) (config : SeedfinderConfig K)
    (M : InternalSpacePoint K) (compatBottomSP compatTopSP : List (InternalSpacePoint K))
    (linCircleBottom linCircleTop : List (LinCircle K)) : List (SearchTriplet.FilterCall K) :=
  ((compatBottomSP.zip linCircleBottom).filter
      (fun q => !(TripletSpec.acceptedTops sqrt config M compatTopSP linCircleTop q.2).isEmpty)).map
    (fun q =>
      { bottomSP := q.1
        topSpVec := (TripletSpec.acceptedTops sqrt config M compatTopSP linCircleTop q.2).map
          Prod.fst
        curvatures := (TripletSpec.acceptedTops sqrt config M compatTopSP linCircleTop q.2).map
          (fun p => TripletSpec.curvature sqrt q.2 p.2)
        impactParameters := (TripletSpec.acceptedTops sqrt config M compatTopSP linCircleTop q.2).map
          (fun p => TripletSpec.Im M q.2 p.2)
        zOrigin := q.2.Zo })

/-! ### The condition under which a pass of the inner loop of `SearchTriplet` pushes its top -/

/-- A pass of the inner loop pushes the top with `LinCircle` `lt` for the bottom with `LinCircle`
`lb` exactly when the rejections (2), (3) and (5) of the specification do not apply and, for
`error² ≥ 0`, the rejections (1) and (4) do not apply either: for `error² < 0` the square root of
the code is NaN and the two scattering tests let every top pass. -/
def SearchTriplet.passes (sqrt : K → K) (config : SeedfinderConfig K) (M : InternalSpacePoint K)
    (lb lt : LinCircle K) : Prop :=
  (0 ≤ TripletSpec.error2 M lb lt → ¬ TripletSpec.rejected1 sqrt config M lb lt) ∧
    ¬ TripletSpec.rejected2 lb lt ∧ ¬ TripletSpec.rejected3 config lb lt ∧
    (0 ≤ TripletSpec.error2 M lb lt → ¬ TripletSpec.rejected4 sqrt config M lb lt) ∧
    ¬ TripletSpec.rejected5 config M lb lt

instance SearchTriplet.decPasses (sqrt : K → K) (config : SeedfinderConfig K)
    (M : InternalSpacePoint K) (lb lt : LinCircle K) :
    Decidable (SearchTriplet.passes sqrt config M lb lt) := by
  unfold SearchTriplet.passes TripletSpec.rejected1 TripletSpec.rejected2 TripletSpec.rejected3
    TripletSpec.rejected4 TripletSpec.rejected5
  infer_instance

/-- The tops that the inner loop pushes for the bottom with `LinCircle` `lb`, each with its
`LinCircle`, in the order of `compatTopSP`. -/
def SearchTriplet.passedTops (sqrt : K → K) (config : SeedfinderConfig K)
    (M : InternalSpacePoint K) (compatTopSP : List (InternalSpacePoint K))
    (linCircleTop : List (LinCircle K)) (lb : LinCircle K) :
    List (InternalSpacePoint K × LinCircle K) :=
  (compatTopSP.zip linCircleTop).filter
    (fun p => decide (SearchTriplet.passes sqrt config M lb p.2))

/-- The filter calls in terms of the condition of the pass: one for every bottom with at least one
pushed top, in the order of the bottoms, with the pushed tops, their curvatures `B/√S²` and their
impact parameters `Im`, and the origin `Zo` of the bottom duplet. -/
def SearchTriplet.filterCalls (sqrt : K → K) (config : SeedfinderConfig K)
    (M : InternalSpacePoint K) (compatBottomSP compatTopSP : List (InternalSpacePoint K))
    (linCircleBottom linCircleTop : List (LinCircle K)) : List (SearchTriplet.FilterCall K) :=
  ((compatBottomSP.zip linCircleBottom).filter
      (fun q => !(SearchTriplet.passedTops sqrt config M compatTopSP linCircleTop q.2).isEmpty)).map
    (fun q =>
      { bottomSP := q.1
        topSpVec := (SearchTriplet.passedTops sqrt config M compatTopSP linCircleTop q.2).map
          Prod.fst
        curvatures := (SearchTriplet.passedTops sqrt config M compatTopSP linCircleTop q.2).map
          (fun p => TripletSpec.curvature sqrt q.2 p.2)
        impactParameters := (SearchTriplet.passedTops sqrt config M compatTopSP linCircleTop q.2).map
          (fun p => TripletSpec.Im M q.2 p.2)
        zOrigin := q.2.Zo })

end Triplet

section Filter

variable {K : Type} [LinearOrderedField K]

/-! ## `CuIExperimentCuts` and `CuSeedFilter` -/

/-- The method `CuIExperimentCuts::seedWeight`; a space point is a `const float*` whose entry 3 is
the radius. -/
def CuIExperimentCuts.seedWeight (bottom _middle top : Nat → K) : K :=
  let weight : K := 0
  let weight := if bottom 3 > 150 then 400 else weight
  let weight := if top 3 < 150 then 200 else weight
  weight

/-- The method `CuIExperimentCuts::singleSeedCut`. -/
def CuIExperimentCuts.singleSeedCut (weight : K) (bottom _middle _top : Nat → K) : Bool :=
  !(decide (bottom 3 > 150) && decide (weight < 380))

/-- The class `CuSeedFilter`: its data member `m_cfg` (the member `m_experimentCuts` has no
data). -/
structure CuSeedFilter (K : Type) where
  m_cfg : SeedFilterConfig K

/-- The loop of source lines 157-165 of `CuSeedFilter::filterSeeds_2SpFixed`: the value of
`newCompSeed` after the loop; `n` passes are left, `k` is the loop variable. -/
def CuSeedFilter.newCompSeedLoop (self : CuSeedFilter K) (nSpT : Nat) (spTmat : Nat → K)
    (isCompatibleSeed : Nat → Bool) (otherTop_r : K) : Nat → Nat → Bool
  | 0, _ => true
  | n + 1, k =>
    if isCompatibleSeed k = true then
      let previousDiameter := spTmat (k + nSpT * 3)
      if |previousDiameter - otherTop_r| < self.m_cfg.deltaRMin then false
      else CuSeedFilter.newCompSeedLoop self nSpT spTmat isCompatibleSeed otherTop_r n (k + 1)
    else CuSeedFilter.newCompSeedLoop self nSpT spTmat isCompatibleSeed otherTop_r n (k + 1)

/-- The loop of source lines 172-177: the value of `NumOfCompatibleSeeds` after the loop. -/
def CuSeedFilter.numCompatLoop (isCompatibleSeed : Nat → Bool) : Nat → Nat → Nat → Nat
  | 0, _, NumOfCompatibleSeeds => NumOfCompatibleSeeds
  | n + 1, k, NumOfCompatibleSeeds =>
    if isCompatibleSeed k = true then
      CuSeedFilter.numCompatLoop isCompatibleSeed n (k + 1) (NumOfCompatibleSeeds + 1)
    else CuSeedFilter.numCompatLoop isCompatibleSeed n (k + 1) NumOfCompatibleSeeds

/-- The loop `for (size_t j = 0; j < *nSpT; j++)` of source lines 129-182; the state is the local
array `isCompatibleSeed` and the output array `weight`. -/
def CuSeedFilter.compatLoop (self : CuSeedFilter K) (threadId nSpT : Nat) (spTmat : Nat → K)
    (isPassed : Nat → Bool) (invHelixDiameterVec : Nat → K)
    (lowerLimitCurv upperLimitCurv currentTop_r : K) :
    Nat → Nat → (Nat → Bool) → (Nat → K) → (Nat → Bool) × (Nat → K)
  | 0, _, isCompatibleSeed, weight => (isCompatibleSeed, weight)
  | n + 1, j, isCompatibleSeed, weight =>
    if isPassed j = false then
      CuSeedFilter.compatLoop self threadId nSpT spTmat isPassed invHelixDiameterVec
        lowerLimitCurv upperLimitCurv currentTop_r n (j + 1) isCompatibleSeed weight
    else if j = threadId then
      CuSeedFilter.compatLoop self threadId nSpT spTmat isPassed invHelixDiameterVec
        lowerLimitCurv upperLimitCurv currentTop_r n (j + 1) isCompatibleSeed weight
    else
      let otherTop_r := spTmat (j + nSpT * 3)
      let deltaR := currentTop_r - otherTop_r
      if |deltaR| < self.m_cfg.deltaRMin then
        CuSeedFilter.compatLoop self threadId nSpT spTmat isPassed invHelixDiameterVec
          lowerLimitCurv upperLimitCurv currentTop_r n (j + 1) isCompatibleSeed weight
      else if invHelixDiameterVec j < lowerLimitCurv then
        CuSeedFilter.compatLoop self threadId nSpT spTmat isPassed invHelixDiameterVec
          lowerLimitCurv upperLimitCurv currentTop_r n (j + 1) isCompatibleSeed weight
      else if invHelixDiameterVec j > upperLimitCurv then
        CuSeedFilter.compatLoop self threadId nSpT spTmat isPassed invHelixDiameterVec
          lowerLimitCurv upperLimitCurv currentTop_r n (j + 1) isCompatibleSeed weight
      else
        let newCompSeed :=
          CuSeedFilter.newCompSeedLoop self nSpT spTmat isCompatibleSeed otherTop_r nSpT 0
        let isCompatibleSeed :=
          if newCompSeed = true then Function.update isCompatibleSeed j true
          else isCompatibleSeed
        let weight :=
          if newCompSeed = true then
            Function.update weight threadId (weight threadId + self.m_cfg.compatSeedWeight)
          else weight
        let NumOfCompatibleSeeds := CuSeedFilter.numCompatLoop isCompatibleSeed nSpT 0 0
        if NumOfCompatibleSeeds ≥ self.m_cfg.compatSeedLimit then (isCompatibleSeed, weight)
        else
          CuSeedFilter.compatLoop self threadId nSpT spTmat isPassed invHelixDiameterVec
            lowerLimitCurv upperLimitCurv currentTop_r n (j + 1) isCompatibleSeed weight

/-- Source lines 114-182 of `CuSeedFilter::filterSeeds_2SpFixed`: the array `weight` before the
experiment cuts are applied.  The local array `isCompatibleSeed` is `false` at every index below
`nSpT` after the loop of lines 124-126. -/
def CuSeedFilter.weightBeforeCuts (self : CuSeedFilter K) (threadId nSpT : Nat)
    (spTmat : Nat → K) (isPassed : Nat → Bool) (invHelixDiameterVec impactParametersVec : Nat → K)
    (weight : Nat → K) : Nat → K :=
  let invHelixDiameter := invHelixDiameterVec threadId
  let lowerLimitCurv := invHelixDiameter - self.m_cfg.deltaInvHelixDiameter
  let upperLimitCurv := invHelixDiameter + self.m_cfg.deltaInvHelixDiameter
  let currentTop_r := spTmat (threadId + nSpT * 3)
  let impact := impactParametersVec threadId
  let isCompatibleSeed : Nat → Bool := fun _ => false
  let weight := Function.update weight threadId (-(impact * self.m_cfg.impactWeightFactor))
  (CuSeedFilter.compatLoop self threadId nSpT spTmat isPassed invHelixDiameterVec lowerLimitCurv
    upperLimitCurv currentTop_r nSpT 0 isCompatibleSeed weight).2

/-- The local array `spT` of source lines 184-190: the row `threadId` of the column-major matrix
`spTmat` (entries 0 to 5 are filled). -/
def CuSeedFilter.spT (threadId nSpT : Nat) (spTmat : Nat → K) : Nat → K :=
  fun i => spTmat (threadId + nSpT * i)

/-- The method `CuSeedFilter::filterSeeds_2SpFixed`; the result is the pair of the output arrays
`weight` and `isTriplet` after the call.  The arguments `threadId`, `nSpT` and `Zob`, passed by
pointer, are the values pointed to. -/
def CuSeedFilter.filterSeeds_2SpFixed (self : CuSeedFilter K) (threadId : Nat)
    (spM spB : Nat → K) (nSpT : Nat) (spTmat : Nat → K) (isPassed : Nat → Bool)
    (invHelixDiameterVec impactParametersVec : Nat → K) (_Zob : K)
    (weight : Nat → K) (isTriplet : Nat → Bool) : (Nat → K) × (Nat → Bool) :=
  let isTriplet := Function.update isTriplet threadId false
  let weight := CuSeedFilter.weightBeforeCuts self threadId nSpT spTmat isPassed
    invHelixDiameterVec impactParametersVec weight
  let spT := CuSeedFilter.spT threadId nSpT spTmat
  let weight := Function.update weight threadId
    (weight threadId + CuIExperimentCuts.seedWeight spB spM spT)
  let isTriplet :=
    if (!CuIExperimentCuts.singleSeedCut (weight threadId) spB spM spT) = true then
      Function.update isTriplet threadId true
    else isTriplet
  (weight, isTriplet)

/-! ### Stage 1 of the seed filter as the specification words it (section 4.5) -/

/-- Specification, section 4.5: one top handed to stage 1 of the seed filter, with its radius,
its curvature and its impact parameter. -/
structure FilterSpec.Top (K : Type) where
  r : K
  curvature : K
  impact : K

/-- Specification, section 4.5, the scan of stage 1 over the tops `j`, given with their index in
ascending order, for the top `t` of index `i`.  `marked` holds the radii of the tops already
marked compatible for `t`, `w` is the weight so far.  The scan stops once `compatSeedLimit` tops
are marked; the top `t` itself is passed over; `j` is skipped if `|r_t - r_j| < deltaRMin`, if
`|curvature_t - curvature_j| > deltaInvHelixDiameter`, or if it is closer than `deltaRMin` in `r`
to a marked top; otherwise `j` is marked and `compatSeedWeight` is added. -/
def FilterSpec.scan (cfg : SeedFilterConfig K) (t : FilterSpec.Top K) (i : Nat) :
    List (Nat × FilterSpec.Top K) → List K → K → K
  | [], _, w => w
  | (j, tj) :: rest, marked, w =>
    if cfg.compatSeedLimit ≤ marked.length then w
    else if j = i then FilterSpec.scan cfg t i rest marked w
    else if |t.r - tj.r| < cfg.deltaRMin then FilterSpec.scan cfg t i rest marked w
    else if |t.curvature - tj.curvature| > cfg.deltaInvHelixDiameter then
      FilterSpec.scan cfg t i rest marked w
    else if marked.any (fun rk => decide (|rk - tj.r| < cfg.deltaRMin)) = true then
      FilterSpec.scan cfg t i rest marked w
    else FilterSpec.scan cfg t i rest (marked ++ [tj.r]) (w + cfg.compatSeedWeight)

/-- Specification, section 4.5: the stage-1 weight of the top `t` at index `i` of the list
`tops`: `-impact_t · impactWeightFactor`, the bonuses of the scan, and the experiment bonus
`seedWeight`. -/
def FilterSpec.stage1Weight (cfg : SeedFilterConfig K) (seedWeight : K)
    (tops : List (FilterSpec.Top K)) (i : Nat) (t : FilterSpec.Top K) : K :=
  FilterSpec.scan cfg t i tops.enum [] (-(t.impact * cfg.impactWeightFactor)) + seedWeight

/-- The top of index `j` as the arrays of `CuSeedFilter::filterSeeds_2SpFixed` hold it. -/
def CuSeedFilter.topAt (nSpT : Nat) (spTmat invHelixDiameterVec impactParametersVec : Nat → K)
    (j : Nat) : FilterSpec.Top K :=
  { r := spTmat (j + nSpT * 3)
    curvature := invHelixDiameterVec j
    impact := impactParametersVec j }

/-- The compacted list of the tops that have `isPassed` true, in ascending index order. -/
def CuSeedFilter.passedTops (nSpT : Nat) (spTmat : Nat → K) (isPassed : Nat → Bool)
    (invHelixDiameterVec impactParametersVec : Nat → K) : List (FilterSpec.Top K) :=
  ((List.range nSpT).filter isPassed).map
    (CuSeedFilter.topAt nSpT spTmat invHelixDiameterVec impactParametersVec)

/-- The index in the compacted list of the top with index `t`: the number of passed tops below
`t`. -/
def CuSeedFilter.passedIndex (isPassed : Nat → Bool) (t : Nat) : Nat :=
  ((List.range t).filter isPassed).length

end Filter

section HelixFit

variable {K : Type} [LinearOrderedField K]

/-- The line fit of `SearchTriplet` in the conformal plane (source lines 229-231): the slope `A`,
`S2 = 1 + A²` and the intercept `B` of the line through the conformal points `(Ub, Vb)` of the
bottom and `(lt.U, lt.V)` of the top, as the triple `(A, S2, B)`; `dU` is `lt.U - Ub`
(line 223). -/
def SearchTriplet.helixFit (Ub Vb : K) (lt : LinCircle K) : K × K × K :=
  let dU := lt.U - Ub
  let A := (lt.V - Vb) / dU
  let S2 := 1 + A * A
  let B := Vb - A * Ub
  (A, S2, B)

end HelixFit

section ProjectionMatrix

variable {K : Type} [LinearOrderedField K]

/-! ## `make_projection_matrix`

A matrix is the list of its rows, a row vector the list of its entries; the template pack
`rows...` is a list of indices. -/

/-- The row vector built at source lines 36-38 and 54-56 of `make_projection_matrix.hpp`:
`v.setZero(); v(i) = 1;` for a row of `columns` entries (an index outside the row writes
nothing). -/
def make_projection_matrix.rowVector (columns i : Nat) : List K :=
  (List.replicate columns (0 : K)).set i 1

/-- The static method `make_projection_matrix<columns, rows...>::init()`: the specialisation for
one index returns the row vector, the one for `i, N...` stacks the row vector of `i` on the
matrix of `N...`; for the empty pack only the declaration of the template exists, which is
`none`. -/
def make_projection_matrix.init (columns : Nat) : List Nat → Option (List (List K))
  | [] => none
  | [i] => some [make_projection_matrix.rowVector columns i]
  | i :: j :: N =>
    match make_projection_matrix.init columns (j :: N) with
    | none => none
    | some m => some (make_projection_matrix.rowVector columns i :: m)

/-- The product of a matrix (list of rows) with a column vector. -/
def make_projection_matrix.mulVec (m : List (List K)) (v : List K) : List K :=
  m.map (fun row => (List.zipWith (fun a b => a * b) row v).sum)

end ProjectionMatrix

section SeedFilterStage2

variable {K : Type} [LinearOrderedField K]

/-! ## Stage 2 of the seed filter, `SeedFilter::filterSeeds_1SpFixed` -/

/-- Modelled from the spec: the candidate seed of section 3 (bottom, middle, top, origin on the
z axis, weight), the element type of `seedsPerSpM`; the headers `InternalSeed.hpp` and `Seed.hpp`
are not among the sources. -/
structure CandidateSeed (K : Type) where
  bottom : InternalSpacePoint K
  middle : InternalSpacePoint K
  top : InternalSpacePoint K
  zOrigin : K
  weight : K

/-- Modelled from the spec: the sort key of stage 2 (sections 4.5 and 9): weight descending,
then `(r_T, r_B, z_T, z_B)` ascending, compared lexicographically. -/
def FilterSpec.sortKey (s : CandidateSeed K) : Lex (K × Lex (K × Lex (K × Lex (K × K)))) :=
  toLex (-s.weight, toLex (s.top.radius, toLex (s.bottom.radius, toLex (s.top.z, s.bottom.z))))

/-- Modelled from the spec: the order of stage 2, `a` is placed no later than `b`. -/
def FilterSpec.before (a b : CandidateSeed K) : Prop :=
  FilterSpec.sortKey a ≤ FilterSpec.sortKey b

instance FilterSpec.decBefore : DecidableRel (FilterSpec.before (K := K)) :=
  fun a b => inferInstanceAs (Decidable (FilterSpec.sortKey a ≤ FilterSpec.sortKey b))

/-- Modelled from the spec: `SeedFilter::filterSeeds_1SpFixed`, declared in `SeedFilter.hpp` and
implemented in `SeedFilter.ipp`, which is not among the sources.  Section 4.5, stage 2: sort by
weight descending with the tie-break, keep at most `maxSeedsPerSpM` entries, hand the ordered
list to `experimentCuts.cutPerMiddleSP` (the parameter `cutPerMiddleSP`), append the survivors to
`outVec`.  The result is `outVec` after the call. -/
def SeedFilter.filterSeeds_1SpFixed (m_cfg : SeedFilterConfig K)
    (cutPerMiddleSP : List (CandidateSeed K) → List (CandidateSeed K))
    (seedsPerSpM outVec : List (CandidateSeed K)) : List (CandidateSeed K) :=
  outVec ++
    cutPerMiddleSP ((seedsPerSpM.insertionSort FilterSpec.before).take m_cfg.maxSeedsPerSpM)

end SeedFilterStage2

section Scaling

variable {K : Type} [LinearOrderedField K]

/-! ## The scaling law of the specification (section 8) -/

/-- Specification, section 8, scaling: a space point with `x, y, z, r` multiplied by `α` and the
variances, which are squared lengths, by `α²`. -/
def InternalSpacePoint.scale (α : K) (p : InternalSpacePoint K) : InternalSpacePoint K where
  x := α * p.x
  y := α * p.y
  z := α * p.z
  radius := α * p.radius
  varianceR := α ^ 2 * p.varianceR
  varianceZ := α ^ 2 * p.varianceZ

/-- Specification, section 8, scaling: the configuration with `rMax`, `deltaRMin` and `deltaRMax`
multiplied by `α` and every other field unchanged. -/
def SeedfinderConfig.scaleLengths (α : K) (config : SeedfinderConfig K) : SeedfinderConfig K :=
  { config with
    rMax := α * config.rMax
    deltaRMin := α * config.deltaRMin
    deltaRMax := α * config.deltaRMax }

/-- The configuration with every length multiplied by `α`: besides `rMax`, `deltaRMin` and
`deltaRMax` also the collision region and `impactMax`, and the squared lengths
`minHelixDiameter2` and `pT2perRadius` multiplied by `α²`. -/
def SeedfinderConfig.scaleAll (α : K) (config : SeedfinderConfig K) : SeedfinderConfig K :=
  { SeedfinderConfig.scaleLengths α config with
    collisionRegionMin := α * config.collisionRegionMin
    collisionRegionMax := α * config.collisionRegionMax
    impactMax := α * config.impactMax
    minHelixDiameter2 := α ^ 2 * config.minHelixDiameter2
    pT2perRadius := α ^ 2 * config.pT2perRadius }

/-- The `LinCircle` of a duplet after scaling by `α`: `Zo` is a length, `iDeltaR`, `U` and `V`
are inverse lengths, `cotTheta` and `Er` have no dimension. -/
def LinCircle.scale (α : K) (l : LinCircle K) : LinCircle K where
  Zo := α * l.Zo
  cotTheta := l.cotTheta
  iDeltaR := l.iDeltaR / α
  Er := l.Er
  U := l.U / α
  V := l.V / α

/-- A filter call after scaling by `α`: the points are scaled, the curvatures are inverse
lengths, the impact parameters and the origin are lengths. -/
def SearchTriplet.FilterCall.scale (α : K) (c : SearchTriplet.FilterCall K) :
    SearchTriplet.FilterCall K where
  bottomSP := c.bottomSP.scale α
  topSpVec := c.topSpVec.map (InternalSpacePoint.scale α)
  curvatures := c.curvatures.map (fun x => x / α)
  impactParameters := c.impactParameters.map (fun x => α * x)
  zOrigin := α * c.zOrigin

end Scaling

section CheckedArithmetic

variable {K : Type} [LinearOrderedField K]

/-! ## The divisions and the error term of `SearchTriplet` -/

/-- The variable `error2` of the inner loop of `SearchTriplet` (source lines 196-198) for the
bottom fields `cotThetaB`, `ErB`, `iDeltaRB` read at lines 164-168 and the top `LinCircle` `lt`;
`SearchTriplet.tripletCuts` binds the same expression. -/
def SearchTriplet.error2 (spM : InternalSpacePoint K) (cotThetaB ErB iDeltaRB : K)
    (lt : LinCircle K) : K :=
  let varianceRM := spM.varianceR
  let varianceZM := spM.varianceZ
  lt.Er + ErB + 2 * (cotThetaB * lt.cotTheta * varianceRM + varianceZM) * iDeltaRB * lt.iDeltaR

/-- A division that fails (`none`) on a zero denominator. -/
def SearchTriplet.checkedDiv (a b : K) : Option K :=
  if b = 0 then none else some (a / b)

/-- One pass of the inner loop of `SearchTriplet` (source lines 192-257) as
`SearchTriplet.tripletCuts`, with each of its three divisions (`(lt.V - Vb) / dU` of line 229,
`B2 / S2` of line 239 and `B / std::sqrt(S2)` of line 261) replaced by the checked division: the
outer `none` stands for a division by zero, `some r` for a pass that ends with the result `r` of
`SearchTriplet.tripletCuts`. -/
def SearchTriplet.tripletCutsChecked (sqrt : K → K) (spM : InternalSpacePoint K)
    (config : SeedfinderConfig K) (cotThetaB Vb Ub ErB iDeltaRB iSinTheta2 scatteringInRegion2 : K)
    (lt : LinCircle K) : Option (Option (K × K)) :=
  let rM := spM.radius
  let varianceRM := spM.varianceR
  let varianceZM := spM.varianceZ
  let error2 := lt.Er + ErB +
    2 * (cotThetaB * lt.cotTheta * varianceRM + varianceZM) * iDeltaRB * lt.iDeltaR
  let deltaCotTheta := cotThetaB - lt.cotTheta
  let deltaCotTheta2 := deltaCotTheta * deltaCotTheta
  let dCotThetaMinusError2 := deltaCotTheta2 + error2 - 2 * |deltaCotTheta| * sqrt error2
  if deltaCotTheta2 - error2 > 0 ∧ 0 ≤ error2 ∧ dCotThetaMinusError2 > scatteringInRegion2
  then some none
  else
    let dU := lt.U - Ub
    if dU = 0 then some none
    else
      match SearchTriplet.checkedDiv (lt.V - Vb) dU with
      | none => none
      | some A =>
        let S2 := 1 + A * A
        let B := Vb - A * Ub
        let B2 := B * B
        if S2 < B2 * config.minHelixDiameter2 then some none
        else
          match SearchTriplet.checkedDiv B2 S2 with
          | none => none
          | some iHelixDiameter2 =>
            let pT2scatter := 4 * iHelixDiameter2 * config.pT2perRadius
            let p2scatter := pT2scatter * iSinTheta2
            if deltaCotTheta2 - error2 > 0 ∧ 0 ≤ error2 ∧
                dCotThetaMinusError2 > p2scatter * config.sigmaScattering * config.sigmaScattering
            then some none
            else
              let Im := |(A - B * rM) * rM|
              if Im ≤ config.impactMax then
                match SearchTriplet.checkedDiv B (sqrt S2) with
                | none => none
                | some curvature => some (some (curvature, Im))
              else some none

end CheckedArithmetic

section DupletAngle

variable {K : Type} [LinearOrderedField K]

/-- The variable `cotTheta` of `SearchDoublet` for the partner `sp` of the middle `spM`: source
line 41 in the bottom branch (`deltaR = rM - rB`, line 31), line 68 in the top branch
(`deltaR = rT - rM`, line 59). -/
def SearchDoublet.cotTheta (isBottom : Bool) (spM sp : InternalSpacePoint K) : K :=
  let rM := spM.radius
  let zM := spM.z
  if isBottom then
    let rB := sp.radius
    let deltaR := rM - rB
    (zM - sp.z) / deltaR
  else
    let rT := sp.radius
    let deltaR := rT - rM
    (sp.z - zM) / deltaR

end DupletAngle

section ScatteringResidual

variable {K : Type} [LinearOrderedField K]

/-- The value assigned to the variable `dCotThetaMinusError2` of `SearchTriplet` under the test
`deltaCotTheta2 - error2 > 0` (source lines 200-211): `deltaCotTheta` is replaced by its absolute
value at line 207 after `deltaCotTheta2` is computed, `error` is `std::sqrt(error2)`;
`SearchTriplet.tripletCuts` binds the same expression. -/
def SearchTriplet.dCotThetaMinusError2 (sqrt : K → K) (spM : InternalSpacePoint K)
    (cotThetaB ErB iDeltaRB : K) (lt : LinCircle K) : K :=
  let error2 := SearchTriplet.error2 spM cotThetaB ErB iDeltaRB lt
  let deltaCotTheta := cotThetaB - lt.cotTheta
  let deltaCotTheta2 := deltaCotTheta * deltaCotTheta
  let deltaCotTheta := |deltaCotTheta|
  let error := sqrt error2
  deltaCotTheta2 + error2 - 2 * deltaCotTheta * error

end ScatteringResidual

section CheckedTransform

variable {K : Type} [LinearOrderedField K]

/-! ## The divisions of `transformCoordinates` -/

/-- The loop of `transformCoordinates` as `transformCoordinates.loop`, with the division
`1. / (deltaX * deltaX + deltaY * deltaY)` of line 108 replaced by the checked division: `none`
stands for a division by zero, after which the fields of the `LinCircle` are infinities and NaN
instead of numbers. -/
def transformCoordinates.loopChecked (sqrt : K → K) (spM : InternalSpacePoint K) (bottom : Bool)
    (cosPhiM sinPhiM : K) :
    List (InternalSpacePoint K) → List (LinCircle K) → Option (List (LinCircle K))
  | [], linCircleVec => some linCircleVec
  | sp :: vec, linCircleVec =>
    let xM := spM.x
    let yM := spM.y
    let zM := spM.z
    let rM := spM.radius
    let varianceZM := spM.varianceZ
    let varianceRM := spM.varianceR
    let deltaX := sp.x - xM
    let deltaY := sp.y - yM
    let deltaZ := sp.z - zM
    let x := deltaX * cosPhiM + deltaY * sinPhiM
    let y := deltaY * cosPhiM - deltaX * sinPhiM
    match SearchTriplet.checkedDiv 1 (deltaX * deltaX + deltaY * deltaY) with
    | none => none
    | some iDeltaR2 =>
      let iDeltaR := sqrt iDeltaR2
      let bottomFactor : Int := 1 * (if !bottom then 1 else 0) - 1 * (if bottom then 1 else 0)
      let cot_theta := deltaZ * iDeltaR * (bottomFactor : K)
      let l : LinCircle K :=
        { cotTheta := cot_theta
          Zo := zM - rM * cot_theta
          iDeltaR := iDeltaR
          U := x * iDeltaR2
          V := y * iDeltaR2
          Er := ((varianceZM + sp.varianceZ) +
            (cot_theta * cot_theta) * (varianceRM + sp.varianceR)) * iDeltaR2 }
      transformCoordinates.loopChecked sqrt spM bottom cosPhiM sinPhiM vec (linCircleVec ++ [l])

/-- The function `transformCoordinates` with its divisions checked: `xM / rM` and `yM / rM` of
lines 95-96 and the division of the loop. -/
def transformCoordinates.checked (sqrt : K → K) (vec : List (InternalSpacePoint K))
    (spM : InternalSpacePoint K) (bottom : Bool) (linCircleVec : List (LinCircle K)) :
    Option (List (LinCircle K)) :=
  let xM := spM.x
  let yM := spM.y
  let rM := spM.radius
  match SearchTriplet.checkedDiv xM rM, SearchTriplet.checkedDiv yM rM with
  | some cosPhiM, some sinPhiM =>
    transformCoordinates.loopChecked sqrt spM bottom cosPhiM sinPhiM vec linCircleVec
  | _, _ => none

end CheckedTransform

section Binary32

/-! ## Arithmetic in binary32

The functions above are embedded over an exact ordered field.  The C++ code computes in `float`
(IEEE 754 binary32): the result of every operation is rounded to the nearest number with a 24 bit
significand.  The definitions of this section give the rounding on the rationals and the
functions with every operation rounded; the exponent range is not limited (no overflow, no
subnormal numbers), which is enough for the inputs they are evaluated on. -/

/-- The largest `j < k` with `2^j ≤ n`, or `0` when there is none: for `0 < n < 2^k` the position
of the leading bit of `n`. -/
def Binary32.log2 (n : ℕ) : ℕ → ℕ
  | 0 => 0
  | k + 1 => if 2 ^ k ≤ n then k else Binary32.log2 n k

/-- The binary exponent of a rational `q ≠ 0` with numerator and denominator below `2^256`: the
integer `e` with `2^e ≤ |q| < 2^(e+1)`. -/
def Binary32.exponent (q : ℚ) : ℤ :=
  let e0 : ℤ := (Binary32.log2 q.num.natAbs 256 : ℤ) - (Binary32.log2 q.den 256 : ℤ)
  if (2 : ℚ) ^ e0 ≤ |q| then e0 else e0 - 1

/-- The integer nearest to `m`, the even one of the two when `m` is half way between them. -/
def Binary32.nearest (m : ℚ) : ℤ :=
  let f : ℤ := ⌊m⌋
  let r : ℚ := m - f
  if r < 1 / 2 then f else if 1 / 2 < r then f + 1 else if f % 2 = 0 then f else f + 1

/-- Rounding to binary32, round to nearest, ties to even: the multiple of
`2^(e - 23)` nearest to `q`, where `e` is the binary exponent of `q`. -/
def Binary32.round (q : ℚ) : ℚ :=
  if q = 0 then 0 else
    let ulp : ℚ := 2 ^ (Binary32.exponent q - 23)
    Binary32.nearest (q / ulp) * ulp

/-- The integer square root of `y < 2^(2k)` bit by bit: `r` is the part found so far. -/
def Binary32.isqrtAux (y : ℕ) : ℕ → ℕ → ℕ
  | 0, r => r
  | k + 1, r =>
    if (r + 2 ^ k) * (r + 2 ^ k) ≤ y then Binary32.isqrtAux y k (r + 2 ^ k)
    else Binary32.isqrtAux y k r

/-- The function `std::sqrt` on `float`: the binary32 number nearest to the square root of
`x > 0`.  With `2^(2E) ≤ x < 2^(2E+2)` the root lies in `[2^E, 2^(E+1))`; `n0` is the integer part
of the root in units of `2^(E - 23)`, and the root is above `n0 + 1/2` exactly when
`y > n0² + n0 + 1/4`.  For `x ≤ 0` the result is `0` (the NaN of a negative argument is not a
number of this model). -/
def Binary32.sqrt (x : ℚ) : ℚ :=
  if x ≤ 0 then 0 else
    let E : ℤ := Binary32.exponent x / 2
    let ulp : ℚ := 2 ^ (E - 23)
    let y : ℚ := x / (ulp * ulp)
    let n0 : ℕ := Binary32.isqrtAux ⌊y⌋.toNat 24 0
    let c : ℚ := (n0 : ℚ) * n0 + n0 + 1 / 4
    let n : ℕ := if y < c then n0 else if c < y then n0 + 1 else if n0 % 2 = 0 then n0 else n0 + 1
    n * ulp

variable {K : Type} [LinearOrderedField K]

/-- The loop of the bottom branch of `SearchDoublet` (source lines 29-52) as
`SearchDoublet.bottomLoop`, with the result of every float operation rounded by `fl`. -/
def SearchDoublet.bottomLoopRounded (fl : K → K) (spM : InternalSpacePoint K)
    (config : SeedfinderConfig K) :
    List (InternalSpacePoint K) → List (InternalSpacePoint K) → List (InternalSpacePoint K)
  | [], compatSPs => compatSPs
  | sp :: SPs, compatSPs =>
    let rM := spM.radius
    let zM := spM.z
    let rB := sp.radius
    let deltaR := fl (rM - rB)
    if deltaR > config.deltaRMax then
      SearchDoublet.bottomLoopRounded fl spM config SPs compatSPs
    else if deltaR < config.deltaRMin then
      SearchDoublet.bottomLoopRounded fl spM config SPs compatSPs
    else if deltaR = 0 then
      if fl (zM - sp.z) = 0 then
        SearchDoublet.bottomLoopRounded fl spM config SPs (compatSPs ++ [sp])
      else
        SearchDoublet.bottomLoopRounded fl spM config SPs compatSPs
    else
      let cotTheta := fl (fl (zM - sp.z) / deltaR)
      if |cotTheta| > config.cotThetaMax then
        SearchDoublet.bottomLoopRounded fl spM config SPs compatSPs
      else
        let zOrigin := fl (zM - fl (rM * cotTheta))
        if zOrigin < config.collisionRegionMin ∨ zOrigin > config.collisionRegionMax then
          SearchDoublet.bottomLoopRounded fl spM config SPs compatSPs
        else
          SearchDoublet.bottomLoopRounded fl spM config SPs (compatSPs ++ [sp])

/-- The variable `cotTheta` of the bottom branch of `SearchDoublet` (source line 41) with the
result of every float operation rounded by `fl`. -/
def SearchDoublet.cotThetaRounded (fl : K → K) (spM sp : InternalSpacePoint K) : K :=
  let rM := spM.radius
  let zM := spM.z
  let rB := sp.radius
  let deltaR := fl (rM - rB)
  fl (fl (zM - sp.z) / deltaR)

/-- The loop of `transformCoordinates` (source lines 97-132) as `transformCoordinates.loop`, with
the result of every float operation rounded by `fl`; `sqrt` stands for `std::sqrt` on `float`.
The quotient `1. / (…)` of line 108 is computed in `double` and then rounded to `float`, which
gives the rounded quotient; the conversion of the integer `bottomFactor` to `float` is exact. -/
def transformCoordinates.loopRounded (fl sqrt : K → K) (spM : InternalSpacePoint K)
    (bottom : Bool) (cosPhiM sinPhiM : K) :
    List (InternalSpacePoint K) → List (LinCircle K) → List (LinCircle K)
  | [], linCircleVec => linCircleVec
  | sp :: vec, linCircleVec =>
    let xM := spM.x
    let yM := spM.y
    let zM := spM.z
    let rM := spM.radius
    let varianceZM := spM.varianceZ
    let varianceRM := spM.varianceR
    let deltaX := fl (sp.x - xM)
    let deltaY := fl (sp.y - yM)
    let deltaZ := fl (sp.z - zM)
    let x := fl (fl (deltaX * cosPhiM) + fl (deltaY * sinPhiM))
    let y := fl (fl (deltaY * cosPhiM) - fl (deltaX * sinPhiM))
    let iDeltaR2 := fl (1 / fl (fl (deltaX * deltaX) + fl (deltaY * deltaY)))
    let iDeltaR := sqrt iDeltaR2
    let bottomFactor : Int := 1 * (if !bottom then 1 else 0) - 1 * (if bottom then 1 else 0)
    let cot_theta := fl (fl (deltaZ * iDeltaR) * (bottomFactor : K))
    let l : LinCircle K :=
      { cotTheta := cot_theta
        Zo := fl (zM - fl (rM * cot_theta))
        iDeltaR := iDeltaR
        U := fl (x * iDeltaR2)
        V := fl (y * iDeltaR2)
        Er := fl (fl (fl (varianceZM + sp.varianceZ) +
          fl (fl (cot_theta * cot_theta) * fl (varianceRM + sp.varianceR))) * iDeltaR2) }
    transformCoordinates.loopRounded fl sqrt spM bottom cosPhiM sinPhiM vec (linCircleVec ++ [l])

/-- The function `transformCoordinates` with the result of every float operation rounded by
`fl`. -/
def transformCoordinates.rounded (fl sqrt : K → K) (vec : List (InternalSpacePoint K))
    (spM : InternalSpacePoint K) (bottom : Bool) (linCircleVec : List (LinCircle K)) :
    List (LinCircle K) :=
  let xM := spM.x
  let yM := spM.y
  let rM := spM.radius
  let cosPhiM := fl (xM / rM)
  let sinPhiM := fl (yM / rM)
  transformCoordinates.loopRounded fl sqrt spM bottom cosPhiM sinPhiM vec linCircleVec

/-- The variable `error2` of the inner loop of `SearchTriplet` (source lines 196-198) as
`SearchTriplet.error2`, with the result of every float operation rounded by `fl`. -/
def SearchTriplet.error2Rounded (fl : K → K) (spM : InternalSpacePoint K)
    (cotThetaB ErB iDeltaRB : K) (lt : LinCircle K) : K :=
  let varianceRM := spM.varianceR
  let varianceZM := spM.varianceZ
  fl (fl (lt.Er + ErB) +
    fl (fl (fl (2 * fl (fl (fl (cotThetaB * lt.cotTheta) * varianceRM) + varianceZM)) *
      iDeltaRB) * lt.iDeltaR))

/-- One pass of the inner loop of `SearchTriplet` (source lines 192-257) as
`SearchTriplet.tripletCuts`, with the result of every float operation rounded by `fl`; `sqrt`
stands for `std::sqrt` on `float`. -/
def SearchTriplet.tripletCutsRounded (fl sqrt : K → K) (spM : InternalSpacePoint K)
    (config : SeedfinderConfig K) (cotThetaB Vb Ub ErB iDeltaRB iSinTheta2 scatteringInRegion2 : K)
    (lt : LinCircle K) : Option (K × K) :=
  let rM := spM.radius
  let error2 := SearchTriplet.error2Rounded fl spM cotThetaB ErB iDeltaRB lt
  let deltaCotTheta := fl (cotThetaB - lt.cotTheta)
  let deltaCotTheta2 := fl (deltaCotTheta * deltaCotTheta)
  let dCotThetaMinusError2 :=
    fl (fl (deltaCotTheta2 + error2) - fl (fl (2 * |deltaCotTheta|) * sqrt error2))
  if fl (deltaCotTheta2 - error2) > 0 ∧ 0 ≤ error2 ∧ dCotThetaMinusError2 > scatteringInRegion2
  then none
  else
    let dU := fl (lt.U - Ub)
    if dU = 0 then none
    else
      let A := fl (fl (lt.V - Vb) / dU)
      let S2 := fl (1 + fl (A * A))
      let B := fl (Vb - fl (A * Ub))
      let B2 := fl (B * B)
      if S2 < fl (B2 * config.minHelixDiameter2) then none
      else
        let iHelixDiameter2 := fl (B2 / S2)
        let pT2scatter := fl (fl (4 * iHelixDiameter2) * config.pT2perRadius)
        let p2scatter := fl (pT2scatter * iSinTheta2)
        if fl (deltaCotTheta2 - error2) > 0 ∧ 0 ≤ error2 ∧
            dCotThetaMinusError2 >
              fl (fl (p2scatter * config.sigmaScattering) * config.sigmaScattering)
        then none
        else
          let Im := |fl (fl (A - fl (B * rM)) * rM)|
          if Im ≤ config.impactMax then some (fl (B / sqrt S2), Im) else none

/-- One pass of the inner loop of `SearchTriplet` in rounded arithmetic for the bottom with
`LinCircle` `lb`: the bottom fields and the two scattering quantities are read and computed as at
source lines 163-184. -/
def SearchTriplet.passRounded (fl sqrt : K → K) (spM : InternalSpacePoint K)
    (config : SeedfinderConfig K) (lb lt : LinCircle K) : Option (K × K) :=
  let cotThetaB := lb.cotTheta
  let Vb := lb.V
  let Ub := lb.U
  let ErB := lb.Er
  let iDeltaRB := lb.iDeltaR
  let iSinTheta2 := fl (1 + fl (cotThetaB * cotThetaB))
  let scatteringInRegion2 := fl (config.maxScatteringAngle2 * iSinTheta2)
  let scatteringInRegion2 :=
    fl (scatteringInRegion2 * fl (config.sigmaScattering * config.sigmaScattering))
  SearchTriplet.tripletCutsRounded fl sqrt spM config cotThetaB Vb Ub ErB iDeltaRB iSinTheta2
    scatteringInRegion2 lt

end Binary32

/-! ## Concrete inputs used to evaluate the definitions -/

/-- A configuration with the values of `SeedfinderCUDAValidate.cpp` (`deltaRMin = 5`,
`deltaRMax = 160`, collision region `±250`, `cotThetaMax = 7.4`, `impactMax = 10`); the derived
quantities, which the test leaves to the configuration class, are given sample values. -/
def Example.config : SeedfinderConfig ℚ where
  rMax := 160
  deltaRMin := 5
  deltaRMax := 160
  cotThetaMax := 74 / 10
  collisionRegionMin := -250
  collisionRegionMax := 250
  maxScatteringAngle2 := 1 / 1000000
  sigmaScattering := 1
  minHelixDiameter2 := 1000000
  pT2perRadius := 1 / 100
  impactMax := 10

/-- A space point on the x axis: `(x, 0, z)` with radius `x` and zero variances. -/
def Example.onAxis (x z : ℚ) : InternalSpacePoint ℚ :=
  ⟨x, 0, z, x, 0, 0⟩

/-- The example configuration with a radial window that admits negative gaps. -/
def Example.configNegativeGap : SeedfinderConfig ℚ :=
  { Example.config with deltaRMin := -10 }

/-- The example configuration with the collision region `[-250, 50]`. -/
def Example.configAsymmetricRegion : SeedfinderConfig ℚ :=
  { Example.config with collisionRegionMax := 50 }

/-- A square root on the rationals for evaluating the definitions: exact on squares of rationals
(`Rat.sqrt` of Mathlib). -/
def Example.sqrt (q : ℚ) : ℚ :=
  Rat.sqrt q

/-- The bottom partner of scenario 3 of the specification, `(10, 0, 0)`. -/
def Example.bottoms : List (InternalSpacePoint ℚ) :=
  [Example.onAxis 10 0]

/-- The top partner of scenario 3 of the specification, `(150, 0, 0)`. -/
def Example.tops : List (InternalSpacePoint ℚ) :=
  [Example.onAxis 150 0]

/-- The `LinCircle`s of the example bottoms around the middle `(50, 0, 0)`. -/
def Example.linCircleBottom : List (LinCircle ℚ) :=
  transformCoordinates Example.sqrt Example.bottoms (Example.onAxis 50 0) true []

/-- The `LinCircle`s of the example tops around the middle `(50, 0, 0)`. -/
def Example.linCircleTop : List (LinCircle ℚ) :=
  transformCoordinates Example.sqrt Example.tops (Example.onAxis 50 0) false []

/-- The default values of `SeedFilterConfig` (`SeedFilter.hpp`, lines 24-37). -/
def Example.filterConfig : SeedFilterConfig ℚ where
  deltaInvHelixDiameter := 3 / 100000
  impactWeightFactor := 1
  compatSeedWeight := 200
  deltaRMin := 5
  maxSeedsPerSpM := 10
  compatSeedLimit := 2

/-- A seed filter with the default configuration. -/
def Example.cuFilter : CuSeedFilter ℚ :=
  ⟨Example.filterConfig⟩

/-- A seed filter with `compatSeedLimit = 0`. -/
def Example.cuFilterLimit0 : CuSeedFilter ℚ :=
  ⟨{ Example.filterConfig with compatSeedLimit := 0 }⟩

/-- A raw array holding the given values (zero beyond them). -/
def Example.array (l : List ℚ) : Nat → ℚ :=
  fun i => l.getD i 0

/-- A space point `(x, 0, z)` on the x axis as a `const float*` (x, y, z, r, varianceR,
varianceZ). -/
def Example.point (x z : ℚ) : Nat → ℚ :=
  Example.array [x, 0, z, x, 0, 0]

/-- The column-major matrix `spTmat` of three tops at the radii 160, 170 and 180, all on the x
axis at `z = 0` with zero variances. -/
def Example.spTmat : Nat → ℚ :=
  Example.array [160, 170, 180, 0, 0, 0, 0, 0, 0, 160, 170, 180, 0, 0, 0, 0, 0, 0]

/-- Every top passed the triplet cuts. -/
def Example.allPassed : Nat → Bool :=
  fun _ => true

/-- Equal curvatures and impact parameters (zero) for all tops. -/
def Example.zeros : Nat → ℚ :=
  fun _ => 0

/-- The output array `isTriplet` before the call. -/
def Example.noTriplet : Nat → Bool :=
  fun _ => false

/-- Curvatures of three tops that differ pairwise by far more than `deltaInvHelixDiameter`. -/
def Example.distinctCurvatures : Nat → ℚ :=
  Example.array [0, 1, 2]

/-- A candidate seed on the x axis with the given top radius and weight. -/
def Example.candidate (rTop weight : ℚ) : CandidateSeed ℚ where
  bottom := Example.onAxis 10 0
  middle := Example.onAxis 50 0
  top := Example.onAxis rTop 0
  zOrigin := 0
  weight := weight

/-- A seed filter configuration that keeps at most two seeds for a middle. -/
def Example.filterConfigTwo : SeedFilterConfig ℚ :=
  { Example.filterConfig with maxSeedsPerSpM := 2 }

/-- The example configuration with every value rounded to binary32 (`7.4f`, `1e-6f`, `0.01f`;
the other values are binary32 numbers). -/
def Example.configBinary32 : SeedfinderConfig ℚ :=
  { Example.config with
    cotThetaMax := Binary32.round (74 / 10)
    maxScatteringAngle2 := Binary32.round (1 / 1000000)
    pT2perRadius := Binary32.round (1 / 100) }

/-- A middle and a bottom on the x axis whose duplet has `cotθ = 111/15 = 7.4`. -/
def Example.steepMiddle : InternalSpacePoint ℚ := ⟨30, 0, 111, 30, 0, 0⟩

/-- The bottom partner of `Example.steepMiddle`. -/
def Example.steepBottom : InternalSpacePoint ℚ := ⟨15, 0, 0, 15, 0, 0⟩

/-- A middle with `varianceR = 1` between a bottom and a top at transverse distance 5 and
longitudinal distance 5. -/
def Example.slantMiddle : InternalSpacePoint ℚ := ⟨50, 0, 0, 50, 1, 0⟩

/-- The bottom partner of `Example.slantMiddle`. -/
def Example.slantBottom : InternalSpacePoint ℚ := ⟨45, 0, 5, 45, 0, 0⟩

/-- The top partner of `Example.slantMiddle`. -/
def Example.slantTop : InternalSpacePoint ℚ := ⟨55, 0, 5, 55, 0, 0⟩

/-- Three points on the radial line through `(16, 30)`: the middle at radius 34. -/
def Example.lineMiddle : InternalSpacePoint ℚ := ⟨16, 30, 0, 34, 0, 0⟩

/-- The bottom `(8, 15)` at radius 17, half the middle. -/
def Example.lineBottom : InternalSpacePoint ℚ := ⟨8, 15, 0, 17, 0, 0⟩

/-- The top `(40, 75)` at radius 85, five halves of the middle. -/
def Example.lineTop : InternalSpacePoint ℚ := ⟨40, 75, 0, 85, 0, 0⟩

section DoubletProofs

variable {K : Type} [LinearOrderedField K]

/-- Where the gap is not zero the condition of the bottom loop is the three tests of the
specification. -/
theorem SearchDoublet.bottomKeeps_iff (config : SeedfinderConfig K) (M S : InternalSpacePoint K)
    (h : M.radius - S.radius ≠ 0) :
    SearchDoublet.bottomKeeps config M S ↔ DupletSpec.bottomAccepted config M S := by
  simp only [SearchDoublet.bottomKeeps, DupletSpec.bottomAccepted, if_neg h]

/-- Where the gap is not zero the condition of the top loop is the three tests of the
specification. -/
theorem SearchDoublet.topKeeps_iff (config : SeedfinderConfig K) (M S : InternalSpacePoint K)
    (h : S.radius - M.radius ≠ 0) :
    SearchDoublet.topKeeps config M S ↔ DupletSpec.topAccepted config M S := by
  simp only [SearchDoublet.topKeeps, DupletSpec.topAccepted, if_neg h]

/-- With `deltaRMin > 0` a zero gap is outside the window, so the condition of the bottom loop is
the three tests of the specification. -/
theorem SearchDoublet.bottomKeeps_iff_of_pos (config : SeedfinderConfig K)
    (M S : InternalSpacePoint K) (hmin : 0 < config.deltaRMin) :
    SearchDoublet.bottomKeeps config M S ↔ DupletSpec.bottomAccepted config M S := by
  by_cases h : M.radius - S.radius = 0
  · constructor
    · intro hk
      have := hk.1.1
      rw [h] at this
      exact absurd hmin (not_lt.2 this)
    · intro hk
      have := hk.1.1
      rw [h] at this
      exact absurd hmin (not_lt.2 this)
  · exact SearchDoublet.bottomKeeps_iff config M S h

/-- With `deltaRMin > 0` the condition of the top loop is the three tests of the
specification. -/
theorem SearchDoublet.topKeeps_iff_of_pos (config : SeedfinderConfig K)
    (M S : InternalSpacePoint K) (hmin : 0 < config.deltaRMin) :
    SearchDoublet.topKeeps config M S ↔ DupletSpec.topAccepted config M S := by
  by_cases h : S.radius - M.radius = 0
  · constructor
    · intro hk
      have := hk.1.1
      rw [h] at this
      exact absurd hmin (not_lt.2 this)
    · intro hk
      have := hk.1.1
      rw [h] at this
      exact absurd hmin (not_lt.2 this)
  · exact SearchDoublet.topKeeps_iff config M S h

theorem SearchDoublet.bottomLoop_cons (spM : InternalSpacePoint K)
    (config : SeedfinderConfig K) (sp : InternalSpacePoint K)
    (SPs acc : List (InternalSpacePoint K)) :
    SearchDoublet.bottomLoop spM config (sp :: SPs) acc =
      if SearchDoublet.bottomKeeps config spM sp
      then SearchDoublet.bottomLoop spM config SPs (acc ++ [sp])
      else SearchDoublet.bottomLoop spM config SPs acc := by
  simp only [SearchDoublet.bottomLoop, gt_iff_lt]
  by_cases hA : SearchDoublet.bottomKeeps config spM sp
  · rw [if_pos hA]
    obtain ⟨⟨h1, h2⟩, h3⟩ := hA
    rw [if_neg (not_lt.2 h2), if_neg (not_lt.2 h1)]
    by_cases h0 : spM.radius - sp.radius = 0
    · rw [if_pos h0] at h3
      rw [if_pos h0, if_pos h3]
    · rw [if_neg h0] at h3
      obtain ⟨h3, h4, h5⟩ := h3
      rw [if_neg h0, if_neg (not_lt.2 h3), if_neg (not_or.2 ⟨not_lt.2 h4, not_lt.2 h5⟩)]
  · rw [if_neg hA]
    split_ifs with h1 h2 h0 hz h3 h4
    · rfl
    · rfl
    · exact absurd ⟨⟨not_lt.1 h2, not_lt.1 h1⟩, by rw [if_pos h0]; exact hz⟩ hA
    · rfl
    · rfl
    · rfl
    · exact absurd ⟨⟨not_lt.1 h2, not_lt.1 h1⟩, by
        rw [if_neg h0]
        exact ⟨not_lt.1 h3, not_lt.1 (not_or.1 h4).1, not_lt.1 (not_or.1 h4).2⟩⟩ hA

theorem SearchDoublet.bottomLoop_eq_filter (spM : InternalSpacePoint K)
    (config : SeedfinderConfig K) (SPs acc : List (InternalSpacePoint K)) :
    SearchDoublet.bottomLoop spM config SPs acc =
      acc ++ SPs.filter (fun S => decide (SearchDoublet.bottomKeeps config spM S)) := by
  induction SPs generalizing acc with
  | nil => simp [SearchDoublet.bottomLoop]
  | cons sp SPs ih =>
    rw [SearchDoublet.bottomLoop_cons]
    by_cases hA : SearchDoublet.bottomKeeps config spM sp
    · simp [hA, ih]
    · simp [hA, ih]

/-- One step of the top loop: a partner below the radial window is skipped, a partner above it
ends the scan, a partner inside it is pushed under the condition `SearchDoublet.topKeeps`. -/
theorem SearchDoublet.topLoop_cons (spM : InternalSpacePoint K)
    (config : SeedfinderConfig K) (sp : InternalSpacePoint K)
    (SPs acc : List (InternalSpacePoint K)) :
    SearchDoublet.topLoop spM config (sp :: SPs) acc =
      if sp.radius - spM.radius < config.deltaRMin
      then SearchDoublet.topLoop spM config SPs acc
      else if config.deltaRMax < sp.radius - spM.radius then acc
      else if SearchDoublet.topKeeps config spM sp
      then SearchDoublet.topLoop spM config SPs (acc ++ [sp])
      else SearchDoublet.topLoop spM config SPs acc := by
  simp only [SearchDoublet.topLoop, gt_iff_lt]
  by_cases h1 : sp.radius - spM.radius < config.deltaRMin
  · simp only [if_pos h1]
  · by_cases h2 : config.deltaRMax < sp.radius - spM.radius
    · simp only [if_neg h1, if_pos h2]
    · simp only [if_neg h1, if_neg h2]
      by_cases hA : SearchDoublet.topKeeps config spM sp
      · rw [if_pos hA]
        obtain ⟨-, h3⟩ := hA
        by_cases h0 : sp.radius - spM.radius = 0
        · rw [if_pos h0] at h3
          rw [if_pos h0, if_pos h3]
        · rw [if_neg h0] at h3
          obtain ⟨h3, h4, h5⟩ := h3
          rw [if_neg h0, if_neg (not_lt.2 h3), if_neg (not_or.2 ⟨not_lt.2 h4, not_lt.2 h5⟩)]
      · rw [if_neg hA]
        split_ifs with h0 hz h3 h4
        · exact absurd ⟨⟨not_lt.1 h1, not_lt.1 h2⟩, by rw [if_pos h0]; exact hz⟩ hA
        · rfl
        · rfl
        · rfl
        · exact absurd ⟨⟨not_lt.1 h1, not_lt.1 h2⟩, by
            rw [if_neg h0]
            exact ⟨not_lt.1 h3, not_lt.1 (not_or.1 h4).1, not_lt.1 (not_or.1 h4).2⟩⟩ hA

/-- Whatever the top loop returns beyond its accumulator satisfies the condition of its
pass. -/
theorem SearchDoublet.topLoop_mem (spM : InternalSpacePoint K)
    (config : SeedfinderConfig K) (SPs acc : List (InternalSpacePoint K))
    (S : InternalSpacePoint K) (hS : S ∈ SearchDoublet.topLoop spM config SPs acc) :
    S ∈ acc ∨ (S ∈ SPs ∧ SearchDoublet.topKeeps config spM S) := by
  induction SPs generalizing acc with
  | nil => left; simpa [SearchDoublet.topLoop] using hS
  | cons sp SPs ih =>
    rw [SearchDoublet.topLoop_cons] at hS
    split_ifs at hS with h1 h2 hA
    · rcases ih acc hS with h | ⟨h, h0⟩
      · exact Or.inl h
      · exact Or.inr ⟨List.mem_cons_of_mem _ h, h0⟩
    · exact Or.inl hS
    · rcases ih _ hS with h | ⟨h, h0⟩
      · rcases List.mem_append.1 h with h | h
        · exact Or.inl h
        · rw [List.mem_singleton] at h
          subst h
          exact Or.inr ⟨List.mem_cons_self _ _, hA⟩
      · exact Or.inr ⟨List.mem_cons_of_mem _ h, h0⟩
    · rcases ih acc hS with h | ⟨h, h0⟩
      · exact Or.inl h
      · exact Or.inr ⟨List.mem_cons_of_mem _ h, h0⟩

theorem SearchDoublet.mem_bottom_iff (SPs : List (InternalSpacePoint K))
    (spM : InternalSpacePoint K) (config : SeedfinderConfig K) (S : InternalSpacePoint K) :
    S ∈ SearchDoublet true SPs spM config ↔ S ∈ SPs ∧ SearchDoublet.bottomKeeps config spM S := by
  simp [SearchDoublet, SearchDoublet.bottomLoop_eq_filter]

theorem SearchDoublet.mem_top_imp (SPs : List (InternalSpacePoint K))
    (spM : InternalSpacePoint K) (config : SeedfinderConfig K) (S : InternalSpacePoint K)
    (hS : S ∈ SearchDoublet false SPs spM config) :
    S ∈ SPs ∧ SearchDoublet.topKeeps config spM S := by
  have h := SearchDoublet.topLoop_mem spM config SPs [] S (by simpa [SearchDoublet] using hS)
  simpa using h


/-- C1 (counterexample): with `deltaRMin = -10` the BOTTOM search around the middle
`(50, 0, 1000)` returns a partner at the position of the middle.  Its gap `r_M - r_S` is zero, so
the quotient `cotθ = (z_M - z_S)/(r_M - r_S)` is `0/0`, and no value `c` of the quotient passes
both the angle test `|c| ≤ cotThetaMax` and the origin test on `z_M - r_M·c`. -/
theorem SearchDoublet_bottom_returns_partner_at_middle :
    SearchDoublet true [Example.onAxis 50 1000] (Example.onAxis 50 1000)
        Example.configNegativeGap = [Example.onAxis 50 1000] ∧
      (Example.onAxis 50 1000).radius - (Example.onAxis 50 1000).radius = 0 ∧
      (Example.onAxis 50 1000).z - (Example.onAxis 50 1000).z = 0 ∧
      ∀ c : ℚ, ¬ (|c| ≤ Example.configNegativeGap.cotThetaMax ∧
        Example.configNegativeGap.collisionRegionMin ≤
          (Example.onAxis 50 1000).z - (Example.onAxis 50 1000).radius * c ∧
        (Example.onAxis 50 1000).z - (Example.onAxis 50 1000).radius * c ≤
          Example.configNegativeGap.collisionRegionMax) := by
  refine ⟨?_, by norm_num, by norm_num, ?_⟩
  · norm_num [SearchDoublet, SearchDoublet.bottomLoop, Example.configNegativeGap, Example.config,
      Example.onAxis]
  · rintro c ⟨h1, -, h3⟩
    have h4 := le_abs_self c
    norm_num [Example.configNegativeGap, Example.config, Example.onAxis] at h1 h3
    linarith

/-- C1 (amended): when `deltaRMin > 0`, or when no partner has the radius of the middle, in the
BOTTOM role `SearchDoublet` returns exactly the partners that pass the three tests of the
specification (radial gap `deltaRMin ≤ r_M - r_S ≤ deltaRMax`, forward angle
`|cotθ| ≤ cotThetaMax`, origin `z_M - r_M·cotθ` inside the collision region), in their input
order; and with `cotThetaMax = 7.4` the partner `(10,0,0)` of the middle `(50,0,400)` is rejected
whatever the other configuration values are. -/
theorem SearchDoublet_bottom_returns_exactly_accepted (SPs : List (InternalSpacePoint K))
    (spM : InternalSpacePoint K) (config : SeedfinderConfig K)
    (h : 0 < config.deltaRMin ∨ ∀ S ∈ SPs, S.radius ≠ spM.radius) :
    SearchDoublet true SPs spM config =
        SPs.filter (fun S => decide (DupletSpec.bottomAccepted config spM S)) ∧
      ∀ config1 : SeedfinderConfig K,
        SearchDoublet true [⟨10, 0, 0, 10, 0, 0⟩] ⟨50, 0, 400, 50, 0, 0⟩
          { config1 with cotThetaMax := 74 / 10 } = [] := by
  constructor
  · simp only [SearchDoublet, if_true, SearchDoublet.bottomLoop_eq_filter, List.nil_append]
    apply List.filter_congr
    intro S hS
    rw [decide_eq_decide]
    rcases h with h | h
    · exact SearchDoublet.bottomKeeps_iff_of_pos config spM S h
    · exact SearchDoublet.bottomKeeps_iff config spM S (sub_ne_zero.2 (Ne.symm (h S hS)))
  · intro config1
    simp only [SearchDoublet, if_true, SearchDoublet.bottomLoop_eq_filter, List.nil_append]
    rw [List.filter_eq_nil_iff]
    intro S hS
    rw [List.mem_singleton] at hS
    subst hS
    have h0 : ((50 : K) - 10) ≠ 0 := by norm_num
    simp only [decide_eq_true_eq, SearchDoublet.bottomKeeps, if_neg h0]
    rintro ⟨-, h, -⟩
    norm_num at h

theorem SearchDoublet_bottom_returns_exactly_accepted_witness :
    ((0 : ℚ) < Example.config.deltaRMin ∨
        ∀ S ∈ [Example.onAxis 10 0, Example.onAxis 48 0],
          S.radius ≠ (Example.onAxis 50 0).radius) ∧
      (SearchDoublet true [Example.onAxis 10 0, Example.onAxis 48 0] (Example.onAxis 50 0)
          Example.config =
          [Example.onAxis 10 0, Example.onAxis 48 0].filter
            (fun S => decide (DupletSpec.bottomAccepted Example.config (Example.onAxis 50 0) S)) ∧
        ∀ config1 : SeedfinderConfig ℚ,
          SearchDoublet true [⟨10, 0, 0, 10, 0, 0⟩] ⟨50, 0, 400, 50, 0, 0⟩
            { config1 with cotThetaMax := 74 / 10 } = []) :=
  have h : (0 : ℚ) < Example.config.deltaRMin ∨
      ∀ S ∈ [Example.onAxis 10 0, Example.onAxis 48 0],
        S.radius ≠ (Example.onAxis 50 0).radius :=
    Or.inl (by norm_num [Example.config])
  ⟨h, SearchDoublet_bottom_returns_exactly_accepted _ (Example.onAxis 50 0) Example.config h⟩

/-- C2 (evaluation at the failing input): in the TOP role the scan stops at the first partner
whose gap exceeds `deltaRMax`; with the partners `[r = 220, r = 100]` and the middle at `r = 50`
the second partner passes all three tests of the specification and is not returned. -/
theorem SearchDoublet_top_break_loses_partner :
    DupletSpec.topAccepted Example.config (Example.onAxis 50 0) (Example.onAxis 100 0) ∧
      SearchDoublet false [Example.onAxis 220 0, Example.onAxis 100 0] (Example.onAxis 50 0)
        Example.config = [] := by
  constructor
  · norm_num [DupletSpec.topAccepted, Example.config, Example.onAxis]
  · norm_num [SearchDoublet, SearchDoublet.topLoop, Example.config, Example.onAxis]


/-- The radial window of a role: `r_M - r_S` for BOTTOM, `r_S - r_M` for TOP. -/
theorem SearchDoublet.mem_gap (isBottom : Bool) (SPs : List (InternalSpacePoint K))
    (spM : InternalSpacePoint K) (config : SeedfinderConfig K) (S : InternalSpacePoint K)
    (hS : S ∈ SearchDoublet isBottom SPs spM config) :
    if isBottom then
      config.deltaRMin ≤ spM.radius - S.radius ∧ spM.radius - S.radius ≤ config.deltaRMax
    else
      config.deltaRMin ≤ S.radius - spM.radius ∧ S.radius - spM.radius ≤ config.deltaRMax := by
  cases isBottom with
  | true => exact ((SearchDoublet.mem_bottom_iff SPs spM config S).1 hS).2.1
  | false => exact (SearchDoublet.mem_top_imp SPs spM config S hS).2.1

/-- C8 (counterexample): with `deltaRMin = -10` the BOTTOM search around a middle at `r = 50`
returns a partner at `r = 55`, whose radius is not smaller than the one of the middle. -/
theorem SearchDoublet_bottom_radius_not_below :
    Example.onAxis 55 0 ∈
        SearchDoublet true [Example.onAxis 55 0] (Example.onAxis 50 0) Example.configNegativeGap ∧
      ¬ (Example.onAxis 55 0).radius < (Example.onAxis 50 0).radius := by
  constructor
  · norm_num [SearchDoublet, SearchDoublet.bottomLoop, Example.configNegativeGap, Example.config,
      Example.onAxis]
  · norm_num [Example.onAxis]

/-- C8 (amended): when `deltaRMin > 0`, every partner returned in the BOTTOM role has
`r_S < r_M` and every partner returned in the TOP role has `r_S > r_M`; a partner with the radius
of the middle is then never returned. -/
theorem SearchDoublet_radius_strictly_ordered (isBottom : Bool)
    (SPs : List (InternalSpacePoint K)) (spM : InternalSpacePoint K)
    (config : SeedfinderConfig K) (S : InternalSpacePoint K)
    (hmin : 0 < config.deltaRMin) (hS : S ∈ SearchDoublet isBottom SPs spM config) :
    (if isBottom then S.radius < spM.radius else spM.radius < S.radius) ∧
      S.radius ≠ spM.radius := by
  have h := SearchDoublet.mem_gap isBottom SPs spM config S hS
  cases isBottom with
  | true =>
    simp only [if_true] at h ⊢
    have : S.radius < spM.radius := by linarith [h.1]
    exact ⟨this, ne_of_lt this⟩
  | false =>
    simp only [Bool.false_eq_true, if_false] at h ⊢
    have : spM.radius < S.radius := by linarith [h.1]
    exact ⟨this, ne_of_gt this⟩

theorem SearchDoublet_radius_strictly_ordered_witness :
    (0 : ℚ) < Example.config.deltaRMin ∧
      Example.onAxis 10 0 ∈
        SearchDoublet true [Example.onAxis 10 0] (Example.onAxis 50 0) Example.config ∧
      ((if true then (Example.onAxis 10 0).radius < (Example.onAxis 50 0).radius
        else (Example.onAxis 50 0).radius < (Example.onAxis 10 0).radius) ∧
        (Example.onAxis 10 0).radius ≠ (Example.onAxis 50 0).radius) :=
  have hmin : (0 : ℚ) < Example.config.deltaRMin := by norm_num [Example.config]
  have hS : Example.onAxis 10 0 ∈
      SearchDoublet true [Example.onAxis 10 0] (Example.onAxis 50 0) Example.config := by
    norm_num [SearchDoublet, SearchDoublet.bottomLoop, Example.config, Example.onAxis]
  ⟨hmin, hS, SearchDoublet_radius_strictly_ordered true _ _ _ _ hmin hS⟩

/-- C9: for either role and any order of the partner sequence, every partner returned by
`SearchDoublet` has its radial gap to the middle inside `[deltaRMin, deltaRMax]`
(`r_M - r_S` for BOTTOM, `r_S - r_M` for TOP). -/
theorem SearchDoublet_gap_in_window (isBottom : Bool) (SPs : List (InternalSpacePoint K))
    (spM : InternalSpacePoint K) (config : SeedfinderConfig K) (S : InternalSpacePoint K)
    (hS : S ∈ SearchDoublet isBottom SPs spM config) :
    if isBottom then
      config.deltaRMin ≤ spM.radius - S.radius ∧ spM.radius - S.radius ≤ config.deltaRMax
    else
      config.deltaRMin ≤ S.radius - spM.radius ∧ S.radius - spM.radius ≤ config.deltaRMax :=
  SearchDoublet.mem_gap isBottom SPs spM config S hS

theorem SearchDoublet_gap_in_window_witness :
    Example.onAxis 150 0 ∈
        SearchDoublet false [Example.onAxis 150 0, Example.onAxis 52 0] (Example.onAxis 50 0)
          Example.config ∧
      (if false then
        Example.config.deltaRMin ≤ (Example.onAxis 50 0).radius - (Example.onAxis 150 0).radius ∧
          (Example.onAxis 50 0).radius - (Example.onAxis 150 0).radius ≤ Example.config.deltaRMax
      else
        Example.config.deltaRMin ≤ (Example.onAxis 150 0).radius - (Example.onAxis 50 0).radius ∧
          (Example.onAxis 150 0).radius - (Example.onAxis 50 0).radius ≤
            Example.config.deltaRMax) :=
  have hS : Example.onAxis 150 0 ∈
      SearchDoublet false [Example.onAxis 150 0, Example.onAxis 52 0] (Example.onAxis 50 0)
        Example.config := by
    norm_num [SearchDoublet, SearchDoublet.topLoop, Example.config, Example.onAxis]
  ⟨hS, SearchDoublet_gap_in_window false _ _ _ _ hS⟩

/-- C10 (counterexample): with the collision region `[-250, 50]` the bottom partner `(10,0,-100)`
of the middle `(50,0,-100)` is returned, its origin is `-100`, and the absolute value `100` of the
origin lies outside the region; and with `deltaRMin = -10` a bottom partner at the position of
the middle `(50, 0, 1000)` is returned, for which `cotθ_bottom` is the quotient `0/0` and the
origin is not a number. -/
theorem SearchDoublet_bottom_abs_origin_outside :
    (Example.onAxis 10 (-100) ∈
        SearchDoublet true [Example.onAxis 10 (-100)] (Example.onAxis 50 (-100))
          Example.configAsymmetricRegion ∧
      ¬ |(Example.onAxis 50 (-100)).z - (Example.onAxis 50 (-100)).radius *
            (((Example.onAxis 50 (-100)).z - (Example.onAxis 10 (-100)).z) /
              ((Example.onAxis 50 (-100)).radius - (Example.onAxis 10 (-100)).radius))| ≤
          Example.configAsymmetricRegion.collisionRegionMax) ∧
      (Example.onAxis 50 1000 ∈
          SearchDoublet true [Example.onAxis 50 1000] (Example.onAxis 50 1000)
            Example.configNegativeGap ∧
        (Example.onAxis 50 1000).z - (Example.onAxis 50 1000).z = 0 ∧
        (Example.onAxis 50 1000).radius - (Example.onAxis 50 1000).radius = 0) := by
  refine ⟨⟨?_, ?_⟩, ?_, by norm_num, by norm_num⟩
  · norm_num [SearchDoublet, SearchDoublet.bottomLoop, Example.configAsymmetricRegion,
      Example.config, Example.onAxis]
  · norm_num [Example.configAsymmetricRegion, Example.config, Example.onAxis]
  · norm_num [SearchDoublet, SearchDoublet.bottomLoop, Example.configNegativeGap,
      Example.config, Example.onAxis]

/-- C10 (amended): when `deltaRMin > 0`, or when the partner does not have the radius of the
middle, for every bottom partner `B` returned by `SearchDoublet` for the middle `M` the signed
origin `z_M - r_M·cotθ` with `cotθ = (z_M - z_B)/(r_M - r_B)` lies in
`[collisionRegionMin, collisionRegionMax]`; and with the region `±250` the duplet
`(10,0,400)`, `(50,0,400)`, whose origin is `400`, is not returned. -/
theorem SearchDoublet_bottom_origin_in_region (SPs : List (InternalSpacePoint K))
    (spM : InternalSpacePoint K) (config : SeedfinderConfig K) (B : InternalSpacePoint K)
    (h : 0 < config.deltaRMin ∨ B.radius ≠ spM.radius)
    (hB : B ∈ SearchDoublet true SPs spM config) :
    (config.collisionRegionMin ≤
          spM.z - spM.radius * ((spM.z - B.z) / (spM.radius - B.radius)) ∧
        spM.z - spM.radius * ((spM.z - B.z) / (spM.radius - B.radius)) ≤
          config.collisionRegionMax) ∧
      ∀ config1 : SeedfinderConfig K,
        SearchDoublet true [⟨10, 0, 400, 10, 0, 0⟩] ⟨50, 0, 400, 50, 0, 0⟩
          { config1 with collisionRegionMin := -250, collisionRegionMax := 250 } = [] := by
  have hk := ((SearchDoublet.mem_bottom_iff SPs spM config B).1 hB).2
  have hacc : DupletSpec.bottomAccepted config spM B := by
    rcases h with h | h
    · exact (SearchDoublet.bottomKeeps_iff_of_pos config spM B h).1 hk
    · exact (SearchDoublet.bottomKeeps_iff config spM B (sub_ne_zero.2 (Ne.symm h))).1 hk
  refine ⟨hacc.2.2, ?_⟩
  intro config1
  simp only [SearchDoublet, if_true, SearchDoublet.bottomLoop_eq_filter, List.nil_append]
  rw [List.filter_eq_nil_iff]
  intro S hS
  rw [List.mem_singleton] at hS
  subst hS
  have h0 : ((50 : K) - 10) ≠ 0 := by norm_num
  simp only [decide_eq_true_eq, SearchDoublet.bottomKeeps, if_neg h0]
  rintro ⟨-, -, -, h⟩
  norm_num at h

theorem SearchDoublet_bottom_origin_in_region_witness :
    ((0 : ℚ) < Example.config.deltaRMin ∨
        (Example.onAxis 10 0).radius ≠ (Example.onAxis 50 0).radius) ∧
      Example.onAxis 10 0 ∈
        SearchDoublet true [Example.onAxis 10 0, Example.onAxis 48 0] (Example.onAxis 50 0)
          Example.config ∧
      ((Example.config.collisionRegionMin ≤
            (Example.onAxis 50 0).z - (Example.onAxis 50 0).radius *
              (((Example.onAxis 50 0).z - (Example.onAxis 10 0).z) /
                ((Example.onAxis 50 0).radius - (Example.onAxis 10 0).radius)) ∧
          (Example.onAxis 50 0).z - (Example.onAxis 50 0).radius *
              (((Example.onAxis 50 0).z - (Example.onAxis 10 0).z) /
                ((Example.onAxis 50 0).radius - (Example.onAxis 10 0).radius)) ≤
            Example.config.collisionRegionMax) ∧
        ∀ config1 : SeedfinderConfig ℚ,
          SearchDoublet true [⟨10, 0, 400, 10, 0, 0⟩] ⟨50, 0, 400, 50, 0, 0⟩
            { config1 with collisionRegionMin := -250, collisionRegionMax := 250 } = []) :=
  have h : (0 : ℚ) < Example.config.deltaRMin ∨
      (Example.onAxis 10 0).radius ≠ (Example.onAxis 50 0).radius :=
    Or.inl (by norm_num [Example.config])
  have hB : Example.onAxis 10 0 ∈
      SearchDoublet true [Example.onAxis 10 0, Example.onAxis 48 0] (Example.onAxis 50 0)
        Example.config := by
    norm_num [SearchDoublet, SearchDoublet.bottomLoop, Example.config, Example.onAxis]
  ⟨h, hB, SearchDoublet_bottom_origin_in_region _ _ _ _ h hB⟩

end DoubletProofs

section ConformalProofs

variable {K : Type} [LinearOrderedField K]

theorem transformCoordinates.loop_cons (sqrt : K → K) (spM : InternalSpacePoint K) (bottom : Bool)
    (sp : InternalSpacePoint K) (vec : List (InternalSpacePoint K))
    (linCircleVec : List (LinCircle K)) :
    transformCoordinates.loop sqrt spM bottom (spM.x / spM.radius) (spM.y / spM.radius)
        (sp :: vec) linCircleVec =
      transformCoordinates.loop sqrt spM bottom (spM.x / spM.radius) (spM.y / spM.radius) vec
        (linCircleVec ++ [ConformalSpec.linCircle sqrt spM bottom sp]) := by
  have hl : ∀ a b : LinCircle K, a.Zo = b.Zo → a.cotTheta = b.cotTheta →
      a.iDeltaR = b.iDeltaR → a.Er = b.Er → a.U = b.U → a.V = b.V → a = b := by
    intro a b h1 h2 h3 h4 h5 h6
    cases a; cases b; simp_all
  rw [transformCoordinates.loop]
  have hc : ∀ l m : LinCircle K, l = m →
      transformCoordinates.loop sqrt spM bottom (spM.x / spM.radius) (spM.y / spM.radius) vec
          (linCircleVec ++ [l]) =
        transformCoordinates.loop sqrt spM bottom (spM.x / spM.radius) (spM.y / spM.radius) vec
          (linCircleVec ++ [m]) := by
    rintro _ _ rfl; rfl
  apply hc
  have hsq : (sp.x - spM.x) * (sp.x - spM.x) + (sp.y - spM.y) * (sp.y - spM.y) =
      (sp.x - spM.x) ^ 2 + (sp.y - spM.y) ^ 2 := by ring
  cases bottom
  · apply hl <;>
      simp only [ConformalSpec.linCircle, hsq, Bool.not_false, Bool.false_eq_true, if_true,
        if_false] <;> push_cast <;> ring
  · apply hl <;>
      simp only [ConformalSpec.linCircle, hsq, Bool.not_true, Bool.false_eq_true, if_true,
        if_false] <;> push_cast <;> ring

theorem transformCoordinates.loop_eq_map (sqrt : K → K) (spM : InternalSpacePoint K)
    (bottom : Bool) (vec : List (InternalSpacePoint K)) (linCircleVec : List (LinCircle K)) :
    transformCoordinates.loop sqrt spM bottom (spM.x / spM.radius) (spM.y / spM.radius) vec
        linCircleVec =
      linCircleVec ++ vec.map (ConformalSpec.linCircle sqrt spM bottom) := by
  induction vec generalizing linCircleVec with
  | nil => simp [transformCoordinates.loop]
  | cons sp vec ih => rw [transformCoordinates.loop_cons, ih]; simp

/-- With a non-zero denominator for every partner the checked loop succeeds with the result of
the loop. -/
theorem transformCoordinates.loopChecked_eq (sqrt : K → K) (spM : InternalSpacePoint K)
    (bottom : Bool) (cosPhiM sinPhiM : K) (vec : List (InternalSpacePoint K))
    (linCircleVec : List (LinCircle K))
    (hne : ∀ S ∈ vec, (S.x - spM.x) * (S.x - spM.x) + (S.y - spM.y) * (S.y - spM.y) ≠ 0) :
    transformCoordinates.loopChecked sqrt spM bottom cosPhiM sinPhiM vec linCircleVec =
      some (transformCoordinates.loop sqrt spM bottom cosPhiM sinPhiM vec linCircleVec) := by
  induction vec generalizing linCircleVec with
  | nil => rfl
  | cons sp vec ih =>
    have h0 := hne sp (List.mem_cons_self _ _)
    simp only [transformCoordinates.loopChecked, transformCoordinates.loop,
      SearchTriplet.checkedDiv, if_neg h0]
    exact ih _ (fun S hS => hne S (List.mem_cons_of_mem _ hS))

/-- A partner differs from the middle in `(x, y)` exactly when the denominator
`deltaX * deltaX + deltaY * deltaY` is not zero. -/
theorem transformCoordinates.denominator_ne_zero (M S : InternalSpacePoint K)
    (h : S.x ≠ M.x ∨ S.y ≠ M.y) :
    (S.x - M.x) * (S.x - M.x) + (S.y - M.y) * (S.y - M.y) ≠ 0 := by
  intro h0
  have h1 := mul_self_nonneg (S.x - M.x)
  have h2 := mul_self_nonneg (S.y - M.y)
  have hx : (S.x - M.x) * (S.x - M.x) = 0 := by linarith
  have hy : (S.y - M.y) * (S.y - M.y) = 0 := by linarith
  rcases h with h | h
  · exact h (sub_eq_zero.1 (mul_self_eq_zero.1 hx))
  · exact h (sub_eq_zero.1 (mul_self_eq_zero.1 hy))

/-- For a middle with `r_M ≠ 0` and partners that all differ from the middle in `(x, y)` the
checked `transformCoordinates` succeeds with the result of `transformCoordinates`. -/
theorem transformCoordinates.checked_eq (sqrt : K → K) (vec : List (InternalSpacePoint K))
    (spM : InternalSpacePoint K) (bottom : Bool) (linCircleVec : List (LinCircle K))
    (hr : spM.radius ≠ 0) (hne : ∀ S ∈ vec, S.x ≠ spM.x ∨ S.y ≠ spM.y) :
    transformCoordinates.checked sqrt vec spM bottom linCircleVec =
      some (transformCoordinates sqrt vec spM bottom linCircleVec) := by
  simp only [transformCoordinates.checked, transformCoordinates, SearchTriplet.checkedDiv,
    if_neg hr]
  exact transformCoordinates.loopChecked_eq sqrt spM bottom _ _ vec linCircleVec
    (fun S hS => transformCoordinates.denominator_ne_zero spM S (hne S hS))

/-- C4 (counterexample): for the middle `(50, 0, 8)` with `r_M = 50 ≠ 0` and the partner
`(50, 0, 0)` at the same `(x, y)`, the denominator `Δx² + Δy²` of `iΔR²` is zero, and
`transformCoordinates` divides by zero: no field of the `LinCircle` that depends on `iΔR²` is a
number. -/
theorem transformCoordinates_partner_at_middle_divides_by_zero :
    (Example.onAxis 50 8).radius ≠ 0 ∧
      ((Example.onAxis 50 0).x - (Example.onAxis 50 8).x) ^ 2 +
        ((Example.onAxis 50 0).y - (Example.onAxis 50 8).y) ^ 2 = 0 ∧
      ∀ (bottom : Bool) (linCircleVec : List (LinCircle ℚ)),
        transformCoordinates.checked Example.sqrt [Example.onAxis 50 0] (Example.onAxis 50 8)
          bottom linCircleVec = none := by
  refine ⟨by norm_num [Example.onAxis], by norm_num [Example.onAxis], ?_⟩
  intro bottom linCircleVec
  have hr : (50 : ℚ) ≠ 0 := by norm_num
  simp [transformCoordinates.checked, transformCoordinates.loopChecked,
    SearchTriplet.checkedDiv, Example.onAxis, hr]

/-- C4 (amended): for a middle with `r_M ≠ 0` and partners that all differ from the middle in
`(x, y)`, no division of `transformCoordinates` has a zero denominator, and
`transformCoordinates` leaves the entries already in `linCircleVec` unchanged and appends one
`LinCircle` per partner, in the order of the partners, whose six fields are the formulas of
specification 4.3 (`sign = -1` for `bottom = true`, `+1` for `bottom = false`). -/
theorem transformCoordinates_appends_spec_linCircles (sqrt : K → K)
    (vec : List (InternalSpacePoint K)) (spM : InternalSpacePoint K) (bottom : Bool)
    (linCircleVec : List (LinCircle K)) (hr : spM.radius ≠ 0)
    (hne : ∀ S ∈ vec, S.x ≠ spM.x ∨ S.y ≠ spM.y) :
    transformCoordinates.checked sqrt vec spM bottom linCircleVec =
        some (transformCoordinates sqrt vec spM bottom linCircleVec) ∧
      transformCoordinates sqrt vec spM bottom linCircleVec =
        linCircleVec ++ vec.map (ConformalSpec.linCircle sqrt spM bottom) ∧
      (transformCoordinates sqrt vec spM bottom linCircleVec).length =
        linCircleVec.length + vec.length := by
  have h : transformCoordinates sqrt vec spM bottom linCircleVec =
      linCircleVec ++ vec.map (ConformalSpec.linCircle sqrt spM bottom) := by
    simp only [transformCoordinates]
    exact transformCoordinates.loop_eq_map sqrt spM bottom vec linCircleVec
  exact ⟨transformCoordinates.checked_eq sqrt vec spM bottom linCircleVec hr hne, h,
    by rw [h]; simp⟩

theorem transformCoordinates_appends_spec_linCircles_witness :
    (Example.onAxis 50 0).radius ≠ 0 ∧
      (∀ S ∈ [Example.onAxis 10 0, Example.onAxis 20 5],
        S.x ≠ (Example.onAxis 50 0).x ∨ S.y ≠ (Example.onAxis 50 0).y) ∧
      (transformCoordinates.checked Example.sqrt [Example.onAxis 10 0, Example.onAxis 20 5]
            (Example.onAxis 50 0) true [] =
          some (transformCoordinates Example.sqrt [Example.onAxis 10 0, Example.onAxis 20 5]
            (Example.onAxis 50 0) true []) ∧
        transformCoordinates Example.sqrt [Example.onAxis 10 0, Example.onAxis 20 5]
            (Example.onAxis 50 0) true [] =
          [] ++ [Example.onAxis 10 0, Example.onAxis 20 5].map
            (ConformalSpec.linCircle Example.sqrt (Example.onAxis 50 0) true) ∧
        (transformCoordinates Example.sqrt [Example.onAxis 10 0, Example.onAxis 20 5]
            (Example.onAxis 50 0) true []).length =
          ([] : List (LinCircle ℚ)).length + [Example.onAxis 10 0, Example.onAxis 20 5].length) :=
  have hr : (Example.onAxis 50 0).radius ≠ 0 := by norm_num [Example.onAxis]
  have hne : ∀ S ∈ [Example.onAxis 10 0, Example.onAxis 20 5],
      S.x ≠ (Example.onAxis 50 0).x ∨ S.y ≠ (Example.onAxis 50 0).y := by
    intro S hS
    simp only [List.mem_cons, List.mem_singleton, List.not_mem_nil, or_false] at hS
    rcases hS with rfl | rfl <;> norm_num [Example.onAxis]
  ⟨hr, hne, transformCoordinates_appends_spec_linCircles Example.sqrt _ _ true [] hr hne⟩

end ConformalProofs

section TripletProofs

variable {K : Type} [LinearOrderedField K]

/-- One pass of the inner loop pushes a top exactly under the condition `SearchTriplet.passes`,
and then records `B/√S²` and `Im`. -/
theorem SearchTriplet.tripletCuts_eq (sqrt : K → K) (spM : InternalSpacePoint K)
    (config : SeedfinderConfig K) (lb lt : LinCircle K) :
    SearchTriplet.tripletCuts sqrt spM config lb.cotTheta lb.V lb.U lb.Er lb.iDeltaR
        (1 + lb.cotTheta * lb.cotTheta)
        (config.maxScatteringAngle2 * (1 + lb.cotTheta * lb.cotTheta) *
          (config.sigmaScattering * config.sigmaScattering)) lt =
      if SearchTriplet.passes sqrt config spM lb lt
      then some (TripletSpec.curvature sqrt lb lt, TripletSpec.Im spM lb lt) else none := by
  have hp : ∀ a b : K, a * b * b = a * (b * b) := fun a b => mul_assoc a b b
  simp only [SearchTriplet.tripletCuts, SearchTriplet.passes, TripletSpec.rejected1,
    TripletSpec.rejected2, TripletSpec.rejected3, TripletSpec.rejected4, TripletSpec.rejected5,
    TripletSpec.residual2, TripletSpec.error2, TripletSpec.deltaCotTheta, TripletSpec.A,
    TripletSpec.B, TripletSpec.S2, TripletSpec.Im, TripletSpec.curvature, pow_two, gt_iff_lt, hp]
  split_ifs <;> first | rfl | (exfalso; simp_all)


/-- The inner loop started at index `t` appends the tops it pushes among the remaining ones. -/
theorem SearchTriplet.topLoop_eq (sqrt : K → K) (spM : InternalSpacePoint K)
    (compatTopSP : List (InternalSpacePoint K)) (linCircleTop : List (LinCircle K))
    (config : SeedfinderConfig K) (lb : LinCircle K)
    (hlen : compatTopSP.length ≤ linCircleTop.length) (n t : Nat)
    (hn : t + n = compatTopSP.length) (vecs : SearchTriplet.TopVectors K) :
    SearchTriplet.topLoop sqrt spM compatTopSP linCircleTop config lb.cotTheta lb.V lb.U lb.Er
        lb.iDeltaR (1 + lb.cotTheta * lb.cotTheta)
        (config.maxScatteringAngle2 * (1 + lb.cotTheta * lb.cotTheta) *
          (config.sigmaScattering * config.sigmaScattering)) n t vecs =
      some
        { topSpVec := vecs.topSpVec ++
            (SearchTriplet.passedTops sqrt config spM (compatTopSP.drop t) (linCircleTop.drop t)
              lb).map Prod.fst
          curvatures := vecs.curvatures ++
            (SearchTriplet.passedTops sqrt config spM (compatTopSP.drop t) (linCircleTop.drop t)
              lb).map (fun p => TripletSpec.curvature sqrt lb p.2)
          impactParameters := vecs.impactParameters ++
            (SearchTriplet.passedTops sqrt config spM (compatTopSP.drop t) (linCircleTop.drop t)
              lb).map (fun p => TripletSpec.Im spM lb p.2) } := by
  induction n generalizing t vecs with
  | zero =>
    have ht : compatTopSP.length ≤ t := by omega
    simp [SearchTriplet.topLoop, SearchTriplet.passedTops, List.drop_eq_nil_of_le ht]
  | succ n ih =>
    have ht : t < compatTopSP.length := by omega
    have ht2 : t < linCircleTop.length := by omega
    rw [SearchTriplet.topLoop, List.getElem?_eq_getElem ht2]
    simp only []
    rw [SearchTriplet.tripletCuts_eq, List.getElem?_eq_getElem ht]
    have hacc : SearchTriplet.passedTops sqrt config spM (compatTopSP.drop t)
        (linCircleTop.drop t) lb =
        if SearchTriplet.passes sqrt config spM lb linCircleTop[t] then
          (compatTopSP[t], linCircleTop[t]) ::
            SearchTriplet.passedTops sqrt config spM (compatTopSP.drop (t + 1))
              (linCircleTop.drop (t + 1)) lb
        else SearchTriplet.passedTops sqrt config spM (compatTopSP.drop (t + 1))
              (linCircleTop.drop (t + 1)) lb := by
      simp only [SearchTriplet.passedTops]
      rw [List.drop_eq_getElem_cons ht, List.drop_eq_getElem_cons ht2, List.zip_cons_cons,
        List.filter_cons]
      simp only [decide_eq_true_eq]
    rw [hacc]
    by_cases hA : SearchTriplet.passes sqrt config spM lb linCircleTop[t]
    · simp only [if_pos hA]
      rw [ih (t + 1) (by omega)]
      simp
    · simp only [if_neg hA]
      rw [ih (t + 1) (by omega)]

/-- The vectors handed over for one bottom are the pushed tops with their curvatures and impact
parameters. -/
theorem SearchTriplet.topsForBottom_eq (sqrt : K → K) (spM : InternalSpacePoint K)
    (compatTopSP : List (InternalSpacePoint K)) (linCircleTop : List (LinCircle K))
    (config : SeedfinderConfig K) (lb : LinCircle K)
    (hlen : compatTopSP.length ≤ linCircleTop.length) :
    SearchTriplet.topsForBottom sqrt spM compatTopSP linCircleTop config lb =
      some
        { topSpVec :=
            (SearchTriplet.passedTops sqrt config spM compatTopSP linCircleTop lb).map Prod.fst
          curvatures :=
            (SearchTriplet.passedTops sqrt config spM compatTopSP linCircleTop lb).map
              (fun p => TripletSpec.curvature sqrt lb p.2)
          impactParameters :=
            (SearchTriplet.passedTops sqrt config spM compatTopSP linCircleTop lb).map
              (fun p => TripletSpec.Im spM lb p.2) } := by
  simp only [SearchTriplet.topsForBottom]
  rw [SearchTriplet.topLoop_eq sqrt spM compatTopSP linCircleTop config lb hlen _ 0 (by simp)]
  simp


/-- The outer loop started at index `b` appends, for every remaining bottom with a pushed top,
the result of the filter on the pushed tops of that bottom. -/
theorem SearchTriplet.bottomLoop_eq {σ : Type} (sqrt : K → K)
    (F : InternalSpacePoint K → InternalSpacePoint K →
      List (InternalSpacePoint K) → List K → List K → K → List σ)
    (spM : InternalSpacePoint K) (compatBottomSP compatTopSP : List (InternalSpacePoint K))
    (linCircleBottom linCircleTop : List (LinCircle K)) (config : SeedfinderConfig K)
    (hB : compatBottomSP.length ≤ linCircleBottom.length)
    (hT : compatTopSP.length ≤ linCircleTop.length) (n b : Nat)
    (hn : b + n = compatBottomSP.length) (seedsPerSpM : List σ) :
    SearchTriplet.bottomLoop sqrt F spM compatBottomSP compatTopSP linCircleBottom linCircleTop
        config n b seedsPerSpM =
      some (seedsPerSpM ++
        (SearchTriplet.filterCalls sqrt config spM (compatBottomSP.drop b) compatTopSP
          (linCircleBottom.drop b) linCircleTop).flatMap
          (fun c => F c.bottomSP spM c.topSpVec c.curvatures c.impactParameters c.zOrigin)) := by
  induction n generalizing b seedsPerSpM with
  | zero =>
    have hb : compatBottomSP.length ≤ b := by omega
    simp [SearchTriplet.bottomLoop, SearchTriplet.filterCalls, List.drop_eq_nil_of_le hb]
  | succ n ih =>
    have hb : b < compatBottomSP.length := by omega
    have hb2 : b < linCircleBottom.length := by omega
    rw [SearchTriplet.bottomLoop, List.getElem?_eq_getElem hb2]
    simp only []
    rw [SearchTriplet.topsForBottom_eq sqrt spM compatTopSP linCircleTop config _ hT,
      List.getElem?_eq_getElem hb]
    simp only [SearchTriplet.filterCalls]
    rw [List.drop_eq_getElem_cons hb, List.drop_eq_getElem_cons hb2, List.zip_cons_cons,
      List.filter_cons]
    have hmap : ∀ l : List (InternalSpacePoint K × LinCircle K),
        (l.map Prod.fst).isEmpty = l.isEmpty := by
      intro l; cases l <;> rfl
    by_cases hE : (SearchTriplet.passedTops sqrt config spM compatTopSP linCircleTop
        linCircleBottom[b]).isEmpty = true
    · simp only [hmap, hE, Bool.not_true, Bool.false_eq_true, if_false]
      rw [ih (b + 1) (by omega)]
      simp only [SearchTriplet.filterCalls]
    · rw [Bool.not_eq_true] at hE
      simp only [hmap, hE, Bool.not_false, if_true]
      rw [ih (b + 1) (by omega)]
      simp [SearchTriplet.filterCalls]

/-- The function `SearchTriplet` returns the concatenation of the filter results over the filter
calls `SearchTriplet.filterCalls`. -/
theorem SearchTriplet.eq_flatMap_filterCalls {σ : Type} (sqrt : K → K)
    (F : InternalSpacePoint K → InternalSpacePoint K →
      List (InternalSpacePoint K) → List K → List K → K → List σ)
    (spM : InternalSpacePoint K) (compatBottomSP compatTopSP : List (InternalSpacePoint K))
    (linCircleBottom linCircleTop : List (LinCircle K)) (config : SeedfinderConfig K)
    (hB : compatBottomSP.length ≤ linCircleBottom.length)
    (hT : compatTopSP.length ≤ linCircleTop.length) :
    SearchTriplet sqrt F spM compatBottomSP compatTopSP linCircleBottom linCircleTop config =
      some ((SearchTriplet.filterCalls sqrt config spM compatBottomSP compatTopSP
          linCircleBottom linCircleTop).flatMap
          (fun c => F c.bottomSP spM c.topSpVec c.curvatures c.impactParameters c.zOrigin)) := by
  simp only [SearchTriplet]
  rw [SearchTriplet.bottomLoop_eq sqrt F spM compatBottomSP compatTopSP linCircleBottom
    linCircleTop config hB hT _ 0 (by simp)]
  simp


end TripletProofs

section FilterProofs

variable {K : Type} [LinearOrderedField K]

/-- C6 (evaluation of the code): after `CuSeedFilter::filterSeeds_2SpFixed`, `isTriplet[t]` is
the negation of `singleSeedCut(w_t, b, M, t)` for the final weight `w_t = weight[t]`: the
candidate is flagged when the cut says discard.  For the first example top with the bottom
`(10, 0, 0)` the cut returns true (keep) and `isTriplet[0]` is false. -/
theorem CuSeedFilter_isTriplet_negates_singleSeedCut (self : CuSeedFilter K) (threadId : Nat)
    (spM spB : Nat → K) (nSpT : Nat) (spTmat : Nat → K) (isPassed : Nat → Bool)
    (invHelixDiameterVec impactParametersVec : Nat → K) (Zob : K)
    (weight : Nat → K) (isTriplet : Nat → Bool) :
    (CuSeedFilter.filterSeeds_2SpFixed self threadId spM spB nSpT spTmat isPassed
        invHelixDiameterVec impactParametersVec Zob weight isTriplet).2 threadId =
      (!CuIExperimentCuts.singleSeedCut
        ((CuSeedFilter.filterSeeds_2SpFixed self threadId spM spB nSpT spTmat isPassed
          invHelixDiameterVec impactParametersVec Zob weight isTriplet).1 threadId)
        spB spM (CuSeedFilter.spT threadId nSpT spTmat)) ∧
    (CuIExperimentCuts.singleSeedCut
        ((CuSeedFilter.filterSeeds_2SpFixed Example.cuFilter 0 (Example.point 50 0)
          (Example.point 10 0) 3 Example.spTmat Example.allPassed Example.zeros Example.zeros 0
          Example.zeros Example.noTriplet).1 0)
        (Example.point 10 0) (Example.point 50 0) (CuSeedFilter.spT 0 3 Example.spTmat) = true ∧
      (CuSeedFilter.filterSeeds_2SpFixed Example.cuFilter 0 (Example.point 50 0)
          (Example.point 10 0) 3 Example.spTmat Example.allPassed Example.zeros Example.zeros 0
          Example.zeros Example.noTriplet).2 0 = false) := by
  have hgen : ∀ (K : Type) [LinearOrderedField K] (self : CuSeedFilter K) (threadId : Nat)
      (spM spB : Nat → K) (nSpT : Nat) (spTmat : Nat → K) (isPassed : Nat → Bool)
      (invHelixDiameterVec impactParametersVec : Nat → K) (Zob : K)
      (weight : Nat → K) (isTriplet : Nat → Bool),
      (CuSeedFilter.filterSeeds_2SpFixed self threadId spM spB nSpT spTmat isPassed
          invHelixDiameterVec impactParametersVec Zob weight isTriplet).2 threadId =
        (!CuIExperimentCuts.singleSeedCut
          ((CuSeedFilter.filterSeeds_2SpFixed self threadId spM spB nSpT spTmat isPassed
            invHelixDiameterVec impactParametersVec Zob weight isTriplet).1 threadId)
          spB spM (CuSeedFilter.spT threadId nSpT spTmat)) := by
    intro K _ self threadId spM spB nSpT spTmat isPassed invHelixDiameterVec impactParametersVec
      Zob weight isTriplet
    simp only [CuSeedFilter.filterSeeds_2SpFixed, Function.update_same]
    split_ifs with h
    · rw [Function.update_same, h]
    · rw [Function.update_same]
      simpa using h
  refine ⟨hgen K self threadId spM spB nSpT spTmat isPassed invHelixDiameterVec
    impactParametersVec Zob weight isTriplet, ?_⟩
  have hcut : ∀ w : ℚ, CuIExperimentCuts.singleSeedCut w (Example.point 10 0)
      (Example.point 50 0) (CuSeedFilter.spT 0 3 Example.spTmat) = true := by
    intro w
    norm_num [CuIExperimentCuts.singleSeedCut, Example.point, Example.array]
  refine ⟨hcut _, ?_⟩
  rw [hgen, hcut]
  rfl

/-- C7 (evaluation at the failing input): with `compatSeedLimit = 0`, three passed tops at the
radii 160, 170, 180 with equal curvature and thread index 0, the weight before the experiment
bonus is `-impact·impactWeightFactor + 1·compatSeedWeight`: one bonus is added although the limit
is zero, so the weight is `-impact·impactWeightFactor + k·compatSeedWeight` for no
`k ≤ compatSeedLimit`. -/
theorem CuSeedFilter_bonus_added_at_limit_zero :
    Example.cuFilterLimit0.m_cfg.compatSeedLimit = 0 ∧
      CuSeedFilter.weightBeforeCuts Example.cuFilterLimit0 0 3 Example.spTmat Example.allPassed
          Example.zeros Example.zeros Example.zeros 0 =
        -(Example.zeros 0 * Example.cuFilterLimit0.m_cfg.impactWeightFactor) +
          1 * Example.cuFilterLimit0.m_cfg.compatSeedWeight ∧
      ¬ ∃ k : Nat, k ≤ Example.cuFilterLimit0.m_cfg.compatSeedLimit ∧
        CuSeedFilter.weightBeforeCuts Example.cuFilterLimit0 0 3 Example.spTmat Example.allPassed
            Example.zeros Example.zeros Example.zeros 0 =
          -(Example.zeros 0 * Example.cuFilterLimit0.m_cfg.impactWeightFactor) +
            (k : ℚ) * Example.cuFilterLimit0.m_cfg.compatSeedWeight := by
  have hw : CuSeedFilter.weightBeforeCuts Example.cuFilterLimit0 0 3 Example.spTmat
      Example.allPassed Example.zeros Example.zeros Example.zeros 0 = 200 := by
    norm_num [CuSeedFilter.weightBeforeCuts, CuSeedFilter.compatLoop,
      CuSeedFilter.newCompSeedLoop, CuSeedFilter.numCompatLoop, Example.cuFilterLimit0,
      Example.filterConfig, Example.spTmat, Example.array, Example.allPassed, Example.zeros,
      Function.update_apply]
  refine ⟨rfl, ?_, ?_⟩
  · rw [hw]
    norm_num [Example.cuFilterLimit0, Example.filterConfig, Example.zeros]
  · rintro ⟨k, hk, h⟩
    have hk0 : k = 0 := Nat.le_zero.1 hk
    subst hk0
    rw [hw] at h
    norm_num [Example.cuFilterLimit0, Example.filterConfig, Example.zeros] at h


/-! ### The scan of `CuSeedFilter::filterSeeds_2SpFixed` against the scan of the specification -/

theorem CuSeedFilter.newCompSeedLoop_eq (self : CuSeedFilter K) (nSpT : Nat) (spTmat : Nat → K)
    (ics : Nat → Bool) (x : K) (n k : Nat) :
    CuSeedFilter.newCompSeedLoop self nSpT spTmat ics x n k =
      !((List.range' k n).any
        (fun i => ics i && decide (|spTmat (i + nSpT * 3) - x| < self.m_cfg.deltaRMin))) := by
  induction n generalizing k with
  | zero => simp [CuSeedFilter.newCompSeedLoop]
  | succ n ih =>
    rw [CuSeedFilter.newCompSeedLoop, List.range'_succ, List.any_cons, ih]
    by_cases h1 : ics k = true
    · by_cases h2 : |spTmat (k + nSpT * 3) - x| < self.m_cfg.deltaRMin
      · simp [h1, h2]
      · simp [h1, h2]
    · simp [h1]

theorem CuSeedFilter.numCompatLoop_eq (ics : Nat → Bool) (n k c : Nat) :
    CuSeedFilter.numCompatLoop ics n k c = c + (List.range' k n).countP ics := by
  induction n generalizing k c with
  | zero => simp [CuSeedFilter.numCompatLoop]
  | succ n ih =>
    rw [CuSeedFilter.numCompatLoop, List.range'_succ, List.countP_cons]
    by_cases h1 : ics k = true
    · simp only [h1, if_true]; rw [ih]; omega
    · simp only [h1, if_false]
      exact ih _ _

theorem CuSeedFilter.any_eq_of_forall_mem (f g : Nat → Bool) (l : List Nat)
    (h : ∀ i ∈ l, f i = g i) : l.any f = l.any g := by
  induction l with
  | nil => rfl
  | cons a l ih =>
    rw [List.any_cons, List.any_cons, h a (List.mem_cons_self _ _),
      ih (fun i hi => h i (List.mem_cons_of_mem _ hi))]

theorem CuSeedFilter.any_update (ics : Nat → Bool) (P : Nat → Bool) (j n : Nat) (hj : j < n) :
    (List.range n).any (fun i => Function.update ics j true i && P i) =
      ((List.range n).any (fun i => ics i && P i) || P j) := by
  induction n with
  | zero => omega
  | succ n ih =>
    rw [List.range_succ, List.any_append, List.any_append]
    by_cases hjn : j = n
    · subst hjn
      have hsame : (List.range j).any (fun i => Function.update ics j true i && P i) =
          (List.range j).any (fun i => ics i && P i) := by
        apply CuSeedFilter.any_eq_of_forall_mem
        intro i hi
        rw [Function.update_noteq (ne_of_lt (List.mem_range.1 hi))]
      rw [hsame]
      simp only [List.any_cons, List.any_nil, Function.update_same, Bool.true_and, Bool.or_false]
      cases (List.range j).any (fun i => ics i && P i) <;> cases ics j <;> cases P j <;> rfl
    · have hlt : j < n := by omega
      rw [ih hlt]
      simp only [List.any_cons, List.any_nil, Bool.or_false,
        Function.update_noteq (Ne.symm hjn)]
      cases (List.range n).any (fun i => ics i && P i) <;> cases ics n <;> cases P n <;>
        cases P j <;> rfl

theorem CuSeedFilter.countP_update (ics : Nat → Bool) (j n : Nat) (hj : j < n)
    (hf : ics j = false) :
    (List.range n).countP (Function.update ics j true) = (List.range n).countP ics + 1 := by
  induction n with
  | zero => omega
  | succ n ih =>
    rw [List.range_succ, List.countP_append, List.countP_append]
    by_cases hjn : j = n
    · subst hjn
      have hsame : (List.range j).countP (Function.update ics j true) =
          (List.range j).countP ics := by
        apply List.countP_congr
        intro i hi
        rw [Function.update_noteq (ne_of_lt (List.mem_range.1 hi))]
      rw [hsame]
      simp [List.countP_cons, hf]
    · have hlt : j < n := by omega
      rw [ih hlt]
      simp only [List.countP_cons, List.countP_nil, Function.update_noteq (Ne.symm hjn)]
      omega

theorem CuSeedFilter.passedIndex_succ (isPassed : Nat → Bool) (j : Nat) :
    CuSeedFilter.passedIndex isPassed (j + 1) =
      CuSeedFilter.passedIndex isPassed j + if isPassed j = true then 1 else 0 := by
  simp only [CuSeedFilter.passedIndex, List.range_succ, List.filter_append, List.length_append]
  by_cases h : isPassed j = true
  · simp [h]
  · simp [h]

theorem CuSeedFilter.passedIndex_mono (isPassed : Nat → Bool) (j t : Nat) (h : j ≤ t) :
    CuSeedFilter.passedIndex isPassed j ≤ CuSeedFilter.passedIndex isPassed t := by
  induction t with
  | zero =>
    have : j = 0 := by omega
    subst this; exact le_refl _
  | succ t ih =>
    by_cases hj : j = t + 1
    · subst hj; exact le_refl _
    · have := ih (by omega)
      rw [CuSeedFilter.passedIndex_succ]
      omega

theorem CuSeedFilter.passedIndex_lt (isPassed : Nat → Bool) (j t : Nat) (h : j < t)
    (hj : isPassed j = true) :
    CuSeedFilter.passedIndex isPassed j < CuSeedFilter.passedIndex isPassed t := by
  have h1 := CuSeedFilter.passedIndex_mono isPassed (j + 1) t h
  rw [CuSeedFilter.passedIndex_succ, if_pos hj] at h1
  omega

theorem CuSeedFilter.passedIndex_inj (isPassed : Nat → Bool) (j t : Nat)
    (hj : isPassed j = true) (ht : isPassed t = true) :
    CuSeedFilter.passedIndex isPassed j = CuSeedFilter.passedIndex isPassed t ↔ j = t := by
  constructor
  · intro h
    rcases Nat.lt_trichotomy j t with h1 | h1 | h1
    · have := CuSeedFilter.passedIndex_lt isPassed j t h1 hj; omega
    · exact h1
    · have := CuSeedFilter.passedIndex_lt isPassed t j h1 ht; omega
  · rintro rfl; rfl

theorem FilterSpec.scan_of_limit_le (cfg : SeedFilterConfig K) (t : FilterSpec.Top K) (i : Nat)
    (l : List (Nat × FilterSpec.Top K)) (marked : List K) (w : K)
    (h : cfg.compatSeedLimit ≤ marked.length) :
    FilterSpec.scan cfg t i l marked w = w := by
  cases l with
  | nil => rfl
  | cons p rest =>
    obtain ⟨j, tj⟩ := p
    rw [FilterSpec.scan, if_pos h]


/-- The loop of `CuSeedFilter::filterSeeds_2SpFixed`, started at index `j` with fewer than
`compatSeedLimit` tops marked, computes for `weight[t]` what the scan of the specification
computes over the remaining passed tops. -/
theorem CuSeedFilter.compatLoop_refines (self : CuSeedFilter K) (t nSpT : Nat)
    (spTmat : Nat → K) (isPassed : Nat → Bool) (inv imp : Nat → K)
    (ht : isPassed t = true) (n j : Nat) (hn : j + n = nSpT)
    (ics : Nat → Bool) (weight : Nat → K) (marked : List K)
    (hI1 : ∀ k, j ≤ k → ics k = false)
    (hI2 : (List.range nSpT).countP ics = marked.length)
    (hI3 : ∀ x : K,
      (List.range nSpT).any
          (fun i => ics i && decide (|spTmat (i + nSpT * 3) - x| < self.m_cfg.deltaRMin)) =
        marked.any (fun rk => decide (|rk - x| < self.m_cfg.deltaRMin)))
    (hlim : marked.length < self.m_cfg.compatSeedLimit) :
    (CuSeedFilter.compatLoop self t nSpT spTmat isPassed inv
        (inv t - self.m_cfg.deltaInvHelixDiameter) (inv t + self.m_cfg.deltaInvHelixDiameter)
        (spTmat (t + nSpT * 3)) n j ics weight).2 t =
      FilterSpec.scan self.m_cfg (CuSeedFilter.topAt nSpT spTmat inv imp t)
        (CuSeedFilter.passedIndex isPassed t)
        (List.enumFrom (CuSeedFilter.passedIndex isPassed j)
          (((List.range' j n).filter isPassed).map (CuSeedFilter.topAt nSpT spTmat inv imp)))
        marked (weight t) := by
  induction n generalizing j ics weight marked with
  | zero => simp [CuSeedFilter.compatLoop, FilterSpec.scan]
  | succ n ih =>
    have hjn : j < nSpT := by omega
    have hI1s : ∀ k, j + 1 ≤ k → ics k = false := fun k hk => hI1 k (by omega)
    rw [CuSeedFilter.compatLoop, List.range'_succ, List.filter_cons]
    by_cases hp : isPassed j = true
    · have hpf : ¬ (isPassed j = false) := by simp [hp]
      have hs : CuSeedFilter.passedIndex isPassed (j + 1) =
          CuSeedFilter.passedIndex isPassed j + 1 := by
        rw [CuSeedFilter.passedIndex_succ, if_pos hp]
      rw [if_neg hpf, if_pos hp, List.map_cons, List.enumFrom_cons, FilterSpec.scan,
        if_neg (not_le.2 hlim), ← hs]
      by_cases hjt : j = t
      · rw [if_pos hjt, if_pos (by rw [hjt])]
        exact ih (j + 1) (by omega) ics weight marked hI1s hI2 hI3 hlim
      · rw [if_neg hjt, if_neg (fun h => hjt ((CuSeedFilter.passedIndex_inj isPassed j t hp ht).1 h))]
        simp only [CuSeedFilter.topAt]
        by_cases h1 : |spTmat (t + nSpT * 3) - spTmat (j + nSpT * 3)| < self.m_cfg.deltaRMin
        · rw [if_pos h1, if_pos h1]
          exact ih (j + 1) (by omega) ics weight marked hI1s hI2 hI3 hlim
        · rw [if_neg h1, if_neg h1]
          have hcurv : |inv t - inv j| > self.m_cfg.deltaInvHelixDiameter ↔
              (inv j < inv t - self.m_cfg.deltaInvHelixDiameter ∨
                inv j > inv t + self.m_cfg.deltaInvHelixDiameter) := by
            rw [gt_iff_lt, lt_abs]
            constructor
            · rintro (h | h)
              · left; linarith
              · right; linarith
            · rintro (h | h)
              · left; linarith
              · right; linarith
          by_cases h2 : inv j < inv t - self.m_cfg.deltaInvHelixDiameter
          · rw [if_pos h2, if_pos (hcurv.2 (Or.inl h2))]
            exact ih (j + 1) (by omega) ics weight marked hI1s hI2 hI3 hlim
          · rw [if_neg h2]
            by_cases h3 : inv j > inv t + self.m_cfg.deltaInvHelixDiameter
            · rw [if_pos h3, if_pos (hcurv.2 (Or.inr h3))]
              exact ih (j + 1) (by omega) ics weight marked hI1s hI2 hI3 hlim
            · rw [if_neg h3, if_neg (fun h => (hcurv.1 h).elim h2 h3)]
              have hnew : CuSeedFilter.newCompSeedLoop self nSpT spTmat ics
                  (spTmat (j + nSpT * 3)) nSpT 0 =
                  !(marked.any
                    (fun rk => decide (|rk - spTmat (j + nSpT * 3)| < self.m_cfg.deltaRMin))) := by
                rw [CuSeedFilter.newCompSeedLoop_eq, ← List.range_eq_range', hI3]
              have hcount : ∀ f : Nat → Bool,
                  CuSeedFilter.numCompatLoop f nSpT 0 0 = (List.range nSpT).countP f := by
                intro f
                rw [CuSeedFilter.numCompatLoop_eq, ← List.range_eq_range', Nat.zero_add]
              rw [hnew, hcount]
              by_cases hm : marked.any
                  (fun rk => decide (|rk - spTmat (j + nSpT * 3)| < self.m_cfg.deltaRMin)) = true
              · rw [if_pos hm]
                simp only [hm, Bool.not_true, Bool.false_eq_true, if_false]
                rw [hI2, if_neg (not_le.2 hlim)]
                exact ih (j + 1) (by omega) ics weight marked hI1s hI2 hI3 hlim
              · rw [if_neg hm]
                rw [Bool.not_eq_true] at hm
                simp only [hm, Bool.not_false, if_true]
                rw [CuSeedFilter.countP_update ics j nSpT hjn (hI1 j (le_refl j)), hI2]
                by_cases hge : self.m_cfg.compatSeedLimit ≤ marked.length + 1
                · rw [if_pos hge, FilterSpec.scan_of_limit_le _ _ _ _ _ _ (by simpa using hge)]
                  exact Function.update_same _ _ _
                · rw [if_neg hge]
                  have hfinal := ih (j + 1) (by omega) (Function.update ics j true)
                    (Function.update weight t (weight t + self.m_cfg.compatSeedWeight))
                    (marked ++ [spTmat (j + nSpT * 3)])
                    (fun k hk => by
                      rw [Function.update_noteq (by omega)]
                      exact hI1 k (by omega))
                    (by
                      rw [CuSeedFilter.countP_update ics j nSpT hjn (hI1 j (le_refl j)), hI2]
                      simp)
                    (fun x => by
                      rw [CuSeedFilter.any_update ics _ j nSpT hjn, hI3 x, List.any_append]
                      simp)
                    (by simpa using not_le.1 hge)
                  rw [Function.update_same] at hfinal
                  exact hfinal
    · have hpf : isPassed j = false := by simpa using hp
      have hs : CuSeedFilter.passedIndex isPassed (j + 1) =
          CuSeedFilter.passedIndex isPassed j := by
        rw [CuSeedFilter.passedIndex_succ, if_neg hp, Nat.add_zero]
      rw [if_pos hpf, if_neg hp, ← hs]
      exact ih (j + 1) (by omega) ics weight marked hI1s hI2 hI3 hlim


omit [LinearOrderedField K] in
theorem CuSeedFilter.passedTops_getElem (nSpT : Nat) (spTmat : Nat → K) (isPassed : Nat → Bool)
    (inv imp : Nat → K) (t : Nat) (ht : t < nSpT) (hp : isPassed t = true) :
    (CuSeedFilter.passedTops nSpT spTmat isPassed inv imp)[CuSeedFilter.passedIndex isPassed t]? =
      some (CuSeedFilter.topAt nSpT spTmat inv imp t) := by
  obtain ⟨m, rfl⟩ : ∃ m, nSpT = t + (m + 1) := ⟨nSpT - t - 1, by omega⟩
  have hsplit : List.range (t + (m + 1)) = List.range t ++ t :: List.range' (t + 1) m := by
    rw [List.range_eq_range', List.range_eq_range', ← List.range'_succ,
      Nat.add_comm t (m + 1), ← List.range'_append 0 t (m + 1) 1]
    simp
  simp only [CuSeedFilter.passedTops, CuSeedFilter.passedIndex]
  rw [hsplit, List.filter_append, List.filter_cons, if_pos hp, List.map_append,
    List.getElem?_append_right (by simp)]
  simp

/-- The weight before the experiment cuts follows the scan of the specification when
`compatSeedLimit ≥ 1`. -/
theorem CuSeedFilter.weightBeforeCuts_refines (self : CuSeedFilter K) (t nSpT : Nat)
    (spTmat : Nat → K) (isPassed : Nat → Bool) (inv imp weight : Nat → K)
    (hlimit : 1 ≤ self.m_cfg.compatSeedLimit) (hp : isPassed t = true) :
    CuSeedFilter.weightBeforeCuts self t nSpT spTmat isPassed inv imp weight t =
      FilterSpec.scan self.m_cfg (CuSeedFilter.topAt nSpT spTmat inv imp t)
        (CuSeedFilter.passedIndex isPassed t)
        (CuSeedFilter.passedTops nSpT spTmat isPassed inv imp).enum []
        (-((CuSeedFilter.topAt nSpT spTmat inv imp t).impact * self.m_cfg.impactWeightFactor)) := by
  simp only [CuSeedFilter.weightBeforeCuts]
  rw [CuSeedFilter.compatLoop_refines self t nSpT spTmat isPassed inv imp hp nSpT 0 (by simp)
    (fun _ => false) _ [] (fun _ _ => rfl) (by simp) (by simp) (by simpa using hlimit)]
  rw [Function.update_same]
  simp [CuSeedFilter.passedTops, CuSeedFilter.passedIndex, CuSeedFilter.topAt, List.enum,
    List.range_eq_range']

/-- C5: for `compatSeedLimit ≥ 1` and every thread index `t < nSpT` with `isPassed[t]` true, the
entry of `t` in the compacted list of the passed tops is at the position counting the passed tops
below `t`, and the weight written by `CuSeedFilter::filterSeeds_2SpFixed` for `t` equals the
stage-1 weight of specification 4.5 for that entry: `-impact_t·impactWeightFactor`, plus
`compatSeedWeight` for each other top, scanned in ascending order, that is not skipped by one of
the three rules, the scan stopping once `compatSeedLimit` tops are marked, plus
`seedWeight(b, M, t)`.  With `compatSeedLimit = 0` the two differ: for the example tops the code
writes 200 and the rule of the specification gives 0. -/
theorem CuSeedFilter_weight_refines_stage1 (self : CuSeedFilter K) (t : Nat)
    (spM spB : Nat → K) (nSpT : Nat) (spTmat : Nat → K) (isPassed : Nat → Bool)
    (invHelixDiameterVec impactParametersVec : Nat → K) (Zob : K)
    (weight : Nat → K) (isTriplet : Nat → Bool)
    (hlimit : 1 ≤ self.m_cfg.compatSeedLimit) (ht : t < nSpT) (hp : isPassed t = true) :
    ((CuSeedFilter.passedTops nSpT spTmat isPassed invHelixDiameterVec impactParametersVec)[
          CuSeedFilter.passedIndex isPassed t]? =
        some (CuSeedFilter.topAt nSpT spTmat invHelixDiameterVec impactParametersVec t) ∧
      (CuSeedFilter.filterSeeds_2SpFixed self t spM spB nSpT spTmat isPassed invHelixDiameterVec
          impactParametersVec Zob weight isTriplet).1 t =
        FilterSpec.stage1Weight self.m_cfg
          (CuIExperimentCuts.seedWeight spB spM (CuSeedFilter.spT t nSpT spTmat))
          (CuSeedFilter.passedTops nSpT spTmat isPassed invHelixDiameterVec impactParametersVec)
          (CuSeedFilter.passedIndex isPassed t)
          (CuSeedFilter.topAt nSpT spTmat invHelixDiameterVec impactParametersVec t)) ∧
    ((CuSeedFilter.filterSeeds_2SpFixed Example.cuFilterLimit0 0 (Example.point 50 0)
          (Example.point 10 0) 3 Example.spTmat Example.allPassed Example.zeros Example.zeros 0
          Example.zeros Example.noTriplet).1 0 = 200 ∧
      FilterSpec.stage1Weight Example.cuFilterLimit0.m_cfg
          (CuIExperimentCuts.seedWeight (Example.point 10 0) (Example.point 50 0)
            (CuSeedFilter.spT 0 3 Example.spTmat))
          (CuSeedFilter.passedTops 3 Example.spTmat Example.allPassed Example.zeros Example.zeros)
          (CuSeedFilter.passedIndex Example.allPassed 0)
          (CuSeedFilter.topAt 3 Example.spTmat Example.zeros Example.zeros 0) = 0) := by
  refine ⟨⟨CuSeedFilter.passedTops_getElem nSpT spTmat isPassed invHelixDiameterVec
    impactParametersVec t ht hp, ?_⟩, ?_, ?_⟩
  · simp only [CuSeedFilter.filterSeeds_2SpFixed, FilterSpec.stage1Weight]
    rw [Function.update_same, CuSeedFilter.weightBeforeCuts_refines self t nSpT spTmat isPassed
      invHelixDiameterVec impactParametersVec weight hlimit hp]
  · norm_num [CuSeedFilter.filterSeeds_2SpFixed, CuSeedFilter.weightBeforeCuts,
      CuSeedFilter.compatLoop, CuSeedFilter.newCompSeedLoop, CuSeedFilter.numCompatLoop,
      CuIExperimentCuts.seedWeight, CuSeedFilter.spT, Example.cuFilterLimit0,
      Example.filterConfig, Example.spTmat, Example.array, Example.allPassed, Example.zeros,
      Example.point, Function.update_apply]
  · norm_num [FilterSpec.stage1Weight, FilterSpec.scan, CuSeedFilter.passedTops,
      CuSeedFilter.topAt, CuSeedFilter.passedIndex, CuIExperimentCuts.seedWeight,
      CuSeedFilter.spT, Example.cuFilterLimit0, Example.filterConfig, Example.spTmat,
      Example.array, Example.allPassed, Example.zeros, Example.point, List.range_succ, List.enum]

theorem CuSeedFilter_weight_refines_stage1_witness :
    1 ≤ Example.cuFilter.m_cfg.compatSeedLimit ∧ 1 < 3 ∧ Example.allPassed 1 = true ∧
      (((CuSeedFilter.passedTops 3 Example.spTmat Example.allPassed Example.zeros Example.zeros)[
            CuSeedFilter.passedIndex Example.allPassed 1]? =
          some (CuSeedFilter.topAt 3 Example.spTmat Example.zeros Example.zeros 1) ∧
        (CuSeedFilter.filterSeeds_2SpFixed Example.cuFilter 1 (Example.point 50 0)
            (Example.point 10 0) 3 Example.spTmat Example.allPassed Example.zeros Example.zeros 0
            Example.zeros Example.noTriplet).1 1 =
          FilterSpec.stage1Weight Example.cuFilter.m_cfg
            (CuIExperimentCuts.seedWeight (Example.point 10 0) (Example.point 50 0)
              (CuSeedFilter.spT 1 3 Example.spTmat))
            (CuSeedFilter.passedTops 3 Example.spTmat Example.allPassed Example.zeros Example.zeros)
            (CuSeedFilter.passedIndex Example.allPassed 1)
            (CuSeedFilter.topAt 3 Example.spTmat Example.zeros Example.zeros 1)) ∧
      ((CuSeedFilter.filterSeeds_2SpFixed Example.cuFilterLimit0 0 (Example.point 50 0)
            (Example.point 10 0) 3 Example.spTmat Example.allPassed Example.zeros Example.zeros 0
            Example.zeros Example.noTriplet).1 0 = 200 ∧
        FilterSpec.stage1Weight Example.cuFilterLimit0.m_cfg
            (CuIExperimentCuts.seedWeight (Example.point 10 0) (Example.point 50 0)
              (CuSeedFilter.spT 0 3 Example.spTmat))
            (CuSeedFilter.passedTops 3 Example.spTmat Example.allPassed Example.zeros Example.zeros)
            (CuSeedFilter.passedIndex Example.allPassed 0)
            (CuSeedFilter.topAt 3 Example.spTmat Example.zeros Example.zeros 0) = 0)) :=
  ⟨by decide, by decide, rfl,
    CuSeedFilter_weight_refines_stage1 Example.cuFilter 1 (Example.point 50 0)
      (Example.point 10 0) 3 Example.spTmat Example.allPassed Example.zeros Example.zeros 0
      Example.zeros Example.noTriplet (by decide) (by decide) rfl⟩

end FilterProofs

section DoubletOrderProofs

variable {K : Type} [LinearOrderedField K]

/-- The top loop returns its accumulator followed by a sublist of the partners scanned. -/
theorem SearchDoublet.topLoop_sublist (spM : InternalSpacePoint K)
    (config : SeedfinderConfig K) (SPs acc : List (InternalSpacePoint K)) :
    ∃ l : List (InternalSpacePoint K),
      l.Sublist SPs ∧ SearchDoublet.topLoop spM config SPs acc = acc ++ l := by
  induction SPs generalizing acc with
  | nil => exact ⟨[], List.Sublist.refl _, by simp [SearchDoublet.topLoop]⟩
  | cons sp SPs ih =>
    rw [SearchDoublet.topLoop_cons]
    split_ifs with h1 h2 hA
    · obtain ⟨l, hl, he⟩ := ih acc
      exact ⟨l, hl.cons _, he⟩
    · exact ⟨[], List.nil_sublist _, by simp⟩
    · obtain ⟨l, hl, he⟩ := ih (acc ++ [sp])
      exact ⟨sp :: l, hl.cons₂ _, by rw [he]; simp⟩
    · obtain ⟨l, hl, he⟩ := ih acc
      exact ⟨l, hl.cons _, he⟩

/-- On partners sorted by ascending radius the top loop is the filter by the condition of its
pass: after a partner beyond `deltaRMax` no later partner is acceptable. -/
theorem SearchDoublet.topLoop_eq_filter_of_sorted (spM : InternalSpacePoint K)
    (config : SeedfinderConfig K) (SPs acc : List (InternalSpacePoint K))
    (hsorted : SPs.Pairwise (fun a b => a.radius ≤ b.radius)) :
    SearchDoublet.topLoop spM config SPs acc =
      acc ++ SPs.filter (fun S => decide (SearchDoublet.topKeeps config spM S)) := by
  induction SPs generalizing acc with
  | nil => simp [SearchDoublet.topLoop]
  | cons sp SPs ih =>
    rw [List.pairwise_cons] at hsorted
    rw [SearchDoublet.topLoop_cons, List.filter_cons]
    by_cases h1 : sp.radius - spM.radius < config.deltaRMin
    · have hA : ¬ SearchDoublet.topKeeps config spM sp := fun h => absurd h.1.1 (not_le.2 h1)
      rw [if_pos h1, ih acc hsorted.2]
      simp [hA]
    · rw [if_neg h1]
      by_cases h2 : config.deltaRMax < sp.radius - spM.radius
      · have hA : ¬ SearchDoublet.topKeeps config spM sp := fun h => absurd h.1.2 (not_le.2 h2)
        have hrest : SPs.filter (fun S => decide (SearchDoublet.topKeeps config spM S)) = [] := by
          rw [List.filter_eq_nil_iff]
          intro S hS
          have hr := hsorted.1 S hS
          simp only [decide_eq_true_eq]
          intro h
          have := h.1.2
          linarith
        rw [if_pos h2]
        simp [hA, hrest]
      · rw [if_neg h2]
        by_cases hA : SearchDoublet.topKeeps config spM sp
        · rw [if_pos hA, ih _ hsorted.2]
          simp [hA]
        · rw [if_neg hA, ih _ hsorted.2]
          simp [hA]

/-- C15: for either role the list returned by `SearchDoublet` is a subsequence of the partner
sequence: the accepted partners keep their relative order, and no partner is returned more often
than it occurs in the input (stated for every property `p` of partners through the counts). -/
theorem SearchDoublet_result_is_subsequence (isBottom : Bool)
    (SPs : List (InternalSpacePoint K)) (spM : InternalSpacePoint K)
    (config : SeedfinderConfig K) :
    (SearchDoublet isBottom SPs spM config).Sublist SPs ∧
      ∀ p : InternalSpacePoint K → Bool,
        (SearchDoublet isBottom SPs spM config).countP p ≤ SPs.countP p := by
  have hsub : (SearchDoublet isBottom SPs spM config).Sublist SPs := by
    cases isBottom with
    | true =>
      simp only [SearchDoublet, if_true, SearchDoublet.bottomLoop_eq_filter, List.nil_append]
      exact List.filter_sublist _
    | false =>
      obtain ⟨l, hl, he⟩ := SearchDoublet.topLoop_sublist spM config SPs []
      simp only [SearchDoublet, Bool.false_eq_true, if_false, he, List.nil_append]
      exact hl
  exact ⟨hsub, fun p => hsub.countP_le p⟩

/-- C20 (counterexample): with `deltaRMin = -10` the TOP search around the middle
`(50, 0, 1000)` over the one-element (hence sorted) partner sequence made of a point at the
position of the middle returns that partner.  Its gap `r_S - r_M` is zero, so the quotient
`cotθ = (z_S - z_M)/(r_S - r_M)` is `0/0`, and no value `c` of the quotient passes both the angle
test `|c| ≤ cotThetaMax` and the origin test on `z_M - r_M·c`. -/
theorem SearchDoublet_top_returns_partner_at_middle :
    [Example.onAxis 50 1000].Pairwise (fun a b => a.radius ≤ b.radius) ∧
      SearchDoublet false [Example.onAxis 50 1000] (Example.onAxis 50 1000)
        Example.configNegativeGap = [Example.onAxis 50 1000] ∧
      (Example.onAxis 50 1000).radius - (Example.onAxis 50 1000).radius = 0 ∧
      (Example.onAxis 50 1000).z - (Example.onAxis 50 1000).z = 0 ∧
      ∀ c : ℚ, ¬ (|c| ≤ Example.configNegativeGap.cotThetaMax ∧
        Example.configNegativeGap.collisionRegionMin ≤
          (Example.onAxis 50 1000).z - (Example.onAxis 50 1000).radius * c ∧
        (Example.onAxis 50 1000).z - (Example.onAxis 50 1000).radius * c ≤
          Example.configNegativeGap.collisionRegionMax) := by
  refine ⟨List.pairwise_singleton _ _, ?_, by norm_num, by norm_num, ?_⟩
  · norm_num [SearchDoublet, SearchDoublet.topLoop, Example.configNegativeGap, Example.config,
      Example.onAxis]
  · rintro c ⟨h1, -, h3⟩
    have h4 := le_abs_self c
    norm_num [Example.configNegativeGap, Example.config, Example.onAxis] at h1 h3
    linarith

/-- C20 (amended): when `deltaRMin > 0`, or when no partner has the radius of the middle, on a
partner sequence sorted by ascending radius `SearchDoublet` in the TOP role returns exactly the
partners that pass the three tests of the specification (radial gap in `[deltaRMin, deltaRMax]`,
`|cotθ| ≤ cotThetaMax`, origin inside the collision region): ending the scan at the first partner
with `r_S - r_M > deltaRMax` loses no acceptable partner. -/
theorem SearchDoublet_top_exact_on_sorted (SPs : List (InternalSpacePoint K))
    (spM : InternalSpacePoint K) (config : SeedfinderConfig K)
    (hsorted : SPs.Pairwise (fun a b => a.radius ≤ b.radius))
    (h : 0 < config.deltaRMin ∨ ∀ S ∈ SPs, S.radius ≠ spM.radius) :
    SearchDoublet false SPs spM config =
      SPs.filter (fun S => decide (DupletSpec.topAccepted config spM S)) := by
  simp only [SearchDoublet, Bool.false_eq_true, if_false]
  rw [SearchDoublet.topLoop_eq_filter_of_sorted spM config SPs [] hsorted, List.nil_append]
  apply List.filter_congr
  intro S hS
  rw [decide_eq_decide]
  rcases h with h | h
  · exact SearchDoublet.topKeeps_iff_of_pos config spM S h
  · exact SearchDoublet.topKeeps_iff config spM S (sub_ne_zero.2 (h S hS))

theorem SearchDoublet_top_exact_on_sorted_witness :
    [Example.onAxis 52 0, Example.onAxis 100 0, Example.onAxis 220 0, Example.onAxis 230 0].Pairwise
        (fun a b => a.radius ≤ b.radius) ∧
      ((0 : ℚ) < Example.config.deltaRMin ∨
        ∀ S ∈ [Example.onAxis 52 0, Example.onAxis 100 0, Example.onAxis 220 0,
          Example.onAxis 230 0], S.radius ≠ (Example.onAxis 50 0).radius) ∧
      SearchDoublet false
          [Example.onAxis 52 0, Example.onAxis 100 0, Example.onAxis 220 0, Example.onAxis 230 0]
          (Example.onAxis 50 0) Example.config =
        [Example.onAxis 52 0, Example.onAxis 100 0, Example.onAxis 220 0,
          Example.onAxis 230 0].filter
          (fun S => decide (DupletSpec.topAccepted Example.config (Example.onAxis 50 0) S)) :=
  have hsorted : [Example.onAxis 52 0, Example.onAxis 100 0, Example.onAxis 220 0,
      Example.onAxis 230 0].Pairwise (fun a b => a.radius ≤ b.radius) := by
    norm_num [Example.onAxis]
  have h : (0 : ℚ) < Example.config.deltaRMin ∨
      ∀ S ∈ [Example.onAxis 52 0, Example.onAxis 100 0, Example.onAxis 220 0,
        Example.onAxis 230 0], S.radius ≠ (Example.onAxis 50 0).radius :=
    Or.inl (by norm_num [Example.config])
  ⟨hsorted, h, SearchDoublet_top_exact_on_sorted _ _ _ hsorted h⟩

end DoubletOrderProofs

section TripletCallProofs

variable {K : Type} [LinearOrderedField K]

/-- Run with the recording filter, `SearchTriplet` returns the filter calls
`SearchTriplet.filterCalls`. -/
theorem SearchTriplet.recordCall_eq_filterCalls (sqrt : K → K) (spM : InternalSpacePoint K)
    (compatBottomSP compatTopSP : List (InternalSpacePoint K))
    (linCircleBottom linCircleTop : List (LinCircle K)) (config : SeedfinderConfig K)
    (hB : compatBottomSP.length ≤ linCircleBottom.length)
    (hT : compatTopSP.length ≤ linCircleTop.length) :
    SearchTriplet sqrt SearchTriplet.recordCall spM compatBottomSP compatTopSP linCircleBottom
        linCircleTop config =
      some (SearchTriplet.filterCalls sqrt config spM compatBottomSP compatTopSP linCircleBottom
        linCircleTop) := by
  rw [SearchTriplet.eq_flatMap_filterCalls sqrt SearchTriplet.recordCall spM compatBottomSP
    compatTopSP linCircleBottom linCircleTop config hB hT]
  congr 1
  induction SearchTriplet.filterCalls sqrt config spM compatBottomSP compatTopSP linCircleBottom
      linCircleTop with
  | nil => rfl
  | cons c cs ih => rw [List.flatMap_cons, ih]; rfl

/-- Every filter call comes from a bottom `LinCircle`. -/
theorem SearchTriplet.mem_filterCalls (sqrt : K → K) (config : SeedfinderConfig K)
    (M : InternalSpacePoint K) (compatBottomSP compatTopSP : List (InternalSpacePoint K))
    (linCircleBottom linCircleTop : List (LinCircle K)) (c : SearchTriplet.FilterCall K)
    (hc : c ∈ SearchTriplet.filterCalls sqrt config M compatBottomSP compatTopSP linCircleBottom
      linCircleTop) :
    ∃ lb ∈ linCircleBottom,
      SearchTriplet.passedTops sqrt config M compatTopSP linCircleTop lb ≠ [] ∧
      c.topSpVec =
        (SearchTriplet.passedTops sqrt config M compatTopSP linCircleTop lb).map Prod.fst ∧
      c.curvatures = (SearchTriplet.passedTops sqrt config M compatTopSP linCircleTop lb).map
        (fun p => TripletSpec.curvature sqrt lb p.2) ∧
      c.impactParameters = (SearchTriplet.passedTops sqrt config M compatTopSP linCircleTop lb).map
        (fun p => TripletSpec.Im M lb p.2) ∧
      c.zOrigin = lb.Zo := by
  simp only [SearchTriplet.filterCalls, List.mem_map, List.mem_filter] at hc
  obtain ⟨q, ⟨hq, hne⟩, rfl⟩ := hc
  refine ⟨q.2, (List.of_mem_zip hq).2, ?_, rfl, rfl, rfl, rfl⟩
  intro h
  rw [h] at hne
  simp at hne

end TripletCallProofs

section ExampleEvaluation

/-- The example square root is exact on squares. -/
theorem Example.sqrt_mul_self (q : ℚ) : Example.sqrt (q * q) = |q| :=
  Rat.sqrt_eq q

theorem Example.linCircleBottom_eq :
    Example.linCircleBottom =
      [{ Zo := 0, cotTheta := 0, iDeltaR := 1 / 40, Er := 0, U := -1 / 40, V := 0 }] := by
  have h : Example.sqrt (1 / 1600) = 1 / 40 := by
    have := Example.sqrt_mul_self (1 / 40)
    norm_num at this
    norm_num [this]
  simp only [Example.linCircleBottom, Example.bottoms, transformCoordinates,
    transformCoordinates.loop, Example.onAxis]
  norm_num [h]

theorem Example.linCircleTop_eq :
    Example.linCircleTop =
      [{ Zo := 0, cotTheta := 0, iDeltaR := 1 / 100, Er := 0, U := 1 / 100, V := 0 }] := by
  have h : Example.sqrt (1 / 10000) = 1 / 100 := by
    have := Example.sqrt_mul_self (1 / 100)
    norm_num at this
    norm_num [this]
  simp only [Example.linCircleTop, Example.tops, transformCoordinates,
    transformCoordinates.loop, Example.onAxis]
  norm_num [h]

end ExampleEvaluation

section ExampleCallEvaluation

end ExampleCallEvaluation

section TripletCallWitness

theorem Example.lengths_ok :
    Example.bottoms.length ≤ Example.linCircleBottom.length ∧
      Example.tops.length ≤ Example.linCircleTop.length := by
  rw [Example.linCircleBottom_eq, Example.linCircleTop_eq]
  simp [Example.bottoms, Example.tops]

end TripletCallWitness

section TripletRejectionWitness

end TripletRejectionWitness

section EmptyInputProofs

variable {K : Type} [LinearOrderedField K]

/-- The `LinCircle` of a point taken as its own partner has `U = 0`. -/
theorem ConformalSpec.linCircle_self_U (sqrt : K → K) (P : InternalSpacePoint K)
    (bottom : Bool) : (ConformalSpec.linCircle sqrt P bottom P).U = 0 := by
  simp [ConformalSpec.linCircle]

/-- C17: `SearchDoublet` returns the empty list for an empty partner sequence in either role;
`SearchTriplet` returns no candidate seed and makes no call of the seed filter when the list of
compatible bottoms is empty, and also when the list of compatible tops is empty; for a single
point, taken as middle and as its own only partner, the duplet search followed by the transform
and the triplet search makes no call of the filter either, so no seed is produced. -/
theorem SearchDoublet_SearchTriplet_empty_input {σ : Type} (sqrt : K → K)
    (F : InternalSpacePoint K → InternalSpacePoint K →
      List (InternalSpacePoint K) → List K → List K → K → List σ)
    (spM : InternalSpacePoint K) (compatBottomSP compatTopSP : List (InternalSpacePoint K))
    (linCircleBottom linCircleTop : List (LinCircle K)) (config : SeedfinderConfig K)
    (hB : compatBottomSP.length ≤ linCircleBottom.length) :
    (∀ isBottom : Bool, SearchDoublet isBottom [] spM config = []) ∧
      (SearchTriplet sqrt F spM [] compatTopSP linCircleBottom linCircleTop config = some [] ∧
        SearchTriplet sqrt SearchTriplet.recordCall spM [] compatTopSP linCircleBottom
          linCircleTop config = some []) ∧
      (SearchTriplet sqrt F spM compatBottomSP [] linCircleBottom linCircleTop config = some [] ∧
        SearchTriplet sqrt SearchTriplet.recordCall spM compatBottomSP [] linCircleBottom
          linCircleTop config = some []) ∧
      SearchTriplet sqrt SearchTriplet.recordCall spM
        (SearchDoublet true [spM] spM config) (SearchDoublet false [spM] spM config)
        (transformCoordinates sqrt (SearchDoublet true [spM] spM config) spM true [])
        (transformCoordinates sqrt (SearchDoublet false [spM] spM config) spM false [])
        config = some [] := by
  have hnoTop : SearchTriplet.filterCalls sqrt config spM compatBottomSP [] linCircleBottom
      linCircleTop = [] := by
    simp [SearchTriplet.filterCalls, SearchTriplet.passedTops]
  refine ⟨?_, ⟨rfl, rfl⟩, ⟨?_, ?_⟩, ?_⟩
  · intro isBottom
    cases isBottom <;> rfl
  · rw [SearchTriplet.eq_flatMap_filterCalls sqrt F spM compatBottomSP [] linCircleBottom
      linCircleTop config hB (Nat.zero_le _), hnoTop]
    rfl
  · rw [SearchTriplet.recordCall_eq_filterCalls sqrt spM compatBottomSP [] linCircleBottom
      linCircleTop config hB (Nat.zero_le _), hnoTop]
  · have htc : ∀ (vec : List (InternalSpacePoint K)) (b : Bool),
        transformCoordinates sqrt vec spM b [] =
          vec.map (ConformalSpec.linCircle sqrt spM b) := by
      intro vec b
      simp only [transformCoordinates]
      rw [transformCoordinates.loop_eq_map, List.nil_append]
    rw [SearchTriplet.recordCall_eq_filterCalls _ _ _ _ _ _ _ (by rw [htc]; simp)
      (by rw [htc]; simp), htc, htc]
    have hrej : ¬ SearchTriplet.passes sqrt config spM
        (ConformalSpec.linCircle sqrt spM true spM)
        (ConformalSpec.linCircle sqrt spM false spM) := by
      intro h
      apply h.2.1
      simp [TripletSpec.rejected2, ConformalSpec.linCircle_self_U]
    have hsub1 : ∀ b : Bool, SearchDoublet b [spM] spM config = [] ∨
        SearchDoublet b [spM] spM config = [spM] := by
      intro b
      cases b with
      | true =>
        simp only [SearchDoublet, if_true, SearchDoublet.bottomLoop_eq_filter, List.nil_append,
          List.filter_cons, List.filter_nil]
        split_ifs <;> simp
      | false =>
        simp only [SearchDoublet, Bool.false_eq_true, if_false, SearchDoublet.topLoop_cons,
          SearchDoublet.topLoop, List.nil_append]
        split_ifs <;> simp
    rcases hsub1 true with h1 | h1 <;> rcases hsub1 false with h2 | h2 <;>
      simp [h1, h2, SearchTriplet.filterCalls, SearchTriplet.passedTops, hrej]

theorem SearchDoublet_SearchTriplet_empty_input_witness :
    Example.bottoms.length ≤ Example.linCircleBottom.length ∧
      ((∀ isBottom : Bool, SearchDoublet isBottom [] (Example.onAxis 50 0) Example.config = []) ∧
      (SearchTriplet Example.sqrt SearchTriplet.recordCall (Example.onAxis 50 0) [] Example.tops
          Example.linCircleBottom Example.linCircleTop Example.config = some [] ∧
        SearchTriplet Example.sqrt SearchTriplet.recordCall (Example.onAxis 50 0) [] Example.tops
          Example.linCircleBottom Example.linCircleTop Example.config = some []) ∧
      (SearchTriplet Example.sqrt SearchTriplet.recordCall (Example.onAxis 50 0) Example.bottoms
          [] Example.linCircleBottom Example.linCircleTop Example.config = some [] ∧
        SearchTriplet Example.sqrt SearchTriplet.recordCall (Example.onAxis 50 0) Example.bottoms
          [] Example.linCircleBottom Example.linCircleTop Example.config = some []) ∧
      SearchTriplet Example.sqrt SearchTriplet.recordCall (Example.onAxis 50 0)
        (SearchDoublet true [Example.onAxis 50 0] (Example.onAxis 50 0) Example.config)
        (SearchDoublet false [Example.onAxis 50 0] (Example.onAxis 50 0) Example.config)
        (transformCoordinates Example.sqrt
          (SearchDoublet true [Example.onAxis 50 0] (Example.onAxis 50 0) Example.config)
          (Example.onAxis 50 0) true [])
        (transformCoordinates Example.sqrt
          (SearchDoublet false [Example.onAxis 50 0] (Example.onAxis 50 0) Example.config)
          (Example.onAxis 50 0) false [])
        Example.config = some []) :=
  ⟨Example.lengths_ok.1,
    SearchDoublet_SearchTriplet_empty_input Example.sqrt SearchTriplet.recordCall
      (Example.onAxis 50 0) Example.bottoms Example.tops Example.linCircleBottom
      Example.linCircleTop Example.config Example.lengths_ok.1⟩

end EmptyInputProofs

section FilterSkipProofs

variable {K : Type} [LinearOrderedField K]

/-- One pass of the loop of `CuSeedFilter::filterSeeds_2SpFixed` over a top `j` that is too close
in radius to the top of the thread, or whose curvature is too far from it, changes nothing. -/
theorem CuSeedFilter.compatLoop_skip (self : CuSeedFilter K) (t nSpT : Nat)
    (spTmat : Nat → K) (isPassed : Nat → Bool) (inv : Nat → K) (n j : Nat)
    (ics : Nat → Bool) (weight : Nat → K)
    (hj : isPassed j = false ∨ j = t ∨
      |spTmat (t + nSpT * 3) - spTmat (j + nSpT * 3)| < self.m_cfg.deltaRMin ∨
      |inv j - inv t| > self.m_cfg.deltaInvHelixDiameter) :
    CuSeedFilter.compatLoop self t nSpT spTmat isPassed inv
        (inv t - self.m_cfg.deltaInvHelixDiameter) (inv t + self.m_cfg.deltaInvHelixDiameter)
        (spTmat (t + nSpT * 3)) (n + 1) j ics weight =
      CuSeedFilter.compatLoop self t nSpT spTmat isPassed inv
        (inv t - self.m_cfg.deltaInvHelixDiameter) (inv t + self.m_cfg.deltaInvHelixDiameter)
        (spTmat (t + nSpT * 3)) n (j + 1) ics weight := by
  rw [CuSeedFilter.compatLoop]
  by_cases hp : isPassed j = false
  · rw [if_pos hp]
  · rw [if_neg hp]
    by_cases hjt : j = t
    · rw [if_pos hjt]
    · rw [if_neg hjt]
      simp only []
      by_cases h1 : |spTmat (t + nSpT * 3) - spTmat (j + nSpT * 3)| < self.m_cfg.deltaRMin
      · rw [if_pos h1]
      · rw [if_neg h1]
        have hc : |inv j - inv t| > self.m_cfg.deltaInvHelixDiameter := by
          rcases hj with h | h | h | h
          · exact absurd h hp
          · exact absurd h hjt
          · exact absurd h h1
          · exact h
        rw [gt_iff_lt, lt_abs] at hc
        by_cases h2 : inv j < inv t - self.m_cfg.deltaInvHelixDiameter
        · rw [if_pos h2]
        · rw [if_neg h2]
          have h3 : inv j > inv t + self.m_cfg.deltaInvHelixDiameter := by
            rcases hc with h | h
            · linarith
            · exact absurd (by linarith) h2
          rw [if_pos h3]

/-- When every remaining top is skipped, the loop returns its state unchanged. -/
theorem CuSeedFilter.compatLoop_skip_all (self : CuSeedFilter K) (t nSpT : Nat)
    (spTmat : Nat → K) (isPassed : Nat → Bool) (inv : Nat → K) (n j : Nat)
    (ics : Nat → Bool) (weight : Nat → K)
    (hall : ∀ k, j ≤ k → k < j + n → (isPassed k = false ∨ k = t ∨
      |spTmat (t + nSpT * 3) - spTmat (k + nSpT * 3)| < self.m_cfg.deltaRMin ∨
      |inv k - inv t| > self.m_cfg.deltaInvHelixDiameter)) :
    CuSeedFilter.compatLoop self t nSpT spTmat isPassed inv
        (inv t - self.m_cfg.deltaInvHelixDiameter) (inv t + self.m_cfg.deltaInvHelixDiameter)
        (spTmat (t + nSpT * 3)) n j ics weight = (ics, weight) := by
  induction n generalizing j with
  | zero => rfl
  | succ n ih =>
    rw [CuSeedFilter.compatLoop_skip self t nSpT spTmat isPassed inv n j ics weight
      (hall j (le_refl j) (by omega))]
    exact ih (j + 1) (fun k hk1 hk2 => hall k (by omega) (by omega))

/-- C14: in `CuSeedFilter::filterSeeds_2SpFixed` a top `j` whose curvature differs from the one
of top `t` by more than `deltaInvHelixDiameter`, or whose radius differs from the one of `t` by
less than `deltaRMin`, leaves the weight of `t` unchanged when the loop passes it; and when every
other top is of one of these two kinds the weight written for `t` is
`-impact_t·impactWeightFactor + seedWeight(b, M, t)`. -/
theorem CuSeedFilter_mismatched_tops_add_no_bonus (self : CuSeedFilter K) (t : Nat)
    (spM spB : Nat → K) (nSpT : Nat) (spTmat : Nat → K) (isPassed : Nat → Bool)
    (invHelixDiameterVec impactParametersVec : Nat → K) (Zob : K)
    (weight : Nat → K) (isTriplet : Nat → Bool)
    (hall : ∀ j, j < nSpT → j ≠ t →
      (|invHelixDiameterVec j - invHelixDiameterVec t| > self.m_cfg.deltaInvHelixDiameter ∨
        |spTmat (j + nSpT * 3) - spTmat (t + nSpT * 3)| < self.m_cfg.deltaRMin)) :
    (∀ (n j : Nat) (ics : Nat → Bool) (w : Nat → K),
        (|invHelixDiameterVec j - invHelixDiameterVec t| > self.m_cfg.deltaInvHelixDiameter ∨
          |spTmat (j + nSpT * 3) - spTmat (t + nSpT * 3)| < self.m_cfg.deltaRMin) →
        CuSeedFilter.compatLoop self t nSpT spTmat isPassed invHelixDiameterVec
            (invHelixDiameterVec t - self.m_cfg.deltaInvHelixDiameter)
            (invHelixDiameterVec t + self.m_cfg.deltaInvHelixDiameter)
            (spTmat (t + nSpT * 3)) (n + 1) j ics w =
          CuSeedFilter.compatLoop self t nSpT spTmat isPassed invHelixDiameterVec
            (invHelixDiameterVec t - self.m_cfg.deltaInvHelixDiameter)
            (invHelixDiameterVec t + self.m_cfg.deltaInvHelixDiameter)
            (spTmat (t + nSpT * 3)) n (j + 1) ics w) ∧
      (CuSeedFilter.filterSeeds_2SpFixed self t spM spB nSpT spTmat isPassed invHelixDiameterVec
          impactParametersVec Zob weight isTriplet).1 t =
        -(impactParametersVec t * self.m_cfg.impactWeightFactor) +
          CuIExperimentCuts.seedWeight spB spM (CuSeedFilter.spT t nSpT spTmat) := by
  constructor
  · intro n j ics w hj
    apply CuSeedFilter.compatLoop_skip
    rcases hj with h | h
    · exact Or.inr (Or.inr (Or.inr h))
    · exact Or.inr (Or.inr (Or.inl (by rw [abs_sub_comm]; exact h)))
  · simp only [CuSeedFilter.filterSeeds_2SpFixed, CuSeedFilter.weightBeforeCuts]
    rw [CuSeedFilter.compatLoop_skip_all self t nSpT spTmat isPassed invHelixDiameterVec nSpT 0
      _ _ (fun k _ hk2 => by
        by_cases hkt : k = t
        · exact Or.inr (Or.inl hkt)
        · rcases hall k (by omega) hkt with h | h
          · exact Or.inr (Or.inr (Or.inr h))
          · exact Or.inr (Or.inr (Or.inl (by rw [abs_sub_comm]; exact h))))]
    simp only [Function.update_same]

theorem CuSeedFilter_mismatched_tops_add_no_bonus_witness :
    (∀ j, j < 3 → j ≠ 0 →
      (|Example.distinctCurvatures j - Example.distinctCurvatures 0| >
          Example.cuFilter.m_cfg.deltaInvHelixDiameter ∨
        |Example.spTmat (j + 3 * 3) - Example.spTmat (0 + 3 * 3)| <
          Example.cuFilter.m_cfg.deltaRMin)) ∧
      ((∀ (n j : Nat) (ics : Nat → Bool) (w : Nat → ℚ),
        (|Example.distinctCurvatures j - Example.distinctCurvatures 0| >
            Example.cuFilter.m_cfg.deltaInvHelixDiameter ∨
          |Example.spTmat (j + 3 * 3) - Example.spTmat (0 + 3 * 3)| <
            Example.cuFilter.m_cfg.deltaRMin) →
        CuSeedFilter.compatLoop Example.cuFilter 0 3 Example.spTmat Example.allPassed
            Example.distinctCurvatures
            (Example.distinctCurvatures 0 - Example.cuFilter.m_cfg.deltaInvHelixDiameter)
            (Example.distinctCurvatures 0 + Example.cuFilter.m_cfg.deltaInvHelixDiameter)
            (Example.spTmat (0 + 3 * 3)) (n + 1) j ics w =
          CuSeedFilter.compatLoop Example.cuFilter 0 3 Example.spTmat Example.allPassed
            Example.distinctCurvatures
            (Example.distinctCurvatures 0 - Example.cuFilter.m_cfg.deltaInvHelixDiameter)
            (Example.distinctCurvatures 0 + Example.cuFilter.m_cfg.deltaInvHelixDiameter)
            (Example.spTmat (0 + 3 * 3)) n (j + 1) ics w) ∧
      (CuSeedFilter.filterSeeds_2SpFixed Example.cuFilter 0 (Example.point 50 0)
          (Example.point 10 0) 3 Example.spTmat Example.allPassed Example.distinctCurvatures
          Example.zeros 0 Example.zeros Example.noTriplet).1 0 =
        -(Example.zeros 0 * Example.cuFilter.m_cfg.impactWeightFactor) +
          CuIExperimentCuts.seedWeight (Example.point 10 0) (Example.point 50 0)
            (CuSeedFilter.spT 0 3 Example.spTmat)) :=
  have hall : ∀ j, j < 3 → j ≠ 0 →
      (|Example.distinctCurvatures j - Example.distinctCurvatures 0| >
          Example.cuFilter.m_cfg.deltaInvHelixDiameter ∨
        |Example.spTmat (j + 3 * 3) - Example.spTmat (0 + 3 * 3)| <
          Example.cuFilter.m_cfg.deltaRMin) := by
    intro j hj hj0
    left
    interval_cases j
    · exact absurd rfl hj0
    · norm_num [Example.distinctCurvatures, Example.array, Example.cuFilter,
        Example.filterConfig]
    · norm_num [Example.distinctCurvatures, Example.array, Example.cuFilter,
        Example.filterConfig]
  ⟨hall, CuSeedFilter_mismatched_tops_add_no_bonus Example.cuFilter 0 (Example.point 50 0)
    (Example.point 10 0) 3 Example.spTmat Example.allPassed Example.distinctCurvatures
    Example.zeros 0 Example.zeros Example.noTriplet hall⟩

end FilterSkipProofs

section HelixFitProofs

variable {K : Type} [LinearOrderedField K]

/-- The values recorded by a pass of the inner loop of `SearchTriplet` are computed from the line
fit: the curvature is `B / sqrt(S2)` and the impact parameter is `|(A - B·rM)·rM|`. -/
theorem SearchTriplet.tripletCuts_helixFit (sqrt : K → K) (spM : InternalSpacePoint K)
    (config : SeedfinderConfig K) (lb lt : LinCircle K) (curvature im : K)
    (h : SearchTriplet.tripletCuts sqrt spM config lb.cotTheta lb.V lb.U lb.Er lb.iDeltaR
        (1 + lb.cotTheta * lb.cotTheta)
        (config.maxScatteringAngle2 * (1 + lb.cotTheta * lb.cotTheta) *
          (config.sigmaScattering * config.sigmaScattering)) lt = some (curvature, im)) :
    curvature = (SearchTriplet.helixFit lb.U lb.V lt).2.2 /
        sqrt (SearchTriplet.helixFit lb.U lb.V lt).2.1 ∧
      im = |((SearchTriplet.helixFit lb.U lb.V lt).1 -
        (SearchTriplet.helixFit lb.U lb.V lt).2.2 * spM.radius) * spM.radius| := by
  rw [SearchTriplet.tripletCuts_eq] at h
  by_cases hA : SearchTriplet.passes sqrt config spM lb lt
  · rw [if_pos hA] at h
    have h1 := congrArg Prod.fst (Option.some.inj h)
    have h2 := congrArg Prod.snd (Option.some.inj h)
    simp only at h1 h2
    subst h1 h2
    constructor <;>
      simp only [SearchTriplet.helixFit, TripletSpec.curvature, TripletSpec.Im, TripletSpec.A,
        TripletSpec.B, TripletSpec.S2, pow_two]
  · rw [if_neg hA] at h
    exact absurd h (by simp)

/-- C12: for a circle in the middle-centred local plane through the origin with centre
`(x0, y0)`, `y0 ≠ 0`, and two points `(xb, yb)`, `(xt, yt)` on it other than the origin whose
conformal coordinates `(U, V) = (x, y)/(x² + y²)` have distinct `U`, the line fit of
`SearchTriplet` gives `A` and `B` with both conformal points on the line `V = A·U + B`, and
`S²/B²` with `S² = 1 + A²` is the squared diameter `4·(x0² + y0²)` of the circle. -/
theorem SearchTriplet_helixFit_line_through_conformal_points (x0 y0 xb yb xt yt Ub Vb : K)
    (lt : LinCircle K) (hy0 : y0 ≠ 0)
    (hb : (xb - x0) ^ 2 + (yb - y0) ^ 2 = x0 ^ 2 + y0 ^ 2) (hb0 : xb ^ 2 + yb ^ 2 ≠ 0)
    (ht : (xt - x0) ^ 2 + (yt - y0) ^ 2 = x0 ^ 2 + y0 ^ 2) (ht0 : xt ^ 2 + yt ^ 2 ≠ 0)
    (hUb : Ub = xb / (xb ^ 2 + yb ^ 2)) (hVb : Vb = yb / (xb ^ 2 + yb ^ 2))
    (hUt : lt.U = xt / (xt ^ 2 + yt ^ 2)) (hVt : lt.V = yt / (xt ^ 2 + yt ^ 2))
    (hU : lt.U ≠ Ub) :
    Vb = (SearchTriplet.helixFit Ub Vb lt).1 * Ub + (SearchTriplet.helixFit Ub Vb lt).2.2 ∧
      lt.V = (SearchTriplet.helixFit Ub Vb lt).1 * lt.U +
        (SearchTriplet.helixFit Ub Vb lt).2.2 ∧
      (SearchTriplet.helixFit Ub Vb lt).2.1 / (SearchTriplet.helixFit Ub Vb lt).2.2 ^ 2 =
        4 * (x0 ^ 2 + y0 ^ 2) := by
  have hlb : 2 * x0 * Ub + 2 * y0 * Vb = 1 := by
    rw [hUb, hVb]
    field_simp
    linear_combination -hb
  have hlt : 2 * x0 * lt.U + 2 * y0 * lt.V = 1 := by
    rw [hUt, hVt]
    field_simp
    linear_combination -ht
  have hdU : lt.U - Ub ≠ 0 := sub_ne_zero.2 hU
  have hA : (lt.V - Vb) / (lt.U - Ub) = -x0 / y0 := by
    rw [div_eq_div_iff hdU hy0]
    linear_combination (1 / 2 : K) * hlt - (1 / 2 : K) * hlb
  have h2y0 : 2 * y0 ≠ 0 := mul_ne_zero two_ne_zero hy0
  have hB : Vb - -x0 / y0 * Ub = 1 / (2 * y0) := by
    rw [eq_div_iff h2y0]
    have e : (Vb - -x0 / y0 * Ub) * (2 * y0) = 2 * x0 * Ub + 2 * y0 * Vb := by
      field_simp
      ring
    rw [e]
    exact hlb
  have hA2 : lt.V - Vb = -x0 / y0 * (lt.U - Ub) := by
    rw [← hA]
    field_simp
  simp only [SearchTriplet.helixFit, hA, hB]
  refine ⟨by linear_combination hB, by linear_combination hA2 + hB, ?_⟩
  field_simp
  ring

theorem SearchTriplet_helixFit_line_through_conformal_points_witness :
    (1 : ℚ) ≠ 0 ∧ ((1 : ℚ) - 0) ^ 2 + (1 - 1) ^ 2 = 0 ^ 2 + 1 ^ 2 ∧ (1 : ℚ) ^ 2 + 1 ^ 2 ≠ 0 ∧
      ((-1 : ℚ) - 0) ^ 2 + (1 - 1) ^ 2 = 0 ^ 2 + 1 ^ 2 ∧ (-1 : ℚ) ^ 2 + 1 ^ 2 ≠ 0 ∧
      ((1 / 2 : ℚ) =
          (SearchTriplet.helixFit (1 / 2 : ℚ) (1 / 2) ⟨0, 0, 0, 0, -1 / 2, 1 / 2⟩).1 * (1 / 2) +
            (SearchTriplet.helixFit (1 / 2 : ℚ) (1 / 2) ⟨0, 0, 0, 0, -1 / 2, 1 / 2⟩).2.2 ∧
        (⟨0, 0, 0, 0, -1 / 2, 1 / 2⟩ : LinCircle ℚ).V =
          (SearchTriplet.helixFit (1 / 2 : ℚ) (1 / 2) ⟨0, 0, 0, 0, -1 / 2, 1 / 2⟩).1 *
              (⟨0, 0, 0, 0, -1 / 2, 1 / 2⟩ : LinCircle ℚ).U +
            (SearchTriplet.helixFit (1 / 2 : ℚ) (1 / 2) ⟨0, 0, 0, 0, -1 / 2, 1 / 2⟩).2.2 ∧
        (SearchTriplet.helixFit (1 / 2 : ℚ) (1 / 2) ⟨0, 0, 0, 0, -1 / 2, 1 / 2⟩).2.1 /
            (SearchTriplet.helixFit (1 / 2 : ℚ) (1 / 2) ⟨0, 0, 0, 0, -1 / 2, 1 / 2⟩).2.2 ^ 2 =
          4 * ((0 : ℚ) ^ 2 + 1 ^ 2)) :=
  ⟨by norm_num, by norm_num, by norm_num, by norm_num, by norm_num,
    SearchTriplet_helixFit_line_through_conformal_points (0 : ℚ) 1 1 1 (-1) 1 (1 / 2) (1 / 2)
      ⟨0, 0, 0, 0, -1 / 2, 1 / 2⟩ (by norm_num) (by norm_num) (by norm_num) (by norm_num)
      (by norm_num) (by norm_num) (by norm_num) (by norm_num) (by norm_num) (by norm_num)⟩

end HelixFitProofs

section ColinearProofs

variable {K : Type} [LinearOrderedField K]

/-- Conformal coordinates of a partner on the radial line of the middle:
`S = c·(x_M, y_M)` in the transverse plane gives `V = 0` and `U = 1/((c - 1)·r_M)`. -/
theorem ConformalSpec.linCircle_radial (sqrt : K → K) (M S : InternalSpacePoint K)
    (bottom : Bool) (c : K) (hrM : 0 < M.radius) (hr : M.radius ^ 2 = M.x ^ 2 + M.y ^ 2)
    (hx : S.x = c * M.x) (hy : S.y = c * M.y) (hc : c ≠ 1) :
    (ConformalSpec.linCircle sqrt M bottom S).V = 0 ∧
      (ConformalSpec.linCircle sqrt M bottom S).U = 1 / ((c - 1) * M.radius) := by
  have hr0 : M.radius ≠ 0 := ne_of_gt hrM
  have hc1 : c - 1 ≠ 0 := sub_ne_zero.2 hc
  have hsum : M.x ^ 2 + M.y ^ 2 ≠ 0 := by rw [← hr]; exact pow_ne_zero 2 hr0
  simp only [ConformalSpec.linCircle, hx, hy]
  constructor
  · have : -(c * M.x - M.x) * (M.y / M.radius) + (c * M.y - M.y) * (M.x / M.radius) = 0 := by
      ring
    rw [this, zero_mul]
  · have hden : (c * M.x - M.x) ^ 2 + (c * M.y - M.y) ^ 2 = (c - 1) ^ 2 * M.radius ^ 2 := by
      rw [hr]; ring
    have hnum : (c * M.x - M.x) * (M.x / M.radius) + (c * M.y - M.y) * (M.y / M.radius) =
        (c - 1) * M.radius := by
      field_simp
      linear_combination (1 - c) * hr
    rw [hden, hnum]
    field_simp
    ring

/-- A pair of `LinCircle`s with `V = 0`, distinct `U`, equal `cotTheta`, non-negative error terms
and non-negative `iDeltaR` passes all cuts, with `A = 0`, `B = 0`, curvature 0 and impact 0. -/
theorem SearchTriplet.passes_of_straight (sqrt : K → K) (config : SeedfinderConfig K)
    (M : InternalSpacePoint K) (lb lt : LinCircle K)
    (hVb : lb.V = 0) (hVt : lt.V = 0) (hU : lt.U ≠ lb.U) (hcot : lb.cotTheta = lt.cotTheta)
    (hEb : 0 ≤ lb.Er) (hEt : 0 ≤ lt.Er) (hib : 0 ≤ lb.iDeltaR) (hit : 0 ≤ lt.iDeltaR)
    (hvr : 0 ≤ M.varianceR) (hvz : 0 ≤ M.varianceZ) (himp : 0 ≤ config.impactMax) :
    SearchTriplet.passes sqrt config M lb lt ∧ TripletSpec.A lb lt = 0 ∧
      TripletSpec.B lb lt = 0 ∧ TripletSpec.curvature sqrt lb lt = 0 ∧
      TripletSpec.Im M lb lt = 0 := by
  have hA : TripletSpec.A lb lt = 0 := by simp [TripletSpec.A, hVb, hVt]
  have hB : TripletSpec.B lb lt = 0 := by simp [TripletSpec.B, hA, hVb]
  have hS : TripletSpec.S2 lb lt = 1 := by simp [TripletSpec.S2, hA]
  have hIm : TripletSpec.Im M lb lt = 0 := by simp [TripletSpec.Im, hA, hB]
  have herr : 0 ≤ TripletSpec.error2 M lb lt := by
    simp only [TripletSpec.error2, hcot]
    have h1 : 0 ≤ lt.cotTheta * lt.cotTheta * M.varianceR :=
      mul_nonneg (mul_self_nonneg _) hvr
    have h2 : 0 ≤ 2 * (lt.cotTheta * lt.cotTheta * M.varianceR + M.varianceZ) * lb.iDeltaR *
        lt.iDeltaR :=
      mul_nonneg (mul_nonneg (mul_nonneg (by norm_num) (add_nonneg h1 hvz)) hib) hit
    linarith
  have hguard : ¬ (TripletSpec.deltaCotTheta lb lt ^ 2 - TripletSpec.error2 M lb lt > 0) := by
    simp only [TripletSpec.deltaCotTheta, hcot, sub_self]
    intro h
    have : (0 : K) ^ 2 = 0 := by norm_num
    rw [this] at h
    linarith
  refine ⟨⟨fun _ h => hguard h.1, fun h => hU (sub_eq_zero.1 h), ?_, fun _ h => hguard h.1, ?_⟩,
    hA, hB, by simp [TripletSpec.curvature, hB], hIm⟩
  · simp [TripletSpec.rejected3, hS, hB]
  · simp only [TripletSpec.rejected5, hIm]
    exact not_lt.2 himp

end ColinearProofs

section ColinearClaim

variable {K : Type} [LinearOrderedField K]

/-- The error term of a `LinCircle` is non-negative when the variances are. -/
theorem ConformalSpec.linCircle_Er_nonneg (sqrt : K → K) (M S : InternalSpacePoint K)
    (bottom : Bool) (hMr : 0 ≤ M.varianceR) (hMz : 0 ≤ M.varianceZ) (hSr : 0 ≤ S.varianceR)
    (hSz : 0 ≤ S.varianceZ) : 0 ≤ (ConformalSpec.linCircle sqrt M bottom S).Er := by
  simp only [ConformalSpec.linCircle]
  apply mul_nonneg
  · have := mul_nonneg (sq_nonneg ((S.z - M.z) * sqrt (1 / ((S.x - M.x) ^ 2 + (S.y - M.y) ^ 2)) *
      (if bottom = true then (-1 : K) else 1))) (add_nonneg hMr hSr)
    linarith
  · exact div_nonneg zero_le_one (add_nonneg (sq_nonneg _) (sq_nonneg _))

theorem transformCoordinates.singleton_eq (sqrt : K → K) (M S : InternalSpacePoint K)
    (bottom : Bool) :
    transformCoordinates sqrt [S] M bottom [] = [ConformalSpec.linCircle sqrt M bottom S] := by
  simp only [transformCoordinates]
  rw [transformCoordinates.loop_eq_map]
  rfl

/-- C13 (amended): over exact arithmetic (the operations of an ordered field and a non-negative
square root), for a middle `M` with `r_M > 0` (and `r_M² = x_M² + y_M²`), a bottom `B = cb·M` and
a top `T = ct·M` in the transverse plane with `|cb| < 1 < |ct|` (same radial line through the beam
axis, bottom at smaller and top at larger radius), non-negative variances and equal `cotTheta` of
the two duplets: `transformCoordinates` followed by `SearchTriplet` gives `A = 0` and `B = 0` in
the line fit, and for every `minHelixDiameter2` and every `impactMax ≥ 0` the top is handed to the
filter with curvature 0 and impact 0; for the points `(10,0,0)`, `(50,0,0)` the bottom duplet has
`Zo = 0`. -/
theorem transformCoordinates_SearchTriplet_colinear (sqrt : K → K) (M B T : InternalSpacePoint K)
    (config : SeedfinderConfig K) (cb ct : K) (hsqrt : ∀ x, 0 ≤ sqrt x)
    (hrM : 0 < M.radius) (hr : M.radius ^ 2 = M.x ^ 2 + M.y ^ 2)
    (hBx : B.x = cb * M.x) (hBy : B.y = cb * M.y) (hcb : |cb| < 1)
    (hTx : T.x = ct * M.x) (hTy : T.y = ct * M.y) (hct : 1 < |ct|)
    (hvM : 0 ≤ M.varianceR ∧ 0 ≤ M.varianceZ) (hvB : 0 ≤ B.varianceR ∧ 0 ≤ B.varianceZ)
    (hvT : 0 ≤ T.varianceR ∧ 0 ≤ T.varianceZ)
    (hcot : (transformCoordinates sqrt [B] M true []).map (fun l => l.cotTheta) =
      (transformCoordinates sqrt [T] M false []).map (fun l => l.cotTheta))
    (himp : 0 ≤ config.impactMax) :
    (∃ lb lt : LinCircle K,
        transformCoordinates sqrt [B] M true [] = [lb] ∧
        transformCoordinates sqrt [T] M false [] = [lt] ∧
        (SearchTriplet.helixFit lb.U lb.V lt).1 = 0 ∧
        (SearchTriplet.helixFit lb.U lb.V lt).2.2 = 0 ∧
        SearchTriplet sqrt SearchTriplet.recordCall M [B] [T] [lb] [lt] config =
          some [{ bottomSP := B, topSpVec := [T], curvatures := [0], impactParameters := [0],
                  zOrigin := lb.Zo }]) ∧
      (transformCoordinates sqrt [⟨10, 0, 0, 10, 0, 0⟩] ⟨50, 0, 0, 50, 0, 0⟩ true []).map
        (fun l => l.Zo) = [0] := by
  have hcb1 : cb ≠ 1 := by
    intro h; rw [h, abs_one] at hcb; exact lt_irrefl _ hcb
  have hct1 : ct ≠ 1 := by
    intro h; rw [h, abs_one] at hct; exact lt_irrefl _ hct
  have hne : ct ≠ cb := by
    intro h; rw [h] at hct; exact lt_irrefl _ (lt_trans hct hcb)
  have hr0 : M.radius ≠ 0 := ne_of_gt hrM
  obtain ⟨hVb, hUb⟩ := ConformalSpec.linCircle_radial sqrt M B true cb hrM hr hBx hBy hcb1
  obtain ⟨hVt, hUt⟩ := ConformalSpec.linCircle_radial sqrt M T false ct hrM hr hTx hTy hct1
  have hU : (ConformalSpec.linCircle sqrt M false T).U ≠
      (ConformalSpec.linCircle sqrt M true B).U := by
    rw [hUb, hUt]
    intro h
    have h1 : (ct - 1) * M.radius ≠ 0 := mul_ne_zero (sub_ne_zero.2 hct1) hr0
    have h2 : (cb - 1) * M.radius ≠ 0 := mul_ne_zero (sub_ne_zero.2 hcb1) hr0
    rw [div_eq_div_iff h1 h2, one_mul, one_mul] at h
    have := mul_right_cancel₀ hr0 h
    exact hne (by linarith)
  rw [transformCoordinates.singleton_eq, transformCoordinates.singleton_eq] at hcot
  have hcot2 : (ConformalSpec.linCircle sqrt M true B).cotTheta =
      (ConformalSpec.linCircle sqrt M false T).cotTheta := by
    simpa using hcot
  obtain ⟨hacc, hA, hB, hcurv, hIm⟩ := SearchTriplet.passes_of_straight sqrt config M
    (ConformalSpec.linCircle sqrt M true B) (ConformalSpec.linCircle sqrt M false T)
    hVb hVt hU hcot2
    (ConformalSpec.linCircle_Er_nonneg sqrt M B true hvM.1 hvM.2 hvB.1 hvB.2)
    (ConformalSpec.linCircle_Er_nonneg sqrt M T false hvM.1 hvM.2 hvT.1 hvT.2)
    (hsqrt _) (hsqrt _) hvM.1 hvM.2 himp
  refine ⟨⟨_, _, transformCoordinates.singleton_eq sqrt M B true,
    transformCoordinates.singleton_eq sqrt M T false, ?_, ?_, ?_⟩, ?_⟩
  · simpa [SearchTriplet.helixFit, TripletSpec.A] using hA
  · simpa [SearchTriplet.helixFit, TripletSpec.B, TripletSpec.A] using hB
  · rw [SearchTriplet.recordCall_eq_filterCalls _ _ _ _ _ _ _ (le_refl _) (le_refl _)]
    simp [SearchTriplet.filterCalls, SearchTriplet.passedTops, hacc, hcurv, hIm]
  · rw [transformCoordinates.singleton_eq]
    simp [ConformalSpec.linCircle]

end ColinearClaim

section ColinearWitness

theorem transformCoordinates_SearchTriplet_colinear_witness :
    (∀ x, 0 ≤ Example.sqrt x) ∧ 0 < (Example.onAxis 50 0).radius ∧
      (Example.onAxis 50 0).radius ^ 2 = (Example.onAxis 50 0).x ^ 2 + (Example.onAxis 50 0).y ^ 2 ∧
      (Example.onAxis 10 0).x = 1 / 5 * (Example.onAxis 50 0).x ∧
      (Example.onAxis 10 0).y = 1 / 5 * (Example.onAxis 50 0).y ∧ |(1 / 5 : ℚ)| < 1 ∧
      (Example.onAxis 150 0).x = 3 * (Example.onAxis 50 0).x ∧
      (Example.onAxis 150 0).y = 3 * (Example.onAxis 50 0).y ∧ 1 < |(3 : ℚ)| ∧
      (transformCoordinates Example.sqrt [Example.onAxis 10 0] (Example.onAxis 50 0) true []).map
          (fun l => l.cotTheta) =
        (transformCoordinates Example.sqrt [Example.onAxis 150 0] (Example.onAxis 50 0) false
          []).map (fun l => l.cotTheta) ∧
      0 ≤ Example.config.impactMax ∧
      ((∃ lb lt : LinCircle ℚ,
          transformCoordinates Example.sqrt [Example.onAxis 10 0] (Example.onAxis 50 0) true [] =
            [lb] ∧
          transformCoordinates Example.sqrt [Example.onAxis 150 0] (Example.onAxis 50 0) false
            [] = [lt] ∧
          (SearchTriplet.helixFit lb.U lb.V lt).1 = 0 ∧
          (SearchTriplet.helixFit lb.U lb.V lt).2.2 = 0 ∧
          SearchTriplet Example.sqrt SearchTriplet.recordCall (Example.onAxis 50 0)
              [Example.onAxis 10 0] [Example.onAxis 150 0] [lb] [lt] Example.config =
            some [{ bottomSP := Example.onAxis 10 0, topSpVec := [Example.onAxis 150 0],
                    curvatures := [0], impactParameters := [0], zOrigin := lb.Zo }]) ∧
        (transformCoordinates Example.sqrt [⟨10, 0, 0, 10, 0, 0⟩] ⟨50, 0, 0, 50, 0, 0⟩ true
          []).map (fun l => l.Zo) = [0]) :=
  have hsqrt : ∀ x, 0 ≤ Example.sqrt x := fun x => Rat.sqrt_nonneg x
  have hcot : (transformCoordinates Example.sqrt [Example.onAxis 10 0] (Example.onAxis 50 0)
      true []).map (fun l => l.cotTheta) =
      (transformCoordinates Example.sqrt [Example.onAxis 150 0] (Example.onAxis 50 0) false
        []).map (fun l => l.cotTheta) := by
    have h1 : transformCoordinates Example.sqrt [Example.onAxis 10 0] (Example.onAxis 50 0)
        true [] = _ := Example.linCircleBottom_eq
    have h2 : transformCoordinates Example.sqrt [Example.onAxis 150 0] (Example.onAxis 50 0)
        false [] = _ := Example.linCircleTop_eq
    rw [h1, h2]
    rfl
  have hM : (0 : ℚ) < (Example.onAxis 50 0).radius := by norm_num [Example.onAxis]
  have hr : (Example.onAxis 50 0).radius ^ 2 =
      (Example.onAxis 50 0).x ^ 2 + (Example.onAxis 50 0).y ^ 2 := by
    norm_num [Example.onAxis]
  have hBx : (Example.onAxis 10 0).x = 1 / 5 * (Example.onAxis 50 0).x := by
    norm_num [Example.onAxis]
  have hBy : (Example.onAxis 10 0).y = 1 / 5 * (Example.onAxis 50 0).y := by
    norm_num [Example.onAxis]
  have hcb : |(1 / 5 : ℚ)| < 1 := by norm_num [abs_lt]
  have hTx : (Example.onAxis 150 0).x = 3 * (Example.onAxis 50 0).x := by
    norm_num [Example.onAxis]
  have hTy : (Example.onAxis 150 0).y = 3 * (Example.onAxis 50 0).y := by
    norm_num [Example.onAxis]
  have hct : 1 < |(3 : ℚ)| := by norm_num [lt_abs]
  have himp : (0 : ℚ) ≤ Example.config.impactMax := by norm_num [Example.config]
  have hv : ∀ x z : ℚ, 0 ≤ (Example.onAxis x z).varianceR ∧ 0 ≤ (Example.onAxis x z).varianceZ :=
    fun x z => ⟨le_refl _, le_refl _⟩
  ⟨hsqrt, hM, hr, hBx, hBy, hcb, hTx, hTy, hct, hcot, himp,
    transformCoordinates_SearchTriplet_colinear Example.sqrt (Example.onAxis 50 0)
      (Example.onAxis 10 0) (Example.onAxis 150 0) Example.config (1 / 5) 3 hsqrt hM hr hBx hBy
      hcb hTx hTy hct (hv 50 0) (hv 10 0) (hv 150 0) hcot himp⟩

end ColinearWitness

section ProjectionMatrixProofs

variable {K : Type} [LinearOrderedField K]

theorem make_projection_matrix.init_eq_map (columns : Nat) (rows : List Nat)
    (hne : rows ≠ []) :
    (make_projection_matrix.init columns rows : Option (List (List K))) =
      some (rows.map (make_projection_matrix.rowVector columns)) := by
  induction rows with
  | nil => exact absurd rfl hne
  | cons i N ih =>
    cases N with
    | nil => rfl
    | cons j N =>
      rw [make_projection_matrix.init, ih (by simp)]
      rfl

theorem make_projection_matrix.rowVector_getElem (columns i j : Nat) (hj : j < columns) :
    (make_projection_matrix.rowVector columns i : List K)[j]? =
      some (if j = i then 1 else 0) := by
  simp only [make_projection_matrix.rowVector, List.getElem?_set]
  by_cases h : i = j
  · subst h
    simp [hj]
  · have h2 : ¬ j = i := fun e => h e.symm
    simp [h, h2, hj]

theorem make_projection_matrix.rowVector_dot (columns i : Nat) (v : List K)
    (hv : v.length = columns) (hi : i < columns) :
    (List.zipWith (fun a b => a * b) (make_projection_matrix.rowVector columns i : List K) v).sum =
      v.getD i 0 := by
  induction v generalizing columns i with
  | nil => simp at hv; omega
  | cons a v ih =>
    obtain ⟨c, rfl⟩ : ∃ c, columns = c + 1 := ⟨v.length, by simpa using hv.symm⟩
    have hvl : v.length = c := by simpa using hv
    cases i with
    | zero =>
      simp only [make_projection_matrix.rowVector, List.replicate_succ, List.set_cons_zero,
        List.zipWith_cons_cons, List.sum_cons, one_mul, List.getD_cons_zero]
      have hz : ∀ (n : Nat) (w : List K),
          (List.zipWith (fun a b => a * b) (List.replicate n (0 : K)) w).sum = 0 := by
        intro n
        induction n with
        | zero => intro w; simp
        | succ n ihn =>
          intro w
          cases w with
          | nil => simp
          | cons b w => simp [List.replicate_succ, ihn w]
      rw [hz, add_zero]
    | succ i =>
      have hr : (make_projection_matrix.rowVector (c + 1) (i + 1) : List K) =
          0 :: make_projection_matrix.rowVector c i := by
        simp [make_projection_matrix.rowVector, List.replicate_succ]
      rw [hr, List.zipWith_cons_cons, List.sum_cons, zero_mul, zero_add,
        ih c i hvl (by omega)]
      simp

/-- C19: for every column count `N` and every non-empty index list `i_1, …, i_S` with each
`i_k < N`, `make_projection_matrix<N, i_1, …, i_S>::init()` returns a matrix with `S` rows of `N`
entries whose entry `(k, j)` is 1 when `j = i_k` and 0 otherwise; multiplied with a parameter
vector `v` of length `N` it yields `(v[i_1], …, v[i_S])`. -/
theorem make_projection_matrix_init_selects (columns : Nat) (rows : List Nat)
    (hne : rows ≠ []) (hlt : ∀ i ∈ rows, i < columns) :
    ∃ m : List (List K),
      make_projection_matrix.init columns rows = some m ∧
      m.length = rows.length ∧ (∀ row ∈ m, row.length = columns) ∧
      (∀ (k j : Nat) (hk : k < rows.length), j < columns →
        (m[k]?).bind (fun row => row[j]?) = some (if j = rows[k] then 1 else 0)) ∧
      ∀ v : List K, v.length = columns →
        make_projection_matrix.mulVec m v = rows.map (fun i => v.getD i 0) := by
  refine ⟨rows.map (make_projection_matrix.rowVector columns),
    make_projection_matrix.init_eq_map columns rows hne, by simp, ?_, ?_, ?_⟩
  · intro row hrow
    rw [List.mem_map] at hrow
    obtain ⟨i, -, rfl⟩ := hrow
    simp [make_projection_matrix.rowVector]
  · intro k j hk hj
    rw [List.getElem?_map, List.getElem?_eq_getElem hk]
    simp only [Option.map_some', Option.some_bind]
    exact make_projection_matrix.rowVector_getElem columns rows[k] j hj
  · intro v hv
    simp only [make_projection_matrix.mulVec, List.map_map]
    apply List.map_congr_left
    intro i hi
    exact make_projection_matrix.rowVector_dot columns i v hv (hlt i hi)

theorem make_projection_matrix_init_selects_witness :
    ([1, 3] : List Nat) ≠ [] ∧ (∀ i ∈ ([1, 3] : List Nat), i < 5) ∧
      ∃ m : List (List ℚ),
        make_projection_matrix.init 5 [1, 3] = some m ∧
        m.length = ([1, 3] : List Nat).length ∧ (∀ row ∈ m, row.length = 5) ∧
        (∀ (k j : Nat) (hk : k < ([1, 3] : List Nat).length), j < 5 →
          (m[k]?).bind (fun row => row[j]?) = some (if j = ([1, 3] : List Nat)[k] then 1 else 0)) ∧
        ∀ v : List ℚ, v.length = 5 →
          make_projection_matrix.mulVec m v = ([1, 3] : List Nat).map (fun i => v.getD i 0) :=
  ⟨by decide, by decide,
    make_projection_matrix_init_selects 5 [1, 3] (by decide) (by decide)⟩

end ProjectionMatrixProofs

section SeedFilterStage2Proofs

variable {K : Type} [LinearOrderedField K]

theorem FilterSpec.weight_le_of_before (a b : CandidateSeed K) (h : FilterSpec.before a b) :
    b.weight ≤ a.weight := by
  simp only [FilterSpec.before, FilterSpec.sortKey] at h
  rw [Prod.Lex.le_iff] at h
  rcases h with h | h
  · exact le_of_lt (neg_lt_neg_iff.1 h)
  · exact le_of_eq (neg_injective h.1).symm

omit [LinearOrderedField K] in
theorem FilterSpec.countP_lt_length (p : CandidateSeed K → Bool) (l : List (CandidateSeed K))
    (a : CandidateSeed K) (ha : a ∈ l) (hp : p a = false) : l.countP p < l.length := by
  induction l with
  | nil => simp at ha
  | cons b l ih =>
    rw [List.countP_cons, List.length_cons]
    rcases List.mem_cons.1 ha with h | h
    · subst h
      have := List.countP_le_length p (l := l)
      simp only [hp, Bool.false_eq_true, if_false]
      omega
    · have := ih h
      split_ifs <;> omega

/-- C18: `filterSeeds_1SpFixed` leaves `outVec` in place and appends at most `maxSeedsPerSpM`
seeds, all taken from `seedsPerSpM`; the seeds kept are of highest weight: every candidate that
the cap removes weighs at most as much as every seed kept, and fewer than `maxSeedsPerSpM`
candidates weigh strictly more than a seed kept.  The experiment cut `cutPerMiddleSP` is any
function that returns a subsequence of its argument. -/
theorem SeedFilter_filterSeeds_1SpFixed_keeps_highest (m_cfg : SeedFilterConfig K)
    (cutPerMiddleSP : List (CandidateSeed K) → List (CandidateSeed K))
    (seedsPerSpM outVec : List (CandidateSeed K))
    (hcut : ∀ l, (cutPerMiddleSP l).Sublist l) :
    ∃ kept : List (CandidateSeed K),
      SeedFilter.filterSeeds_1SpFixed m_cfg cutPerMiddleSP seedsPerSpM outVec = outVec ++ kept ∧
      kept.length ≤ m_cfg.maxSeedsPerSpM ∧ (∀ s ∈ kept, s ∈ seedsPerSpM) ∧
      (∀ s ∈ kept, ∀ s' ∈ (seedsPerSpM.insertionSort FilterSpec.before).drop
        m_cfg.maxSeedsPerSpM, s'.weight ≤ s.weight) ∧
      ∀ s ∈ kept, seedsPerSpM.countP (fun s' => decide (s.weight < s'.weight)) <
        m_cfg.maxSeedsPerSpM := by
  haveI : IsTotal (CandidateSeed K) FilterSpec.before :=
    ⟨fun a b => le_total (FilterSpec.sortKey a) (FilterSpec.sortKey b)⟩
  haveI : IsTrans (CandidateSeed K) FilterSpec.before :=
    ⟨fun a b c hab hbc => le_trans (α := Lex (K × Lex (K × Lex (K × Lex (K × K))))) hab hbc⟩
  have hsorted := List.sorted_insertionSort (FilterSpec.before (K := K)) seedsPerSpM
  have hperm := List.perm_insertionSort (FilterSpec.before (K := K)) seedsPerSpM
  have hsplit := List.take_append_drop m_cfg.maxSeedsPerSpM
    (seedsPerSpM.insertionSort FilterSpec.before)
  have hsub := hcut ((seedsPerSpM.insertionSort FilterSpec.before).take m_cfg.maxSeedsPerSpM)
  have hpair : ∀ a ∈ (seedsPerSpM.insertionSort FilterSpec.before).take m_cfg.maxSeedsPerSpM,
      ∀ b ∈ (seedsPerSpM.insertionSort FilterSpec.before).drop m_cfg.maxSeedsPerSpM,
        FilterSpec.before a b := by
    have h := hsorted
    rw [List.Sorted, ← hsplit, List.pairwise_append] at h
    exact h.2.2
  have htakelen : ((seedsPerSpM.insertionSort FilterSpec.before).take
      m_cfg.maxSeedsPerSpM).length ≤ m_cfg.maxSeedsPerSpM := by
    rw [List.length_take]
    exact Nat.min_le_left _ _
  refine ⟨_, rfl, le_trans hsub.length_le htakelen, ?_, ?_, ?_⟩
  · intro s hs
    exact hperm.subset (List.mem_of_mem_take (hsub.subset hs))
  · intro s hs s' hs'
    exact FilterSpec.weight_le_of_before s s' (hpair s (hsub.subset hs) s' hs')
  · intro s hs
    rw [← hperm.countP_eq, ← hsplit, List.countP_append]
    have hdrop : ((seedsPerSpM.insertionSort FilterSpec.before).drop
        m_cfg.maxSeedsPerSpM).countP (fun s' => decide (s.weight < s'.weight)) = 0 := by
      rw [List.countP_eq_zero]
      intro b hb
      have := FilterSpec.weight_le_of_before s b (hpair s (hsub.subset hs) b hb)
      simpa using this
    have htake := FilterSpec.countP_lt_length (fun s' => decide (s.weight < s'.weight))
      ((seedsPerSpM.insertionSort FilterSpec.before).take m_cfg.maxSeedsPerSpM) s
      (hsub.subset hs) (by simp)
    omega

theorem SeedFilter_filterSeeds_1SpFixed_keeps_highest_witness :
    (∀ l : List (CandidateSeed ℚ), (id l).Sublist l) ∧
      ∃ kept : List (CandidateSeed ℚ),
        SeedFilter.filterSeeds_1SpFixed Example.filterConfigTwo id
            [Example.candidate 150 0, Example.candidate 160 400, Example.candidate 170 200] [] =
          [] ++ kept ∧
        kept.length ≤ Example.filterConfigTwo.maxSeedsPerSpM ∧
        (∀ s ∈ kept, s ∈ [Example.candidate 150 0, Example.candidate 160 400,
          Example.candidate 170 200]) ∧
        (∀ s ∈ kept, ∀ s' ∈ ([Example.candidate 150 0, Example.candidate 160 400,
            Example.candidate 170 200].insertionSort FilterSpec.before).drop
          Example.filterConfigTwo.maxSeedsPerSpM, s'.weight ≤ s.weight) ∧
        ∀ s ∈ kept, [Example.candidate 150 0, Example.candidate 160 400,
            Example.candidate 170 200].countP (fun s' => decide (s.weight < s'.weight)) <
          Example.filterConfigTwo.maxSeedsPerSpM :=
  ⟨fun l => List.Sublist.refl l,
    SeedFilter_filterSeeds_1SpFixed_keeps_highest Example.filterConfigTwo id
      [Example.candidate 150 0, Example.candidate 160 400, Example.candidate 170 200] []
      (fun l => List.Sublist.refl l)⟩

end SeedFilterStage2Proofs

section ScalingDoubletProofs

variable {K : Type} [LinearOrderedField K]

theorem DupletSpec.bottomAccepted_scale (α : K) (hα : 0 < α) (config : SeedfinderConfig K)
    (M S : InternalSpacePoint K) :
    DupletSpec.bottomAccepted (config.scaleAll α) (M.scale α) (S.scale α) ↔
      DupletSpec.bottomAccepted config M S := by
  have e1 : α * M.radius - α * S.radius = α * (M.radius - S.radius) := by ring
  have e2 : (α * M.z - α * S.z) / (α * (M.radius - S.radius)) =
      (M.z - S.z) / (M.radius - S.radius) := by
    rw [← mul_sub, mul_div_mul_left _ _ hα.ne']
  have e3 : ∀ c : K, α * M.z - α * M.radius * c = α * (M.z - M.radius * c) := by
    intro c; ring
  simp only [DupletSpec.bottomAccepted, InternalSpacePoint.scale, SeedfinderConfig.scaleAll,
    SeedfinderConfig.scaleLengths, e1, e2, e3, mul_le_mul_left hα]

theorem DupletSpec.topAccepted_scale (α : K) (hα : 0 < α) (config : SeedfinderConfig K)
    (M S : InternalSpacePoint K) :
    DupletSpec.topAccepted (config.scaleAll α) (M.scale α) (S.scale α) ↔
      DupletSpec.topAccepted config M S := by
  have e1 : α * S.radius - α * M.radius = α * (S.radius - M.radius) := by ring
  have e2 : (α * S.z - α * M.z) / (α * (S.radius - M.radius)) =
      (S.z - M.z) / (S.radius - M.radius) := by
    rw [← mul_sub, mul_div_mul_left _ _ hα.ne']
  have e3 : ∀ c : K, α * M.z - α * M.radius * c = α * (M.z - M.radius * c) := by
    intro c; ring
  simp only [DupletSpec.topAccepted, InternalSpacePoint.scale, SeedfinderConfig.scaleAll,
    SeedfinderConfig.scaleLengths, e1, e2, e3, mul_le_mul_left hα]

theorem SearchDoublet.bottomKeeps_scale (α : K) (hα : 0 < α) (config : SeedfinderConfig K)
    (M S : InternalSpacePoint K) :
    SearchDoublet.bottomKeeps (config.scaleAll α) (M.scale α) (S.scale α) ↔
      SearchDoublet.bottomKeeps config M S := by
  have e1 : (M.scale α).radius - (S.scale α).radius = α * (M.radius - S.radius) := by
    simp only [InternalSpacePoint.scale]; ring
  have ez : (M.scale α).z - (S.scale α).z = α * (M.z - S.z) := by
    simp only [InternalSpacePoint.scale]; ring
  by_cases h : M.radius - S.radius = 0
  · have h1 : (M.scale α).radius - (S.scale α).radius = 0 := by rw [e1, h, mul_zero]
    simp only [SearchDoublet.bottomKeeps, if_pos h, if_pos h1, e1, ez, mul_eq_zero, hα.ne',
      false_or, SeedfinderConfig.scaleAll, SeedfinderConfig.scaleLengths, mul_le_mul_left hα]
  · have h1 : (M.scale α).radius - (S.scale α).radius ≠ 0 := by
      rw [e1]; exact mul_ne_zero hα.ne' h
    rw [SearchDoublet.bottomKeeps_iff _ _ _ h1, SearchDoublet.bottomKeeps_iff _ _ _ h]
    exact DupletSpec.bottomAccepted_scale α hα config M S

theorem SearchDoublet.topKeeps_scale (α : K) (hα : 0 < α) (config : SeedfinderConfig K)
    (M S : InternalSpacePoint K) :
    SearchDoublet.topKeeps (config.scaleAll α) (M.scale α) (S.scale α) ↔
      SearchDoublet.topKeeps config M S := by
  have e1 : (S.scale α).radius - (M.scale α).radius = α * (S.radius - M.radius) := by
    simp only [InternalSpacePoint.scale]; ring
  have ez : (S.scale α).z - (M.scale α).z = α * (S.z - M.z) := by
    simp only [InternalSpacePoint.scale]; ring
  by_cases h : S.radius - M.radius = 0
  · have h1 : (S.scale α).radius - (M.scale α).radius = 0 := by rw [e1, h, mul_zero]
    simp only [SearchDoublet.topKeeps, if_pos h, if_pos h1, e1, ez, mul_eq_zero, hα.ne',
      false_or, SeedfinderConfig.scaleAll, SeedfinderConfig.scaleLengths, mul_le_mul_left hα]
  · have h1 : (S.scale α).radius - (M.scale α).radius ≠ 0 := by
      rw [e1]; exact mul_ne_zero hα.ne' h
    rw [SearchDoublet.topKeeps_iff _ _ _ h1, SearchDoublet.topKeeps_iff _ _ _ h]
    exact DupletSpec.topAccepted_scale α hα config M S

theorem SearchDoublet.topLoop_scale (α : K) (hα : 0 < α) (config : SeedfinderConfig K)
    (M : InternalSpacePoint K) (SPs acc : List (InternalSpacePoint K)) :
    SearchDoublet.topLoop (M.scale α) (config.scaleAll α) (SPs.map (InternalSpacePoint.scale α))
        (acc.map (InternalSpacePoint.scale α)) =
      (SearchDoublet.topLoop M config SPs acc).map (InternalSpacePoint.scale α) := by
  induction SPs generalizing acc with
  | nil => simp [SearchDoublet.topLoop]
  | cons sp SPs ih =>
    rw [List.map_cons, SearchDoublet.topLoop_cons, SearchDoublet.topLoop_cons]
    have e1 : (sp.scale α).radius - (M.scale α).radius = α * (sp.radius - M.radius) := by
      simp only [InternalSpacePoint.scale]; ring
    have c1 : (sp.scale α).radius - (M.scale α).radius < (config.scaleAll α).deltaRMin ↔
        sp.radius - M.radius < config.deltaRMin := by
      rw [e1]
      simp only [SeedfinderConfig.scaleAll, SeedfinderConfig.scaleLengths, mul_lt_mul_left hα]
    have c2 : (config.scaleAll α).deltaRMax < (sp.scale α).radius - (M.scale α).radius ↔
        config.deltaRMax < sp.radius - M.radius := by
      rw [e1]
      simp only [SeedfinderConfig.scaleAll, SeedfinderConfig.scaleLengths, mul_lt_mul_left hα]
    simp only [c1, c2, SearchDoublet.topKeeps_scale α hα]
    split_ifs
    · exact ih acc
    · rfl
    · have := ih (acc ++ [sp])
      simpa using this
    · exact ih acc

/-- The duplet search commutes with the scaling of all lengths. -/
theorem SearchDoublet.scale_eq (α : K) (hα : 0 < α) (isBottom : Bool)
    (SPs : List (InternalSpacePoint K)) (M : InternalSpacePoint K)
    (config : SeedfinderConfig K) :
    SearchDoublet isBottom (SPs.map (InternalSpacePoint.scale α)) (M.scale α)
        (config.scaleAll α) =
      (SearchDoublet isBottom SPs M config).map (InternalSpacePoint.scale α) := by
  cases isBottom with
  | true =>
    simp only [SearchDoublet, if_true, SearchDoublet.bottomLoop_eq_filter, List.nil_append]
    rw [List.filter_map]
    congr 1
    apply List.filter_congr
    intro S _
    simp only [Function.comp, SearchDoublet.bottomKeeps_scale α hα]
  | false =>
    simp only [SearchDoublet, Bool.false_eq_true, if_false]
    exact SearchDoublet.topLoop_scale α hα config M SPs []

/-- C16 (counterexample): scaling the points by `α = 2` and only `rMax`, `deltaRMin`, `deltaRMax`
of the configuration changes what `SearchDoublet` accepts: the bottom `(10,0,200)` of the middle
`(50,0,200)` is accepted (origin 200 inside `±250`), the scaled bottom `(20,0,400)` of the scaled
middle `(100,0,400)` is not (origin 400). -/
theorem SearchDoublet_scaling_lengths_only_changes_result :
    SearchDoublet true [Example.onAxis 10 200] (Example.onAxis 50 200) Example.config =
        [Example.onAxis 10 200] ∧
      SearchDoublet true [(Example.onAxis 10 200).scale 2] ((Example.onAxis 50 200).scale 2)
        (Example.config.scaleLengths 2) = [] := by
  constructor
  · norm_num [SearchDoublet, SearchDoublet.bottomLoop, Example.config, Example.onAxis]
  · norm_num [SearchDoublet, SearchDoublet.bottomLoop, Example.config, Example.onAxis,
      InternalSpacePoint.scale, SeedfinderConfig.scaleLengths]

end ScalingDoubletProofs

section ScalingTripletProofs

variable {K : Type} [LinearOrderedField K]

omit [LinearOrderedField K] in
theorem LinCircle.eq_of_fields (a b : LinCircle K) (h1 : a.Zo = b.Zo)
    (h2 : a.cotTheta = b.cotTheta) (h3 : a.iDeltaR = b.iDeltaR) (h4 : a.Er = b.Er)
    (h5 : a.U = b.U) (h6 : a.V = b.V) : a = b := by
  cases a; cases b; simp_all

/-- The conformal transform of scaled points is the scaled `LinCircle`, for a square root with
`sqrt (x / α²) = sqrt x / α`. -/
theorem ConformalSpec.linCircle_scale (sqrt : K → K) (α : K) (hα : 0 < α)
    (hs : ∀ x, sqrt (x / α ^ 2) = sqrt x / α) (M S : InternalSpacePoint K) (bottom : Bool) :
    ConformalSpec.linCircle sqrt (M.scale α) bottom (S.scale α) =
      (ConformalSpec.linCircle sqrt M bottom S).scale α := by
  have hα0 : α ≠ 0 := hα.ne'
  have hd : ∀ a b : K, α * a - α * b = α * (a - b) := fun a b => by ring
  have hq : ∀ dx dy : K, 1 / ((α * dx) ^ 2 + (α * dy) ^ 2) = 1 / (dx ^ 2 + dy ^ 2) / α ^ 2 := by
    intro dx dy
    rw [div_div]
    congr 1
    ring
  have hc : ∀ a b : K, α * a / (α * b) = a / b := fun a b => mul_div_mul_left a b hα0
  cases bottom <;> apply LinCircle.eq_of_fields <;>
    simp only [ConformalSpec.linCircle, InternalSpacePoint.scale, LinCircle.scale, hd, hq, hs,
      hc, if_true, if_false, Bool.false_eq_true] <;>
    (try generalize sqrt (1 / ((S.x - M.x) ^ 2 + (S.y - M.y) ^ 2)) = r) <;>
    (try generalize 1 / ((S.x - M.x) ^ 2 + (S.y - M.y) ^ 2) = q) <;>
    (try generalize M.x / M.radius = c) <;>
    (try generalize M.y / M.radius = d) <;>
    field_simp <;> ring

end ScalingTripletProofs

section ScalingCutsProofs

variable {K : Type} [LinearOrderedField K]

theorem TripletSpec.error2_scale (α : K) (hα : 0 < α) (M : InternalSpacePoint K)
    (lb lt : LinCircle K) :
    TripletSpec.error2 (M.scale α) (lb.scale α) (lt.scale α) = TripletSpec.error2 M lb lt := by
  have hα0 : α ≠ 0 := hα.ne'
  simp only [TripletSpec.error2, InternalSpacePoint.scale, LinCircle.scale]
  field_simp
  ring

theorem TripletSpec.A_scale (α : K) (hα : 0 < α) (lb lt : LinCircle K) :
    TripletSpec.A (lb.scale α) (lt.scale α) = TripletSpec.A lb lt := by
  simp only [TripletSpec.A, LinCircle.scale]
  rw [← sub_div, ← sub_div, div_div_div_cancel_right₀ hα.ne']

theorem TripletSpec.B_scale (α : K) (hα : 0 < α) (lb lt : LinCircle K) :
    TripletSpec.B (lb.scale α) (lt.scale α) = TripletSpec.B lb lt / α := by
  simp only [TripletSpec.B, TripletSpec.A_scale α hα]
  simp only [LinCircle.scale]
  ring

theorem TripletSpec.S2_scale (α : K) (hα : 0 < α) (lb lt : LinCircle K) :
    TripletSpec.S2 (lb.scale α) (lt.scale α) = TripletSpec.S2 lb lt := by
  simp only [TripletSpec.S2, TripletSpec.A_scale α hα]

theorem TripletSpec.Im_scale (α : K) (hα : 0 < α) (M : InternalSpacePoint K)
    (lb lt : LinCircle K) :
    TripletSpec.Im (M.scale α) (lb.scale α) (lt.scale α) = α * TripletSpec.Im M lb lt := by
  have hα0 : α ≠ 0 := hα.ne'
  simp only [TripletSpec.Im, TripletSpec.A_scale α hα, TripletSpec.B_scale α hα]
  have e : (TripletSpec.A lb lt - TripletSpec.B lb lt / α * (M.scale α).radius) *
      (M.scale α).radius =
      α * ((TripletSpec.A lb lt - TripletSpec.B lb lt * M.radius) * M.radius) := by
    simp only [InternalSpacePoint.scale]
    field_simp
    ring
  rw [e, abs_mul, abs_of_pos hα]

theorem TripletSpec.curvature_scale (sqrt : K → K) (α : K) (hα : 0 < α) (lb lt : LinCircle K) :
    TripletSpec.curvature sqrt (lb.scale α) (lt.scale α) =
      TripletSpec.curvature sqrt lb lt / α := by
  simp only [TripletSpec.curvature, TripletSpec.B_scale α hα, TripletSpec.S2_scale α hα]
  rw [div_right_comm]

theorem SearchTriplet.passes_scale (sqrt : K → K) (α : K) (hα : 0 < α)
    (config : SeedfinderConfig K) (M : InternalSpacePoint K) (lb lt : LinCircle K) :
    SearchTriplet.passes sqrt (config.scaleAll α) (M.scale α) (lb.scale α) (lt.scale α) ↔
      SearchTriplet.passes sqrt config M lb lt := by
  have hα0 : α ≠ 0 := hα.ne'
  have hres : TripletSpec.residual2 sqrt (M.scale α) (lb.scale α) (lt.scale α) =
      TripletSpec.residual2 sqrt M lb lt := by
    simp only [TripletSpec.residual2, TripletSpec.error2_scale α hα]
    rfl
  have hdc : TripletSpec.deltaCotTheta (lb.scale α) (lt.scale α) =
      TripletSpec.deltaCotTheta lb lt := rfl
  have hcot : (lb.scale α).cotTheta = lb.cotTheta := rfl
  have h1 : TripletSpec.rejected1 sqrt (config.scaleAll α) (M.scale α) (lb.scale α)
      (lt.scale α) ↔ TripletSpec.rejected1 sqrt config M lb lt := by
    simp only [TripletSpec.rejected1, hres, hdc, hcot, TripletSpec.error2_scale α hα]
    rfl
  have h2 : TripletSpec.rejected2 (lb.scale α) (lt.scale α) ↔ TripletSpec.rejected2 lb lt := by
    simp only [TripletSpec.rejected2, LinCircle.scale]
    rw [← sub_div, div_eq_zero_iff]
    exact ⟨fun h => h.resolve_right hα0, Or.inl⟩
  have h3 : TripletSpec.rejected3 (config.scaleAll α) (lb.scale α) (lt.scale α) ↔
      TripletSpec.rejected3 config lb lt := by
    simp only [TripletSpec.rejected3, TripletSpec.S2_scale α hα, TripletSpec.B_scale α hα]
    have e : (TripletSpec.B lb lt / α) ^ 2 * (config.scaleAll α).minHelixDiameter2 =
        TripletSpec.B lb lt ^ 2 * config.minHelixDiameter2 := by
      simp only [SeedfinderConfig.scaleAll]
      field_simp
      ring
    rw [e]
  have h4 : TripletSpec.rejected4 sqrt (config.scaleAll α) (M.scale α) (lb.scale α)
      (lt.scale α) ↔ TripletSpec.rejected4 sqrt config M lb lt := by
    simp only [TripletSpec.rejected4, hres, hdc, hcot, TripletSpec.error2_scale α hα,
      TripletSpec.S2_scale α hα, TripletSpec.B_scale α hα]
    have hb : (TripletSpec.B lb lt / α) ^ 2 * α ^ 2 = TripletSpec.B lb lt ^ 2 := by
      field_simp
    have e : 4 * ((TripletSpec.B lb lt / α) ^ 2 / TripletSpec.S2 lb lt) *
        (config.scaleAll α).pT2perRadius * (1 + lb.cotTheta ^ 2) *
        (config.scaleAll α).sigmaScattering ^ 2 =
        4 * (TripletSpec.B lb lt ^ 2 / TripletSpec.S2 lb lt) * config.pT2perRadius *
          (1 + lb.cotTheta ^ 2) * config.sigmaScattering ^ 2 := by
      simp only [SeedfinderConfig.scaleAll, SeedfinderConfig.scaleLengths]
      rw [← hb]
      ring
    rw [e]
  have h5 : TripletSpec.rejected5 (config.scaleAll α) (M.scale α) (lb.scale α) (lt.scale α) ↔
      TripletSpec.rejected5 config M lb lt := by
    simp only [TripletSpec.rejected5, TripletSpec.Im_scale α hα, SeedfinderConfig.scaleAll,
      gt_iff_lt, mul_lt_mul_left hα]
  simp only [SearchTriplet.passes, h1, h2, h3, h4, h5, TripletSpec.error2_scale α hα]

end ScalingCutsProofs

section ScalingTripletClaim

variable {K : Type} [LinearOrderedField K]

theorem SearchTriplet.passedTops_scale (sqrt : K → K) (α : K) (hα : 0 < α)
    (config : SeedfinderConfig K) (M : InternalSpacePoint K)
    (compatTopSP : List (InternalSpacePoint K)) (linCircleTop : List (LinCircle K))
    (lb : LinCircle K) :
    SearchTriplet.passedTops sqrt (config.scaleAll α) (M.scale α)
        (compatTopSP.map (InternalSpacePoint.scale α)) (linCircleTop.map (LinCircle.scale α))
        (lb.scale α) =
      (SearchTriplet.passedTops sqrt config M compatTopSP linCircleTop lb).map
        (Prod.map (InternalSpacePoint.scale α) (LinCircle.scale α)) := by
  simp only [SearchTriplet.passedTops]
  rw [List.zip_map, List.filter_map]
  congr 1
  apply List.filter_congr
  intro p _
  simp only [Function.comp, Prod.map_snd, SearchTriplet.passes_scale sqrt α hα]

theorem SearchTriplet.filterCalls_scale (sqrt : K → K) (α : K) (hα : 0 < α)
    (config : SeedfinderConfig K) (M : InternalSpacePoint K)
    (compatBottomSP compatTopSP : List (InternalSpacePoint K))
    (linCircleBottom linCircleTop : List (LinCircle K)) :
    SearchTriplet.filterCalls sqrt (config.scaleAll α) (M.scale α)
        (compatBottomSP.map (InternalSpacePoint.scale α))
        (compatTopSP.map (InternalSpacePoint.scale α))
        (linCircleBottom.map (LinCircle.scale α)) (linCircleTop.map (LinCircle.scale α)) =
      (SearchTriplet.filterCalls sqrt config M compatBottomSP compatTopSP linCircleBottom
        linCircleTop).map (SearchTriplet.FilterCall.scale α) := by
  simp only [SearchTriplet.filterCalls]
  rw [List.zip_map, List.filter_map, List.map_map, List.map_map]
  have hfilter : ((fun q : InternalSpacePoint K × LinCircle K =>
      !(SearchTriplet.passedTops sqrt (config.scaleAll α) (M.scale α)
        (compatTopSP.map (InternalSpacePoint.scale α)) (linCircleTop.map (LinCircle.scale α))
        q.2).isEmpty) ∘ Prod.map (InternalSpacePoint.scale α) (LinCircle.scale α)) =
      fun q => !(SearchTriplet.passedTops sqrt config M compatTopSP linCircleTop q.2).isEmpty := by
    funext q
    simp only [Function.comp, Prod.map_snd, SearchTriplet.passedTops_scale sqrt α hα]
    cases SearchTriplet.passedTops sqrt config M compatTopSP linCircleTop q.2 <;> rfl
  rw [hfilter]
  apply List.map_congr_left
  intro q _
  simp only [Function.comp, Prod.map_fst, Prod.map_snd,
    SearchTriplet.passedTops_scale sqrt α hα, SearchTriplet.FilterCall.scale, List.map_map]
  congr 1
  · apply List.map_congr_left
    intro p _
    simp only [Function.comp, Prod.map_snd, TripletSpec.curvature_scale sqrt α hα]
  · apply List.map_congr_left
    intro p _
    simp only [Function.comp, Prod.map_snd, TripletSpec.Im_scale α hα]

theorem transformCoordinates.linCircles_scale (sqrt : K → K) (α : K) (hα : 0 < α)
    (hs : ∀ x, sqrt (x / α ^ 2) = sqrt x / α) (vec : List (InternalSpacePoint K))
    (M : InternalSpacePoint K) (bottom : Bool) :
    transformCoordinates sqrt (vec.map (InternalSpacePoint.scale α)) (M.scale α) bottom [] =
      (transformCoordinates sqrt vec M bottom []).map (LinCircle.scale α) := by
  simp only [transformCoordinates]
  rw [transformCoordinates.loop_eq_map, transformCoordinates.loop_eq_map]
  simp only [List.nil_append, List.map_map]
  apply List.map_congr_left
  intro S _
  simp only [Function.comp, ConformalSpec.linCircle_scale sqrt α hα hs]

theorem transformCoordinates.length_eq (sqrt : K → K) (vec : List (InternalSpacePoint K))
    (M : InternalSpacePoint K) (bottom : Bool) :
    (transformCoordinates sqrt vec M bottom []).length = vec.length := by
  simp only [transformCoordinates]
  rw [transformCoordinates.loop_eq_map]
  simp

/-- C16 (amended): for `α > 0` and a square root with `sqrt (x / α²) = sqrt x / α`, multiply
`x, y, z, r` of all points by `α`, the variances by `α²`, the configuration fields `rMax`,
`deltaRMin`, `deltaRMax`, `collisionRegionMin`, `collisionRegionMax` and `impactMax` by `α` and
`minHelixDiameter2`, `pT2perRadius` by `α²`: then `SearchDoublet` accepts the scaled images of
the same partners (either role), and `transformCoordinates` followed by `SearchTriplet` hands
the filter the scaled images of the same (bottom, top) combinations. -/
theorem SearchDoublet_SearchTriplet_scale_all_lengths (sqrt : K → K) (α : K)
    (config : SeedfinderConfig K) (M : InternalSpacePoint K)
    (SPs compatBottomSP compatTopSP : List (InternalSpacePoint K))
    (hα : 0 < α) (hs : ∀ x, sqrt (x / α ^ 2) = sqrt x / α) :
    (∀ isBottom : Bool,
        SearchDoublet isBottom (SPs.map (InternalSpacePoint.scale α)) (M.scale α)
            (config.scaleAll α) =
          (SearchDoublet isBottom SPs M config).map (InternalSpacePoint.scale α)) ∧
      SearchTriplet sqrt SearchTriplet.recordCall (M.scale α)
          (compatBottomSP.map (InternalSpacePoint.scale α))
          (compatTopSP.map (InternalSpacePoint.scale α))
          (transformCoordinates sqrt (compatBottomSP.map (InternalSpacePoint.scale α))
            (M.scale α) true [])
          (transformCoordinates sqrt (compatTopSP.map (InternalSpacePoint.scale α))
            (M.scale α) false [])
          (config.scaleAll α) =
        (SearchTriplet sqrt SearchTriplet.recordCall M compatBottomSP compatTopSP
          (transformCoordinates sqrt compatBottomSP M true [])
          (transformCoordinates sqrt compatTopSP M false []) config).map
          (List.map (SearchTriplet.FilterCall.scale α)) := by
  refine ⟨fun isBottom => SearchDoublet.scale_eq α hα isBottom SPs M config, ?_⟩
  rw [SearchTriplet.recordCall_eq_filterCalls _ _ _ _ _ _ _
      (by rw [transformCoordinates.length_eq]) (by rw [transformCoordinates.length_eq]),
    SearchTriplet.recordCall_eq_filterCalls _ _ _ _ _ _ _
      (by rw [transformCoordinates.length_eq]) (by rw [transformCoordinates.length_eq]),
    transformCoordinates.linCircles_scale sqrt α hα hs, transformCoordinates.linCircles_scale sqrt α hα hs,
    SearchTriplet.filterCalls_scale sqrt α hα]
  rfl

end ScalingTripletClaim

section ScalingWitness

theorem SearchDoublet_SearchTriplet_scale_all_lengths_witness :
    (0 : ℝ) < 2 ∧ (∀ x : ℝ, Real.sqrt (x / 2 ^ 2) = Real.sqrt x / 2) ∧
      ((∀ isBottom : Bool,
        SearchDoublet isBottom
            ([⟨10, 0, 200, 10, 0, 0⟩, ⟨150, 0, 200, 150, 0, 0⟩].map
              (InternalSpacePoint.scale (2 : ℝ)))
            ((⟨50, 0, 200, 50, 0, 0⟩ : InternalSpacePoint ℝ).scale 2)
            ((⟨160, 5, 160, 74 / 10, -250, 250, 1 / 1000000, 1, 1000000, 1 / 100, 10⟩ :
              SeedfinderConfig ℝ).scaleAll 2) =
          (SearchDoublet isBottom [⟨10, 0, 200, 10, 0, 0⟩, ⟨150, 0, 200, 150, 0, 0⟩]
            ⟨50, 0, 200, 50, 0, 0⟩
            ⟨160, 5, 160, 74 / 10, -250, 250, 1 / 1000000, 1, 1000000, 1 / 100, 10⟩).map
            (InternalSpacePoint.scale (2 : ℝ))) ∧
      SearchTriplet Real.sqrt SearchTriplet.recordCall
          ((⟨50, 0, 200, 50, 0, 0⟩ : InternalSpacePoint ℝ).scale 2)
          ([⟨10, 0, 200, 10, 0, 0⟩].map (InternalSpacePoint.scale (2 : ℝ)))
          ([⟨150, 0, 200, 150, 0, 0⟩].map (InternalSpacePoint.scale (2 : ℝ)))
          (transformCoordinates Real.sqrt
            ([⟨10, 0, 200, 10, 0, 0⟩].map (InternalSpacePoint.scale (2 : ℝ)))
            ((⟨50, 0, 200, 50, 0, 0⟩ : InternalSpacePoint ℝ).scale 2) true [])
          (transformCoordinates Real.sqrt
            ([⟨150, 0, 200, 150, 0, 0⟩].map (InternalSpacePoint.scale (2 : ℝ)))
            ((⟨50, 0, 200, 50, 0, 0⟩ : InternalSpacePoint ℝ).scale 2) false [])
          ((⟨160, 5, 160, 74 / 10, -250, 250, 1 / 1000000, 1, 1000000, 1 / 100, 10⟩ :
            SeedfinderConfig ℝ).scaleAll 2) =
        (SearchTriplet Real.sqrt SearchTriplet.recordCall ⟨50, 0, 200, 50, 0, 0⟩
          [⟨10, 0, 200, 10, 0, 0⟩] [⟨150, 0, 200, 150, 0, 0⟩]
          (transformCoordinates Real.sqrt [⟨10, 0, 200, 10, 0, 0⟩] ⟨50, 0, 200, 50, 0, 0⟩ true [])
          (transformCoordinates Real.sqrt [⟨150, 0, 200, 150, 0, 0⟩] ⟨50, 0, 200, 50, 0, 0⟩
            false [])
          ⟨160, 5, 160, 74 / 10, -250, 250, 1 / 1000000, 1, 1000000, 1 / 100, 10⟩).map
          (List.map (SearchTriplet.FilterCall.scale (2 : ℝ)))) :=
  have hα : (0 : ℝ) < 2 := by norm_num
  have hs : ∀ x : ℝ, Real.sqrt (x / 2 ^ 2) = Real.sqrt x / 2 := by
    intro x
    rw [Real.sqrt_div' x (by norm_num), Real.sqrt_sq (by norm_num)]
  ⟨hα, hs, SearchDoublet_SearchTriplet_scale_all_lengths Real.sqrt 2 _ _ _ _ _ hα hs⟩

end ScalingWitness

section ExperimentCutsProofs

variable {K : Type} [LinearOrderedField K]

/-- C30: for a bottom radius (entry 3) strictly smaller than the top radius,
`CuIExperimentCuts::seedWeight` returns 400 when the bottom radius is above 150, 200 when the top
radius is below 150 and 0 otherwise, and the two conditions exclude each other;
`CuIExperimentCuts::singleSeedCut` applied to `w + seedWeight(bottom, middle, top)` returns true
if and only if the bottom radius is at most 150 or `w ≥ -20`. -/
theorem CuIExperimentCuts_seedWeight_and_cut (bottom middle top : Nat → K) (w : K)
    (hbt : bottom 3 < top 3) :
    ¬ (bottom 3 > 150 ∧ top 3 < 150) ∧
      (bottom 3 > 150 → CuIExperimentCuts.seedWeight bottom middle top = 400) ∧
      (top 3 < 150 → CuIExperimentCuts.seedWeight bottom middle top = 200) ∧
      (¬ bottom 3 > 150 → ¬ top 3 < 150 →
        CuIExperimentCuts.seedWeight bottom middle top = 0) ∧
      (CuIExperimentCuts.singleSeedCut (w + CuIExperimentCuts.seedWeight bottom middle top)
          bottom middle top = true ↔ (bottom 3 ≤ 150 ∨ w ≥ -20)) := by
  have hexcl : ¬ (bottom 3 > 150 ∧ top 3 < 150) := fun h => by linarith [h.1, h.2]
  have h400 : bottom 3 > 150 → CuIExperimentCuts.seedWeight bottom middle top = 400 := by
    intro hb
    have ht : ¬ top 3 < 150 := fun h => hexcl ⟨hb, h⟩
    simp only [CuIExperimentCuts.seedWeight, if_pos hb, if_neg ht]
  refine ⟨hexcl, h400, ?_, ?_, ?_⟩
  · intro ht
    simp only [CuIExperimentCuts.seedWeight, if_pos ht]
  · intro hb ht
    simp only [CuIExperimentCuts.seedWeight, if_neg hb, if_neg ht]
  · by_cases hb : bottom 3 > 150
    · rw [h400 hb]
      simp only [CuIExperimentCuts.singleSeedCut, hb, decide_True, Bool.true_and,
        Bool.not_eq_true', decide_eq_false_iff_not, not_lt]
      constructor
      · intro h; right; linarith
      · rintro (h | h)
        · exact absurd hb (not_lt.2 h)
        · linarith
    · simp only [CuIExperimentCuts.singleSeedCut, hb, decide_False, Bool.false_and,
        Bool.not_false, true_iff]
      exact Or.inl (not_lt.1 hb)

theorem CuIExperimentCuts_seedWeight_and_cut_witness :
    Example.point 160 0 3 < Example.point 170 0 3 ∧
      (¬ (Example.point 160 0 3 > 150 ∧ Example.point 170 0 3 < 150) ∧
      (Example.point 160 0 3 > 150 →
        CuIExperimentCuts.seedWeight (Example.point 160 0) (Example.point 165 0)
          (Example.point 170 0) = 400) ∧
      (Example.point 170 0 3 < 150 →
        CuIExperimentCuts.seedWeight (Example.point 160 0) (Example.point 165 0)
          (Example.point 170 0) = 200) ∧
      (¬ Example.point 160 0 3 > 150 → ¬ Example.point 170 0 3 < 150 →
        CuIExperimentCuts.seedWeight (Example.point 160 0) (Example.point 165 0)
          (Example.point 170 0) = 0) ∧
      (CuIExperimentCuts.singleSeedCut
          (-30 + CuIExperimentCuts.seedWeight (Example.point 160 0) (Example.point 165 0)
            (Example.point 170 0))
          (Example.point 160 0) (Example.point 165 0) (Example.point 170 0) = true ↔
        (Example.point 160 0 3 ≤ 150 ∨ (-30 : ℚ) ≥ -20))) :=
  have hbt : Example.point 160 0 3 < Example.point 170 0 3 := by
    norm_num [Example.point, Example.array]
  ⟨hbt, CuIExperimentCuts_seedWeight_and_cut (Example.point 160 0) (Example.point 165 0)
    (Example.point 170 0) (-30) hbt⟩

end ExperimentCutsProofs

section FilterFrameProofs

variable {K : Type} [LinearOrderedField K]

/-- The loop of `CuSeedFilter::filterSeeds_2SpFixed` writes the array `weight` only at
`threadId`. -/
theorem CuSeedFilter.compatLoop_frame (self : CuSeedFilter K) (threadId nSpT : Nat)
    (spTmat : Nat → K) (isPassed : Nat → Bool) (inv : Nat → K) (lo hi cur : K) (n j : Nat)
    (ics : Nat → Bool) (weight : Nat → K) (k : Nat) (hk : k ≠ threadId) :
    (CuSeedFilter.compatLoop self threadId nSpT spTmat isPassed inv lo hi cur n j ics
      weight).2 k = weight k := by
  induction n generalizing j ics weight with
  | zero => rfl
  | succ n ih =>
    simp only [CuSeedFilter.compatLoop]
    split_ifs <;>
      first
        | exact ih _ _ _
        | rfl
        | exact Function.update_noteq hk _ _
        | (rw [ih]; exact Function.update_noteq hk _ _)

/-- C27: a call of `CuSeedFilter::filterSeeds_2SpFixed` for the thread index `t` changes the
output arrays `weight` and `isTriplet` at most at the index `t`: every other entry of both is
what it was before the call (the input arrays are read only), so calls for distinct thread
indices write distinct entries. -/
theorem CuSeedFilter_writes_only_own_index (self : CuSeedFilter K) (t : Nat)
    (spM spB : Nat → K) (nSpT : Nat) (spTmat : Nat → K) (isPassed : Nat → Bool)
    (invHelixDiameterVec impactParametersVec : Nat → K) (Zob : K)
    (weight : Nat → K) (isTriplet : Nat → Bool) (k : Nat) (hk : k ≠ t) :
    (CuSeedFilter.filterSeeds_2SpFixed self t spM spB nSpT spTmat isPassed invHelixDiameterVec
        impactParametersVec Zob weight isTriplet).1 k = weight k ∧
      (CuSeedFilter.filterSeeds_2SpFixed self t spM spB nSpT spTmat isPassed invHelixDiameterVec
        impactParametersVec Zob weight isTriplet).2 k = isTriplet k := by
  constructor
  · simp only [CuSeedFilter.filterSeeds_2SpFixed, CuSeedFilter.weightBeforeCuts]
    rw [Function.update_noteq hk, CuSeedFilter.compatLoop_frame _ _ _ _ _ _ _ _ _ _ _ _ _ k hk,
      Function.update_noteq hk]
  · simp only [CuSeedFilter.filterSeeds_2SpFixed]
    split_ifs
    · rw [Function.update_noteq hk, Function.update_noteq hk]
    · rw [Function.update_noteq hk]

theorem CuSeedFilter_writes_only_own_index_witness :
    (2 : Nat) ≠ 0 ∧
      ((CuSeedFilter.filterSeeds_2SpFixed Example.cuFilter 0 (Example.point 50 0)
          (Example.point 10 0) 3 Example.spTmat Example.allPassed Example.zeros Example.zeros 0
          Example.zeros Example.noTriplet).1 2 = Example.zeros 2 ∧
        (CuSeedFilter.filterSeeds_2SpFixed Example.cuFilter 0 (Example.point 50 0)
          (Example.point 10 0) 3 Example.spTmat Example.allPassed Example.zeros Example.zeros 0
          Example.zeros Example.noTriplet).2 2 = Example.noTriplet 2) :=
  ⟨by decide, CuSeedFilter_writes_only_own_index Example.cuFilter 0 (Example.point 50 0)
    (Example.point 10 0) 3 Example.spTmat Example.allPassed Example.zeros Example.zeros 0
    Example.zeros Example.noTriplet 2 (by decide)⟩

end FilterFrameProofs

section TripletBoundsProofs

variable {K : Type} [LinearOrderedField K]

/-- C28: when `linCircleBottom` and `linCircleTop` are at least as long as `compatBottomSP` and
`compatTopSP`, no index access of `SearchTriplet` leaves its vector (the function returns a
result for every seed filter), and at every call of the filter the vectors `topSpVec`,
`curvatures` and `impactParameters` are non-empty and of equal length, their entries of equal
index belong to the same accepted top, and the tops come in the order of `compatTopSP`. -/
theorem SearchTriplet_accesses_in_bounds_vectors_aligned {σ : Type} (sqrt : K → K)
    (F : InternalSpacePoint K → InternalSpacePoint K →
      List (InternalSpacePoint K) → List K → List K → K → List σ)
    (spM : InternalSpacePoint K) (compatBottomSP compatTopSP : List (InternalSpacePoint K))
    (linCircleBottom linCircleTop : List (LinCircle K)) (config : SeedfinderConfig K)
    (hB : compatBottomSP.length ≤ linCircleBottom.length)
    (hT : compatTopSP.length ≤ linCircleTop.length) :
    (SearchTriplet sqrt F spM compatBottomSP compatTopSP linCircleBottom linCircleTop
        config).isSome = true ∧
      ∃ calls : List (SearchTriplet.FilterCall K),
        SearchTriplet sqrt SearchTriplet.recordCall spM compatBottomSP compatTopSP
          linCircleBottom linCircleTop config = some calls ∧
        ∀ c ∈ calls,
          c.topSpVec ≠ [] ∧ c.curvatures.length = c.topSpVec.length ∧
          c.impactParameters.length = c.topSpVec.length ∧
          ∃ lb ∈ linCircleBottom, ∃ tops : List (InternalSpacePoint K × LinCircle K),
            tops.Sublist (compatTopSP.zip linCircleTop) ∧
            c.topSpVec = tops.map Prod.fst ∧
            c.curvatures = tops.map (fun p => TripletSpec.curvature sqrt lb p.2) ∧
            c.impactParameters = tops.map (fun p => TripletSpec.Im spM lb p.2) := by
  refine ⟨?_, _, SearchTriplet.recordCall_eq_filterCalls sqrt spM compatBottomSP compatTopSP
    linCircleBottom linCircleTop config hB hT, ?_⟩
  · rw [SearchTriplet.eq_flatMap_filterCalls sqrt F spM compatBottomSP compatTopSP
      linCircleBottom linCircleTop config hB hT]
    rfl
  · intro c hc
    obtain ⟨lb, hlb, hne, htop, hcurv, him, -⟩ := SearchTriplet.mem_filterCalls sqrt config spM
      compatBottomSP compatTopSP linCircleBottom linCircleTop c hc
    refine ⟨?_, ?_, ?_, lb, hlb, _, List.filter_sublist _, htop, hcurv, him⟩
    · rw [htop]
      intro h
      exact hne (List.map_eq_nil_iff.1 h)
    · rw [hcurv, htop, List.length_map, List.length_map]
    · rw [him, htop, List.length_map, List.length_map]

theorem SearchTriplet_accesses_in_bounds_vectors_aligned_witness :
    Example.bottoms.length ≤ Example.linCircleBottom.length ∧
      Example.tops.length ≤ Example.linCircleTop.length ∧
      ((SearchTriplet Example.sqrt SearchTriplet.recordCall (Example.onAxis 50 0)
          Example.bottoms Example.tops Example.linCircleBottom Example.linCircleTop
          Example.config).isSome = true ∧
        ∃ calls : List (SearchTriplet.FilterCall ℚ),
          SearchTriplet Example.sqrt SearchTriplet.recordCall (Example.onAxis 50 0)
            Example.bottoms Example.tops Example.linCircleBottom Example.linCircleTop
            Example.config = some calls ∧
          ∀ c ∈ calls,
            c.topSpVec ≠ [] ∧ c.curvatures.length = c.topSpVec.length ∧
            c.impactParameters.length = c.topSpVec.length ∧
            ∃ lb ∈ Example.linCircleBottom, ∃ tops : List (InternalSpacePoint ℚ × LinCircle ℚ),
              tops.Sublist (Example.tops.zip Example.linCircleTop) ∧
              c.topSpVec = tops.map Prod.fst ∧
              c.curvatures = tops.map (fun p => TripletSpec.curvature Example.sqrt lb p.2) ∧
              c.impactParameters =
                tops.map (fun p => TripletSpec.Im (Example.onAxis 50 0) lb p.2)) :=
  ⟨Example.lengths_ok.1, Example.lengths_ok.2,
    SearchTriplet_accesses_in_bounds_vectors_aligned Example.sqrt SearchTriplet.recordCall
      (Example.onAxis 50 0) Example.bottoms Example.tops Example.linCircleBottom
      Example.linCircleTop Example.config Example.lengths_ok.1 Example.lengths_ok.2⟩

end TripletBoundsProofs

section TransverseDistanceProofs

variable {K : Type} [LinearOrderedField K]

/-- The difference of the radii is at most the transverse distance (triangle inequality in the
transverse plane), for radii consistent with `(x, y)`. -/
theorem InternalSpacePoint.sq_radius_sub_le (M S : InternalSpacePoint K)
    (hM : M.radius ^ 2 = M.x ^ 2 + M.y ^ 2) (hM0 : 0 ≤ M.radius)
    (hS : S.radius ^ 2 = S.x ^ 2 + S.y ^ 2) (hS0 : 0 ≤ S.radius) :
    (S.radius - M.radius) ^ 2 ≤ (S.x - M.x) ^ 2 + (S.y - M.y) ^ 2 := by
  have hcs : S.x * M.x + S.y * M.y ≤ S.radius * M.radius := by
    by_contra hlt
    rw [not_le] at hlt
    have hnn : 0 ≤ S.radius * M.radius := mul_nonneg hS0 hM0
    have h1 : (S.radius * M.radius) ^ 2 < (S.x * M.x + S.y * M.y) ^ 2 := by
      nlinarith
    have h2 : (S.radius * M.radius) ^ 2 = (S.x ^ 2 + S.y ^ 2) * (M.x ^ 2 + M.y ^ 2) := by
      rw [mul_pow, hS, hM]
    nlinarith [sq_nonneg (S.x * M.y - S.y * M.x)]
  nlinarith

/-- C24: if `deltaRMin > 0` and the radii of the middle `M` and of the partner `S` satisfy
`r² = x² + y²` with `r ≥ 0`, then for every partner accepted by `SearchDoublet` (either role)
`Δx² + Δy² ≥ (r_S - r_M)² ≥ deltaRMin² > 0`, so the denominator `deltaX·deltaX + deltaY·deltaY`
of `transformCoordinates` is not zero. -/
theorem SearchDoublet_accepted_transverse_distance_pos (isBottom : Bool)
    (SPs : List (InternalSpacePoint K)) (M S : InternalSpacePoint K)
    (config : SeedfinderConfig K) (hmin : 0 < config.deltaRMin)
    (hM : M.radius ^ 2 = M.x ^ 2 + M.y ^ 2) (hM0 : 0 ≤ M.radius)
    (hS : S.radius ^ 2 = S.x ^ 2 + S.y ^ 2) (hS0 : 0 ≤ S.radius)
    (hmem : S ∈ SearchDoublet isBottom SPs M config) :
    (S.radius - M.radius) ^ 2 ≤ (S.x - M.x) ^ 2 + (S.y - M.y) ^ 2 ∧
      config.deltaRMin ^ 2 ≤ (S.radius - M.radius) ^ 2 ∧ 0 < config.deltaRMin ^ 2 ∧
      (S.x - M.x) * (S.x - M.x) + (S.y - M.y) * (S.y - M.y) ≠ 0 := by
  have htri := InternalSpacePoint.sq_radius_sub_le M S hM hM0 hS hS0
  have hgap := SearchDoublet.mem_gap isBottom SPs M config S hmem
  have hsq : config.deltaRMin ^ 2 ≤ (S.radius - M.radius) ^ 2 := by
    cases isBottom with
    | true =>
      simp only [if_true] at hgap
      nlinarith [hgap.1]
    | false =>
      simp only [Bool.false_eq_true, if_false] at hgap
      nlinarith [hgap.1]
  have hpos : 0 < config.deltaRMin ^ 2 := pow_pos hmin 2
  refine ⟨htri, hsq, hpos, ?_⟩
  have : 0 < (S.x - M.x) * (S.x - M.x) + (S.y - M.y) * (S.y - M.y) := by nlinarith
  exact ne_of_gt this

theorem SearchDoublet_accepted_transverse_distance_pos_witness :
    0 < Example.config.deltaRMin ∧
      Example.onAxis 10 0 ∈
        SearchDoublet true [Example.onAxis 10 0] (Example.onAxis 50 0) Example.config ∧
      (((Example.onAxis 10 0).radius - (Example.onAxis 50 0).radius) ^ 2 ≤
          ((Example.onAxis 10 0).x - (Example.onAxis 50 0).x) ^ 2 +
            ((Example.onAxis 10 0).y - (Example.onAxis 50 0).y) ^ 2 ∧
        Example.config.deltaRMin ^ 2 ≤
          ((Example.onAxis 10 0).radius - (Example.onAxis 50 0).radius) ^ 2 ∧
        0 < Example.config.deltaRMin ^ 2 ∧
        ((Example.onAxis 10 0).x - (Example.onAxis 50 0).x) *
            ((Example.onAxis 10 0).x - (Example.onAxis 50 0).x) +
          ((Example.onAxis 10 0).y - (Example.onAxis 50 0).y) *
            ((Example.onAxis 10 0).y - (Example.onAxis 50 0).y) ≠ 0) :=
  have hmin : (0 : ℚ) < Example.config.deltaRMin := by norm_num [Example.config]
  have hmem : Example.onAxis 10 0 ∈
      SearchDoublet true [Example.onAxis 10 0] (Example.onAxis 50 0) Example.config := by
    norm_num [SearchDoublet, SearchDoublet.bottomLoop, Example.config, Example.onAxis]
  ⟨hmin, hmem,
    SearchDoublet_accepted_transverse_distance_pos true _ (Example.onAxis 50 0)
      (Example.onAxis 10 0) Example.config hmin (by norm_num [Example.onAxis])
      (by norm_num [Example.onAxis]) (by norm_num [Example.onAxis])
      (by norm_num [Example.onAxis]) hmem⟩

end TransverseDistanceProofs

section DupletSymmetryProofs

variable {K : Type} [LinearOrderedField K]

/-- With a single partner the TOP search returns it exactly when the condition of its pass
holds. -/
theorem SearchDoublet.mem_top_singleton_iff (M S : InternalSpacePoint K)
    (config : SeedfinderConfig K) :
    S ∈ SearchDoublet false [S] M config ↔ SearchDoublet.topKeeps config M S := by
  have hnil : ∀ acc : List (InternalSpacePoint K),
      SearchDoublet.topLoop M config [] acc = acc := fun acc => by
    simp only [SearchDoublet.topLoop]
  simp only [SearchDoublet, Bool.false_eq_true, if_false]
  rw [SearchDoublet.topLoop_cons, hnil, hnil]
  constructor
  · intro h
    split_ifs at h with h1 h2 hA
    · simp at h
    · simp at h
    · exact hA
    · simp at h
  · intro hA
    rw [if_neg (not_lt.2 hA.1.1), if_neg (not_lt.2 hA.1.2), if_pos hA]
    exact List.mem_singleton.2 rfl

/-- C26: for two points `P`, `Q` whose radii differ, or in a configuration with `deltaRMin > 0`
(so that equal radii are rejected before the division), `Q` is accepted by `SearchDoublet` as TOP
partner of the middle `P` if and only if `P` is accepted as BOTTOM partner of the middle `Q`;
when the radii differ the origin on the z axis computed from either end of the duplet is the same
value. -/
theorem SearchDoublet_top_bottom_symmetric (P Q : InternalSpacePoint K)
    (config : SeedfinderConfig K) (h : P.radius ≠ Q.radius ∨ 0 < config.deltaRMin) :
    (Q ∈ SearchDoublet false [Q] P config ↔ P ∈ SearchDoublet true [P] Q config) ∧
      (P.radius ≠ Q.radius →
        P.z - P.radius * ((Q.z - P.z) / (Q.radius - P.radius)) =
          Q.z - Q.radius * ((Q.z - P.z) / (Q.radius - P.radius))) := by
  have horigin : P.radius ≠ Q.radius →
      P.z - P.radius * ((Q.z - P.z) / (Q.radius - P.radius)) =
        Q.z - Q.radius * ((Q.z - P.z) / (Q.radius - P.radius)) := by
    intro hne
    have hd : Q.radius - P.radius ≠ 0 := sub_ne_zero.2 (Ne.symm hne)
    field_simp
    ring
  refine ⟨?_, horigin⟩
  rw [SearchDoublet.mem_top_singleton_iff, SearchDoublet.mem_bottom_iff]
  simp only [List.mem_singleton, true_and]
  by_cases hne : P.radius = Q.radius
  · have hmin : 0 < config.deltaRMin := h.resolve_left (fun hn => hn hne)
    constructor
    · intro hA
      have := hA.1.1
      rw [hne, sub_self] at this
      exact absurd this (not_le.2 hmin)
    · intro hA
      have := hA.1.1
      rw [hne, sub_self] at this
      exact absurd this (not_le.2 hmin)
  · have hd : Q.radius - P.radius ≠ 0 := sub_ne_zero.2 (Ne.symm hne)
    rw [SearchDoublet.topKeeps_iff config P Q hd, SearchDoublet.bottomKeeps_iff config Q P hd]
    simp only [DupletSpec.topAccepted, DupletSpec.bottomAccepted, horigin hne]

theorem SearchDoublet_top_bottom_symmetric_witness :
    ((Example.onAxis 50 0).radius ≠ (Example.onAxis 150 100).radius ∨
        0 < Example.config.deltaRMin) ∧
      ((Example.onAxis 150 100 ∈
            SearchDoublet false [Example.onAxis 150 100] (Example.onAxis 50 0) Example.config ↔
          Example.onAxis 50 0 ∈
            SearchDoublet true [Example.onAxis 50 0] (Example.onAxis 150 100) Example.config) ∧
        ((Example.onAxis 50 0).radius ≠ (Example.onAxis 150 100).radius →
          (Example.onAxis 50 0).z - (Example.onAxis 50 0).radius *
              (((Example.onAxis 150 100).z - (Example.onAxis 50 0).z) /
                ((Example.onAxis 150 100).radius - (Example.onAxis 50 0).radius)) =
            (Example.onAxis 150 100).z - (Example.onAxis 150 100).radius *
              (((Example.onAxis 150 100).z - (Example.onAxis 50 0).z) /
                ((Example.onAxis 150 100).radius - (Example.onAxis 50 0).radius)))) :=
  have h : (Example.onAxis 50 0).radius ≠ (Example.onAxis 150 100).radius ∨
      0 < Example.config.deltaRMin := Or.inr (by norm_num [Example.config])
  ⟨h, SearchDoublet_top_bottom_symmetric (Example.onAxis 50 0) (Example.onAxis 150 100)
    Example.config h⟩

end DupletSymmetryProofs

section ConformalInversionProofs

variable {K : Type} [LinearOrderedField K]

/-- C29: if the radius of the middle satisfies `r_M² = x_M² + y_M²` with `r_M > 0` and the
partner differs from the middle in `(x, y)`, the conformal coordinates of the `LinCircle`
produced by `transformCoordinates` satisfy `U² + V² = 1/(Δx² + Δy²)`, which is `iΔR²` for a
square root with `sqrt(x)·sqrt(x) = x` on `x ≥ 0`: `(U, V)` is the inversion of the
middle-centred transverse position of the partner in the unit circle. -/
theorem transformCoordinates_conformal_inversion (sqrt : K → K) (M S : InternalSpacePoint K)
    (bottom : Bool) (hsq : ∀ x, 0 ≤ x → sqrt x * sqrt x = x)
    (hr : M.radius ^ 2 = M.x ^ 2 + M.y ^ 2) (hrM : 0 < M.radius)
    (hne : (S.x - M.x) ^ 2 + (S.y - M.y) ^ 2 ≠ 0) :
    ∃ l : LinCircle K, transformCoordinates sqrt [S] M bottom [] = [l] ∧
      l.U ^ 2 + l.V ^ 2 = 1 / ((S.x - M.x) ^ 2 + (S.y - M.y) ^ 2) ∧
      l.U ^ 2 + l.V ^ 2 = l.iDeltaR ^ 2 := by
  have hr0 : M.radius ≠ 0 := ne_of_gt hrM
  have hcs : (M.x / M.radius) ^ 2 + (M.y / M.radius) ^ 2 = 1 := by
    rw [div_pow, div_pow, ← add_div, ← hr, div_self (pow_ne_zero 2 hr0)]
  have hUV : (ConformalSpec.linCircle sqrt M bottom S).U ^ 2 +
      (ConformalSpec.linCircle sqrt M bottom S).V ^ 2 =
      1 / ((S.x - M.x) ^ 2 + (S.y - M.y) ^ 2) := by
    simp only [ConformalSpec.linCircle]
    have e : ((S.x - M.x) * (M.x / M.radius) + (S.y - M.y) * (M.y / M.radius)) ^ 2 +
        (-(S.x - M.x) * (M.y / M.radius) + (S.y - M.y) * (M.x / M.radius)) ^ 2 =
        ((S.x - M.x) ^ 2 + (S.y - M.y) ^ 2) *
          ((M.x / M.radius) ^ 2 + (M.y / M.radius) ^ 2) := by ring
    rw [mul_pow, mul_pow, ← add_mul, e, hcs, mul_one]
    field_simp
    ring
  refine ⟨_, transformCoordinates.singleton_eq sqrt M S bottom, hUV, ?_⟩
  rw [hUV]
  have hnn : (0 : K) ≤ 1 / ((S.x - M.x) ^ 2 + (S.y - M.y) ^ 2) :=
    div_nonneg zero_le_one (add_nonneg (sq_nonneg _) (sq_nonneg _))
  simp only [ConformalSpec.linCircle]
  exact ((pow_two (sqrt _)).trans (hsq _ hnn)).symm

theorem transformCoordinates_conformal_inversion_witness :
    (∀ x : ℝ, 0 ≤ x → Real.sqrt x * Real.sqrt x = x) ∧
      (⟨3, 4, 0, 5, 0, 0⟩ : InternalSpacePoint ℝ).radius ^ 2 =
        (⟨3, 4, 0, 5, 0, 0⟩ : InternalSpacePoint ℝ).x ^ 2 +
          (⟨3, 4, 0, 5, 0, 0⟩ : InternalSpacePoint ℝ).y ^ 2 ∧
      0 < (⟨3, 4, 0, 5, 0, 0⟩ : InternalSpacePoint ℝ).radius ∧
      ((⟨6, 8, 1, 10, 0, 0⟩ : InternalSpacePoint ℝ).x -
            (⟨3, 4, 0, 5, 0, 0⟩ : InternalSpacePoint ℝ).x) ^ 2 +
          ((⟨6, 8, 1, 10, 0, 0⟩ : InternalSpacePoint ℝ).y -
            (⟨3, 4, 0, 5, 0, 0⟩ : InternalSpacePoint ℝ).y) ^ 2 ≠ 0 ∧
      ∃ l : LinCircle ℝ,
        transformCoordinates Real.sqrt [⟨6, 8, 1, 10, 0, 0⟩] ⟨3, 4, 0, 5, 0, 0⟩ false [] = [l] ∧
        l.U ^ 2 + l.V ^ 2 =
          1 / (((⟨6, 8, 1, 10, 0, 0⟩ : InternalSpacePoint ℝ).x -
                (⟨3, 4, 0, 5, 0, 0⟩ : InternalSpacePoint ℝ).x) ^ 2 +
              ((⟨6, 8, 1, 10, 0, 0⟩ : InternalSpacePoint ℝ).y -
                (⟨3, 4, 0, 5, 0, 0⟩ : InternalSpacePoint ℝ).y) ^ 2) ∧
        l.U ^ 2 + l.V ^ 2 = l.iDeltaR ^ 2 :=
  have hsq : ∀ x : ℝ, 0 ≤ x → Real.sqrt x * Real.sqrt x = x :=
    fun x hx => Real.mul_self_sqrt hx
  have hr : (⟨3, 4, 0, 5, 0, 0⟩ : InternalSpacePoint ℝ).radius ^ 2 =
      (⟨3, 4, 0, 5, 0, 0⟩ : InternalSpacePoint ℝ).x ^ 2 +
        (⟨3, 4, 0, 5, 0, 0⟩ : InternalSpacePoint ℝ).y ^ 2 := by norm_num
  have hrM : 0 < (⟨3, 4, 0, 5, 0, 0⟩ : InternalSpacePoint ℝ).radius := by norm_num
  have hne : ((⟨6, 8, 1, 10, 0, 0⟩ : InternalSpacePoint ℝ).x -
        (⟨3, 4, 0, 5, 0, 0⟩ : InternalSpacePoint ℝ).x) ^ 2 +
      ((⟨6, 8, 1, 10, 0, 0⟩ : InternalSpacePoint ℝ).y -
        (⟨3, 4, 0, 5, 0, 0⟩ : InternalSpacePoint ℝ).y) ^ 2 ≠ 0 := by norm_num
  ⟨hsq, hr, hrM, hne,
    transformCoordinates_conformal_inversion Real.sqrt ⟨3, 4, 0, 5, 0, 0⟩ ⟨6, 8, 1, 10, 0, 0⟩
      false hsq hr hrM hne⟩

end ConformalInversionProofs

section ScatteringTestProofs

variable {K : Type} [LinearOrderedField K]

/-- For `d² > e ≥ 0` and `s2 ≥ 0`: `d² + e - 2·|d|·sqrt(e)` is the square of the positive number
`|d| - sqrt(e)`, and exceeds `s2` exactly when `|d| - sqrt(e)` exceeds `sqrt(s2)`. -/
theorem SearchTriplet.residual_sq_iff (sqrt : K → K) (d e s2 : K) (hnn : ∀ x, 0 ≤ sqrt x)
    (hsq : ∀ x, 0 ≤ x → sqrt x * sqrt x = x) (hguard : d * d - e > 0) (herr : 0 ≤ e)
    (hs : 0 ≤ s2) :
    d * d + e - 2 * |d| * sqrt e = (|d| - sqrt e) ^ 2 ∧
      (d * d + e - 2 * |d| * sqrt e > s2 ↔ |d| - sqrt e > sqrt s2) := by
  have he := hsq _ herr
  have hs2 := hsq _ hs
  have habs : |d| * |d| = d * d := abs_mul_abs_self d
  have hres : d * d + e - 2 * |d| * sqrt e = (|d| - sqrt e) ^ 2 := by
    linear_combination -habs - he
  have hpos : 0 < |d| - sqrt e := by
    by_contra hle
    rw [not_lt, sub_nonpos] at hle
    have h1 : |d| * |d| ≤ sqrt e * sqrt e :=
      mul_le_mul hle hle (abs_nonneg d) (hnn e)
    rw [habs, he] at h1
    linarith
  refine ⟨hres, ?_⟩
  rw [hres]
  constructor
  · intro h
    by_contra hle
    rw [gt_iff_lt, not_lt] at hle
    have : (|d| - sqrt e) ^ 2 ≤ sqrt s2 * sqrt s2 := by nlinarith
    rw [hs2] at this
    exact absurd h (not_lt.2 this)
  · intro h
    have : sqrt s2 * sqrt s2 < (|d| - sqrt e) ^ 2 := by nlinarith [hnn s2]
    rw [hs2] at this
    exact this

/-- The first test of a pass of the inner loop reads the variables `error2` and
`dCotThetaMinusError2`: for `error2 ≥ 0` the pass ends without a result when
`deltaCotTheta2 - error2 > 0` and `dCotThetaMinusError2 > scatteringInRegion2`. -/
theorem SearchTriplet.tripletCuts_scattering_reject (sqrt : K → K) (spM : InternalSpacePoint K)
    (config : SeedfinderConfig K)
    (cotThetaB Vb Ub ErB iDeltaRB iSinTheta2 scatteringInRegion2 : K) (lt : LinCircle K)
    (hguard : (cotThetaB - lt.cotTheta) * (cotThetaB - lt.cotTheta) -
      SearchTriplet.error2 spM cotThetaB ErB iDeltaRB lt > 0)
    (herr : 0 ≤ SearchTriplet.error2 spM cotThetaB ErB iDeltaRB lt)
    (hcut : SearchTriplet.dCotThetaMinusError2 sqrt spM cotThetaB ErB iDeltaRB lt >
      scatteringInRegion2) :
    SearchTriplet.tripletCuts sqrt spM config cotThetaB Vb Ub ErB iDeltaRB iSinTheta2
      scatteringInRegion2 lt = none := by
  simp only [SearchTriplet.tripletCuts]
  exact if_pos ⟨hguard, herr, hcut⟩

/-- C22: when `deltaCotTheta2 - error2 > 0`, `error2 ≥ 0` and the scattering bound `s2` is
non-negative (for a square root that is non-negative with `sqrt(x)·sqrt(x) = x` on `x ≥ 0`, as
over the reals), the quantity `dCotThetaMinusError2` tested by `SearchTriplet` equals
`(|ΔcotΘ| - sqrt(error2))²`, and the squared test `dCotThetaMinusError2 > s2` holds if and only if
the unsquared test `|ΔcotΘ| - sqrt(error2) > sqrt(s2)` holds. -/
theorem SearchTriplet_squared_scattering_test (sqrt : K → K) (spM : InternalSpacePoint K)
    (cotThetaB ErB iDeltaRB s2 : K) (lt : LinCircle K) (hnn : ∀ x, 0 ≤ sqrt x)
    (hsq : ∀ x, 0 ≤ x → sqrt x * sqrt x = x)
    (hguard : (cotThetaB - lt.cotTheta) * (cotThetaB - lt.cotTheta) -
      SearchTriplet.error2 spM cotThetaB ErB iDeltaRB lt > 0)
    (herr : 0 ≤ SearchTriplet.error2 spM cotThetaB ErB iDeltaRB lt) (hs : 0 ≤ s2) :
    SearchTriplet.dCotThetaMinusError2 sqrt spM cotThetaB ErB iDeltaRB lt =
        (|cotThetaB - lt.cotTheta| -
          sqrt (SearchTriplet.error2 spM cotThetaB ErB iDeltaRB lt)) ^ 2 ∧
      (SearchTriplet.dCotThetaMinusError2 sqrt spM cotThetaB ErB iDeltaRB lt > s2 ↔
        |cotThetaB - lt.cotTheta| -
          sqrt (SearchTriplet.error2 spM cotThetaB ErB iDeltaRB lt) > sqrt s2) := by
  simp only [SearchTriplet.dCotThetaMinusError2]
  exact SearchTriplet.residual_sq_iff sqrt _ _ s2 hnn hsq hguard herr hs

theorem SearchTriplet_squared_scattering_test_witness :
    (∀ x : ℝ, 0 ≤ Real.sqrt x) ∧ (∀ x : ℝ, 0 ≤ x → Real.sqrt x * Real.sqrt x = x) ∧
      ((2 : ℝ) - 0) * (2 - 0) -
          SearchTriplet.error2 (⟨50, 0, 0, 50, 0, 0⟩ : InternalSpacePoint ℝ) 2 0 1
            ⟨0, 0, 1, 0, 1, 0⟩ > 0 ∧
      0 ≤ SearchTriplet.error2 (⟨50, 0, 0, 50, 0, 0⟩ : InternalSpacePoint ℝ) 2 0 1
        ⟨0, 0, 1, 0, 1, 0⟩ ∧
      (0 : ℝ) ≤ 1 ∧
      (SearchTriplet.dCotThetaMinusError2 Real.sqrt
            (⟨50, 0, 0, 50, 0, 0⟩ : InternalSpacePoint ℝ) 2 0 1 ⟨0, 0, 1, 0, 1, 0⟩ =
          (|(2 : ℝ) - 0| -
            Real.sqrt (SearchTriplet.error2 (⟨50, 0, 0, 50, 0, 0⟩ : InternalSpacePoint ℝ) 2 0 1
              ⟨0, 0, 1, 0, 1, 0⟩)) ^ 2 ∧
        (SearchTriplet.dCotThetaMinusError2 Real.sqrt
            (⟨50, 0, 0, 50, 0, 0⟩ : InternalSpacePoint ℝ) 2 0 1 ⟨0, 0, 1, 0, 1, 0⟩ > 1 ↔
          |(2 : ℝ) - 0| -
              Real.sqrt (SearchTriplet.error2 (⟨50, 0, 0, 50, 0, 0⟩ : InternalSpacePoint ℝ) 2 0 1
                ⟨0, 0, 1, 0, 1, 0⟩) >
            Real.sqrt 1)) :=
  have hnn : ∀ x : ℝ, 0 ≤ Real.sqrt x := Real.sqrt_nonneg
  have hsq : ∀ x : ℝ, 0 ≤ x → Real.sqrt x * Real.sqrt x = x :=
    fun _ hx => Real.mul_self_sqrt hx
  have hguard : ((2 : ℝ) - 0) * (2 - 0) -
      SearchTriplet.error2 (⟨50, 0, 0, 50, 0, 0⟩ : InternalSpacePoint ℝ) 2 0 1
        ⟨0, 0, 1, 0, 1, 0⟩ > 0 := by
    norm_num [SearchTriplet.error2]
  have herr : 0 ≤ SearchTriplet.error2 (⟨50, 0, 0, 50, 0, 0⟩ : InternalSpacePoint ℝ) 2 0 1
      ⟨0, 0, 1, 0, 1, 0⟩ := by
    norm_num [SearchTriplet.error2]
  ⟨hnn, hsq, hguard, herr, zero_le_one,
    SearchTriplet_squared_scattering_test Real.sqrt ⟨50, 0, 0, 50, 0, 0⟩ 2 0 1 1
      ⟨0, 0, 1, 0, 1, 0⟩ hnn hsq hguard herr zero_le_one⟩

end ScatteringTestProofs

section ErrorTermProofs

variable {K : Type} [LinearOrderedField K]

/-- C23 (amended): over exact arithmetic (a square root with `sqrt(x)·sqrt(x) = x` on `x ≥ 0`,
as the real one), for every middle with `r_M ≠ 0` and every bottom and top that differ from the
middle in `(x, y)`, with non-negative variances: `transformCoordinates` divides by no zero, and the
term `error2` that `SearchTriplet` computes from the `LinCircle`s it produces for the bottom and
the top is non-negative. -/
theorem SearchTriplet_error2_nonneg (sqrt : K → K) (M B T : InternalSpacePoint K)
    (hsq : ∀ x, 0 ≤ x → sqrt x * sqrt x = x)
    (hr : M.radius ≠ 0) (hB : B.x ≠ M.x ∨ B.y ≠ M.y) (hT : T.x ≠ M.x ∨ T.y ≠ M.y)
    (hMr : 0 ≤ M.varianceR) (hMz : 0 ≤ M.varianceZ) (hBr : 0 ≤ B.varianceR)
    (hBz : 0 ≤ B.varianceZ) (hTr : 0 ≤ T.varianceR) (hTz : 0 ≤ T.varianceZ) :
    ∃ lb lt : LinCircle K,
      transformCoordinates.checked sqrt [B] M true [] = some [lb] ∧
      transformCoordinates.checked sqrt [T] M false [] = some [lt] ∧
      transformCoordinates sqrt [B] M true [] = [lb] ∧
      transformCoordinates sqrt [T] M false [] = [lt] ∧
      0 ≤ SearchTriplet.error2 M lb.cotTheta lb.Er lb.iDeltaR lt := by
  have hcB := transformCoordinates.checked_eq sqrt [B] M true [] hr
    (fun S hS => by rw [List.mem_singleton] at hS; subst hS; exact hB)
  have hcT := transformCoordinates.checked_eq sqrt [T] M false [] hr
    (fun S hS => by rw [List.mem_singleton] at hS; subst hS; exact hT)
  rw [transformCoordinates.singleton_eq] at hcB hcT
  refine ⟨_, _, hcB, hcT, transformCoordinates.singleton_eq sqrt M B true,
    transformCoordinates.singleton_eq sqrt M T false, ?_⟩
  simp only [SearchTriplet.error2, ConformalSpec.linCircle, if_true, Bool.false_eq_true, if_false]
  have hb0 : (0 : K) ≤ 1 / ((B.x - M.x) ^ 2 + (B.y - M.y) ^ 2) :=
    div_nonneg zero_le_one (add_nonneg (sq_nonneg _) (sq_nonneg _))
  have ht0 : (0 : K) ≤ 1 / ((T.x - M.x) ^ 2 + (T.y - M.y) ^ 2) :=
    div_nonneg zero_le_one (add_nonneg (sq_nonneg _) (sq_nonneg _))
  have hb := hsq _ hb0
  have ht := hsq _ ht0
  generalize 1 / ((B.x - M.x) ^ 2 + (B.y - M.y) ^ 2) = qb at hb
  generalize 1 / ((T.x - M.x) ^ 2 + (T.y - M.y) ^ 2) = qt at ht
  generalize sqrt qb = ib at hb
  generalize sqrt qt = it at ht
  rw [← hb, ← ht]
  have hdec : ((M.varianceZ + T.varianceZ) +
        ((T.z - M.z) * it * 1) ^ 2 * (M.varianceR + T.varianceR)) * (it * it) +
      ((M.varianceZ + B.varianceZ) +
        ((B.z - M.z) * ib * -1) ^ 2 * (M.varianceR + B.varianceR)) * (ib * ib) +
      2 * ((B.z - M.z) * ib * -1 * ((T.z - M.z) * it * 1) * M.varianceR + M.varianceZ) *
        ib * it =
      M.varianceZ * (ib + it) ^ 2 +
        M.varianceR * ((B.z - M.z) * ib * -1 * ib + (T.z - M.z) * it * 1 * it) ^ 2 +
        B.varianceZ * ib ^ 2 + T.varianceZ * it ^ 2 +
        B.varianceR * ((B.z - M.z) * ib * -1 * ib) ^ 2 +
        T.varianceR * ((T.z - M.z) * it * 1 * it) ^ 2 := by ring
  rw [hdec]
  positivity

theorem SearchTriplet_error2_nonneg_witness :
    (∀ x : ℝ, 0 ≤ x → Real.sqrt x * Real.sqrt x = x) ∧
      ∃ lb lt : LinCircle ℝ,
        transformCoordinates.checked Real.sqrt [(⟨10, 0, 0, 10, 1, 2⟩ : InternalSpacePoint ℝ)]
            ⟨50, 0, 0, 50, 3, 4⟩ true [] = some [lb] ∧
          transformCoordinates.checked Real.sqrt
            [(⟨100, 0, 0, 100, 5, 6⟩ : InternalSpacePoint ℝ)]
            ⟨50, 0, 0, 50, 3, 4⟩ false [] = some [lt] ∧
          transformCoordinates Real.sqrt [(⟨10, 0, 0, 10, 1, 2⟩ : InternalSpacePoint ℝ)]
            ⟨50, 0, 0, 50, 3, 4⟩ true [] = [lb] ∧
          transformCoordinates Real.sqrt [(⟨100, 0, 0, 100, 5, 6⟩ : InternalSpacePoint ℝ)]
            ⟨50, 0, 0, 50, 3, 4⟩ false [] = [lt] ∧
          0 ≤ SearchTriplet.error2 (⟨50, 0, 0, 50, 3, 4⟩ : InternalSpacePoint ℝ) lb.cotTheta
            lb.Er lb.iDeltaR lt :=
  have hsq : ∀ x : ℝ, 0 ≤ x → Real.sqrt x * Real.sqrt x = x :=
    fun x hx => Real.mul_self_sqrt hx
  ⟨hsq, SearchTriplet_error2_nonneg Real.sqrt ⟨50, 0, 0, 50, 3, 4⟩ ⟨10, 0, 0, 10, 1, 2⟩
    ⟨100, 0, 0, 100, 5, 6⟩ hsq (by norm_num) (Or.inl (by norm_num)) (Or.inl (by norm_num))
    (by norm_num) (by norm_num) (by norm_num) (by norm_num) (by norm_num) (by norm_num)⟩

end ErrorTermProofs

section DivisionProofs

variable {K : Type} [LinearOrderedField K]

/-- C21: no division of a pass of the inner loop of `SearchTriplet` has a zero denominator (for a
square root that does not vanish on `x ≥ 1`, as the real one): run with checked divisions the pass
never fails and ends as the unchecked pass does; `A = (V_t - V_b)/dU` is computed only behind the
test `dU ≠ 0`, and `S2 = 1 + A·A` is at least 1, so the denominators of `B2 / S2` and of
`B / sqrt(S2)` are not zero. -/
theorem SearchTriplet_divisions_have_nonzero_denominator (sqrt : K → K)
    (spM : InternalSpacePoint K) (config : SeedfinderConfig K)
    (cotThetaB Vb Ub ErB iDeltaRB iSinTheta2 scatteringInRegion2 : K) (lt : LinCircle K)
    (hsqrt : ∀ x, 1 ≤ x → sqrt x ≠ 0) :
    SearchTriplet.tripletCutsChecked sqrt spM config cotThetaB Vb Ub ErB iDeltaRB iSinTheta2
        scatteringInRegion2 lt =
      some (SearchTriplet.tripletCuts sqrt spM config cotThetaB Vb Ub ErB iDeltaRB iSinTheta2
        scatteringInRegion2 lt) ∧
      1 ≤ (SearchTriplet.helixFit Ub Vb lt).2.1 ∧
      (SearchTriplet.helixFit Ub Vb lt).2.1 ≠ 0 ∧
      sqrt (SearchTriplet.helixFit Ub Vb lt).2.1 ≠ 0 := by
  have hS : ∀ A : K, (1 : K) ≤ 1 + A * A := fun A => by nlinarith [mul_self_nonneg A]
  have hS0 : ∀ A : K, 1 + A * A ≠ 0 := fun A => ne_of_gt (lt_of_lt_of_le zero_lt_one (hS A))
  refine ⟨?_, hS _, hS0 _, hsqrt _ (hS _)⟩
  by_cases h2 : lt.U - Ub = 0
  · simp only [SearchTriplet.tripletCutsChecked, SearchTriplet.tripletCuts, h2, if_true]
    split_ifs <;> rfl
  · have h3 := hS0 ((lt.V - Vb) / (lt.U - Ub))
    have h4 := hsqrt _ (hS ((lt.V - Vb) / (lt.U - Ub)))
    simp only [SearchTriplet.tripletCutsChecked, SearchTriplet.tripletCuts,
      SearchTriplet.checkedDiv, h2, h3, h4, if_false]
    split_ifs <;> rfl

theorem SearchTriplet_divisions_have_nonzero_denominator_witness :
    (∀ x : ℝ, 1 ≤ x → Real.sqrt x ≠ 0) ∧
      (SearchTriplet.tripletCutsChecked Real.sqrt (⟨50, 0, 0, 50, 0, 0⟩ : InternalSpacePoint ℝ)
          ⟨200, 1, 150, 10, -150, 150, 4, 3, 0, 1000, 10⟩ 0 1 0 0 1 1 1 ⟨0, 0, 1, 0, 1, 2⟩ =
        some (SearchTriplet.tripletCuts Real.sqrt (⟨50, 0, 0, 50, 0, 0⟩ : InternalSpacePoint ℝ)
          ⟨200, 1, 150, 10, -150, 150, 4, 3, 0, 1000, 10⟩ 0 1 0 0 1 1 1 ⟨0, 0, 1, 0, 1, 2⟩) ∧
        1 ≤ (SearchTriplet.helixFit (0 : ℝ) 1 ⟨0, 0, 1, 0, 1, 2⟩).2.1 ∧
        (SearchTriplet.helixFit (0 : ℝ) 1 ⟨0, 0, 1, 0, 1, 2⟩).2.1 ≠ 0 ∧
        Real.sqrt (SearchTriplet.helixFit (0 : ℝ) 1 ⟨0, 0, 1, 0, 1, 2⟩).2.1 ≠ 0) :=
  have hsqrt : ∀ x : ℝ, 1 ≤ x → Real.sqrt x ≠ 0 :=
    fun _ hx => ne_of_gt (Real.sqrt_pos.2 (lt_of_lt_of_le zero_lt_one hx))
  ⟨hsqrt, SearchTriplet_divisions_have_nonzero_denominator Real.sqrt _ _ _ _ _ _ _ _ _ _ hsqrt⟩

end DivisionProofs

section DupletAngleProofs

variable {K : Type} [LinearOrderedField K]

/-- The `cotTheta` of a `LinCircle` is the longitudinal distance in the direction of the role
times the inverse transverse distance. -/
theorem ConformalSpec.linCircle_cotTheta (sqrt : K → K) (M S : InternalSpacePoint K)
    (bottom : Bool) :
    (ConformalSpec.linCircle sqrt M bottom S).cotTheta =
      (if bottom then M.z - S.z else S.z - M.z) *
        sqrt (1 / ((S.x - M.x) ^ 2 + (S.y - M.y) ^ 2)) := by
  cases bottom with
  | true => simp only [ConformalSpec.linCircle, if_true]; ring
  | false => simp only [ConformalSpec.linCircle, Bool.false_eq_true, if_false]; ring

/-- The duplet `cotTheta` of `SearchDoublet` is the same longitudinal distance divided by the
radial gap of the role. -/
theorem SearchDoublet.cotTheta_eq (M S : InternalSpacePoint K) (bottom : Bool) :
    SearchDoublet.cotTheta bottom M S =
      (if bottom then M.z - S.z else S.z - M.z) /
        (if bottom then M.radius - S.radius else S.radius - M.radius) := by
  cases bottom with
  | true => simp only [SearchDoublet.cotTheta, if_true]
  | false => simp only [SearchDoublet.cotTheta, Bool.false_eq_true, if_false]

/-- A non-negative root `i` of `1/D` is positive and at most `1/g` when `0 < g` and `g² ≤ D`,
and equals `1/g` when `g² = D`. -/
theorem ConformalSpec.inverse_distance_le (i D g : K) (hi : 0 ≤ i) (hii : i * i = 1 / D)
    (hg : 0 < g) (hgD : g ^ 2 ≤ D) : 0 < i ∧ i ≤ 1 / g ∧ (g ^ 2 = D → i = 1 / g) := by
  have hD : 0 < D := lt_of_lt_of_le (pow_pos hg 2) hgD
  have hq : 0 < 1 / D := one_div_pos.2 hD
  have hipos : 0 < i := by
    rcases eq_or_lt_of_le hi with h | h
    · rw [← h, mul_zero] at hii
      exact absurd hii (ne_of_lt hq)
    · exact h
  have hg1 : 0 < 1 / g := one_div_pos.2 hg
  have hle : 1 / D ≤ 1 / g * (1 / g) := by
    rw [one_div_mul_one_div_rev, ← pow_two]
    exact one_div_le_one_div_of_le (pow_pos hg 2) hgD
  refine ⟨hipos, ?_, ?_⟩
  · by_contra hlt
    rw [not_le] at hlt
    have : 1 / g * (1 / g) < i * i := mul_lt_mul'' hlt hlt hg1.le hg1.le
    rw [hii] at this
    exact absurd hle (not_le.2 this)
  · intro h
    have h2 : i * i = 1 / g * (1 / g) := by
      rw [hii, ← h, pow_two, one_div_mul_one_div_rev]
    exact (mul_self_inj hi hg1.le).1 h2

end DupletAngleProofs

section DupletAngleClaim

variable {K : Type} [LinearOrderedField K]

/-- C25 (amended): over exact arithmetic (the operations of an ordered field and a non-negative
square root with `sqrt(x)·sqrt(x) = x` on `x ≥ 0`, as the real one), if `deltaRMin > 0` and the
radius of every point satisfies `r² = x² + y²` with `r ≥ 0`, then for the partner at every position of the result of `SearchDoublet` (either role) the `cotTheta`
that `transformCoordinates` stores in the `LinCircle` at the same position has the sign of the
`cotTheta` of the duplet search, `|cotTheta_LinCircle| ≤ |cotTheta_duplet| ≤ cotThetaMax`, and the
two values are equal when the partner and the middle are at the same azimuth
(`(x, y) = r·(c, s)` for both, with `c² + s² = 1`). -/
theorem transformCoordinates_cotTheta_bounded_by_duplet (sqrt : K → K) (isBottom : Bool)
    (SPs : List (InternalSpacePoint K)) (M : InternalSpacePoint K) (config : SeedfinderConfig K)
    (hnn : ∀ x, 0 ≤ sqrt x) (hsq : ∀ x, 0 ≤ x → sqrt x * sqrt x = x)
    (hmin : 0 < config.deltaRMin)
    (hM : M.radius ^ 2 = M.x ^ 2 + M.y ^ 2) (hM0 : 0 ≤ M.radius)
    (hSPs : ∀ P ∈ SPs, P.radius ^ 2 = P.x ^ 2 + P.y ^ 2 ∧ 0 ≤ P.radius)
    (i : Nat) (S : InternalSpacePoint K)
    (hi : (SearchDoublet isBottom SPs M config)[i]? = some S) :
    ∃ l : LinCircle K,
      (transformCoordinates sqrt (SearchDoublet isBottom SPs M config) M isBottom [])[i]? =
          some l ∧
        (0 < l.cotTheta ↔ 0 < SearchDoublet.cotTheta isBottom M S) ∧
        (l.cotTheta < 0 ↔ SearchDoublet.cotTheta isBottom M S < 0) ∧
        |l.cotTheta| ≤ |SearchDoublet.cotTheta isBottom M S| ∧
        |SearchDoublet.cotTheta isBottom M S| ≤ config.cotThetaMax ∧
        (∀ c s : K, c ^ 2 + s ^ 2 = 1 → S.x = S.radius * c → S.y = S.radius * s →
          M.x = M.radius * c → M.y = M.radius * s →
          l.cotTheta = SearchDoublet.cotTheta isBottom M S) := by
  have hmem : S ∈ SearchDoublet isBottom SPs M config := List.mem_iff_getElem?.2 ⟨i, hi⟩
  have hgap := SearchDoublet.mem_gap isBottom SPs M config S hmem
  have hin : S ∈ SPs ∧ |SearchDoublet.cotTheta isBottom M S| ≤ config.cotThetaMax := by
    cases isBottom with
    | true =>
      have h := (SearchDoublet.mem_bottom_iff SPs M config S).1 hmem
      exact ⟨h.1, ((SearchDoublet.bottomKeeps_iff_of_pos config M S hmin).1 h.2).2.1⟩
    | false =>
      have h := SearchDoublet.mem_top_imp SPs M config S hmem
      exact ⟨h.1, ((SearchDoublet.topKeeps_iff_of_pos config M S hmin).1 h.2).2.1⟩
  obtain ⟨hS, hS0⟩ := hSPs S hin.1
  have htri := InternalSpacePoint.sq_radius_sub_le M S hM hM0 hS hS0
  have hg : 0 < (if isBottom then M.radius - S.radius else S.radius - M.radius) := by
    cases isBottom with
    | true => simp only [if_true] at hgap ⊢; linarith [hgap.1]
    | false => simp only [Bool.false_eq_true, if_false] at hgap ⊢; linarith [hgap.1]
  have hg2 : (if isBottom then M.radius - S.radius else S.radius - M.radius) ^ 2 =
      (S.radius - M.radius) ^ 2 := by
    cases isBottom with
    | true => simp only [if_true]; ring
    | false => simp only [Bool.false_eq_true, if_false]
  have hD0 : (0 : K) ≤ 1 / ((S.x - M.x) ^ 2 + (S.y - M.y) ^ 2) :=
    div_nonneg zero_le_one (add_nonneg (sq_nonneg _) (sq_nonneg _))
  obtain ⟨hipos, hile, hieq⟩ := ConformalSpec.inverse_distance_le
    (sqrt (1 / ((S.x - M.x) ^ 2 + (S.y - M.y) ^ 2))) ((S.x - M.x) ^ 2 + (S.y - M.y) ^ 2)
    (if isBottom then M.radius - S.radius else S.radius - M.radius) (hnn _) (hsq _ hD0) hg
    (by rw [hg2]; exact htri)
  have hneg : ∀ d c : K, 0 < c → (d * c < 0 ↔ d < 0) := fun d c hc =>
    ⟨fun h => by
      by_contra hn
      exact absurd h (not_lt.2 (mul_nonneg (not_lt.1 hn) hc.le)),
      fun h => mul_neg_of_neg_of_pos h hc⟩
  refine ⟨ConformalSpec.linCircle sqrt M isBottom S, ?_, ?_⟩
  · simp only [transformCoordinates]
    rw [transformCoordinates.loop_eq_map, List.nil_append, List.getElem?_map, hi]
    rfl
  · refine ⟨?_, ?_, ?_, hin.2, ?_⟩
    · rw [ConformalSpec.linCircle_cotTheta, SearchDoublet.cotTheta_eq,
        mul_pos_iff_of_pos_right hipos, div_pos_iff_of_pos_right hg]
    · rw [ConformalSpec.linCircle_cotTheta, SearchDoublet.cotTheta_eq, hneg _ _ hipos,
        ← mul_one_div, hneg _ _ (one_div_pos.2 hg)]
    · rw [ConformalSpec.linCircle_cotTheta, SearchDoublet.cotTheta_eq, abs_mul, abs_div,
        abs_of_pos hipos, abs_of_pos hg]
      exact (mul_le_mul_of_nonneg_left hile (abs_nonneg _)).trans (mul_one_div _ _).le
    · intro c s hcs hSx hSy hMx hMy
      have hD : (if isBottom then M.radius - S.radius else S.radius - M.radius) ^ 2 =
          (S.x - M.x) ^ 2 + (S.y - M.y) ^ 2 := by
        rw [hg2, hSx, hSy, hMx, hMy]
        linear_combination -(S.radius - M.radius) ^ 2 * hcs
      rw [ConformalSpec.linCircle_cotTheta, SearchDoublet.cotTheta_eq, hieq hD]
      exact mul_one_div _ _

theorem transformCoordinates_cotTheta_bounded_by_duplet_witness :
    (∀ x : ℝ, 0 ≤ Real.sqrt x) ∧ (∀ x : ℝ, 0 ≤ x → Real.sqrt x * Real.sqrt x = x) ∧
      (SearchDoublet true [(⟨6, 8, 20, 10, 0, 0⟩ : InternalSpacePoint ℝ)] ⟨50, 0, 0, 50, 0, 0⟩
          ⟨200, 1, 150, 10, -150, 150, 4, 3, 0, 1000, 10⟩)[0]? =
        some ⟨6, 8, 20, 10, 0, 0⟩ ∧
      ∃ l : LinCircle ℝ,
        (transformCoordinates Real.sqrt
            (SearchDoublet true [(⟨6, 8, 20, 10, 0, 0⟩ : InternalSpacePoint ℝ)]
              ⟨50, 0, 0, 50, 0, 0⟩ ⟨200, 1, 150, 10, -150, 150, 4, 3, 0, 1000, 10⟩)
            ⟨50, 0, 0, 50, 0, 0⟩ true [])[0]? = some l ∧
          (0 < l.cotTheta ↔ 0 < SearchDoublet.cotTheta true
            (⟨50, 0, 0, 50, 0, 0⟩ : InternalSpacePoint ℝ) ⟨6, 8, 20, 10, 0, 0⟩) ∧
          (l.cotTheta < 0 ↔ SearchDoublet.cotTheta true
            (⟨50, 0, 0, 50, 0, 0⟩ : InternalSpacePoint ℝ) ⟨6, 8, 20, 10, 0, 0⟩ < 0) ∧
          |l.cotTheta| ≤ |SearchDoublet.cotTheta true
            (⟨50, 0, 0, 50, 0, 0⟩ : InternalSpacePoint ℝ) ⟨6, 8, 20, 10, 0, 0⟩| ∧
          |SearchDoublet.cotTheta true (⟨50, 0, 0, 50, 0, 0⟩ : InternalSpacePoint ℝ)
            ⟨6, 8, 20, 10, 0, 0⟩| ≤ 10 ∧
          (∀ c s : ℝ, c ^ 2 + s ^ 2 = 1 → (6 : ℝ) = 10 * c → (8 : ℝ) = 10 * s →
            (50 : ℝ) = 50 * c → (0 : ℝ) = 50 * s →
            l.cotTheta = SearchDoublet.cotTheta true
              (⟨50, 0, 0, 50, 0, 0⟩ : InternalSpacePoint ℝ) ⟨6, 8, 20, 10, 0, 0⟩) :=
  have hnn : ∀ x : ℝ, 0 ≤ Real.sqrt x := Real.sqrt_nonneg
  have hsq : ∀ x : ℝ, 0 ≤ x → Real.sqrt x * Real.sqrt x = x :=
    fun _ hx => Real.mul_self_sqrt hx
  have hi : (SearchDoublet true [(⟨6, 8, 20, 10, 0, 0⟩ : InternalSpacePoint ℝ)]
      ⟨50, 0, 0, 50, 0, 0⟩ ⟨200, 1, 150, 10, -150, 150, 4, 3, 0, 1000, 10⟩)[0]? =
      some ⟨6, 8, 20, 10, 0, 0⟩ := by
    norm_num [SearchDoublet, SearchDoublet.bottomLoop, abs_of_neg, abs_of_pos]
  ⟨hnn, hsq, hi,
    transformCoordinates_cotTheta_bounded_by_duplet Real.sqrt true _ ⟨50, 0, 0, 50, 0, 0⟩
      ⟨200, 1, 150, 10, -150, 150, 4, 3, 0, 1000, 10⟩ hnn hsq (by norm_num) (by norm_num)
      (by norm_num) (by intro P hP; rw [List.mem_singleton] at hP; subst hP; norm_num) 0 _ hi⟩

end DupletAngleClaim

section Binary32Proofs

variable {K : Type} [LinearOrderedField K]

/-- Without rounding the rounded bottom loop is the bottom loop. -/
theorem SearchDoublet.bottomLoopRounded_id (spM : InternalSpacePoint K)
    (config : SeedfinderConfig K) (SPs compatSPs : List (InternalSpacePoint K)) :
    SearchDoublet.bottomLoopRounded id spM config SPs compatSPs =
      SearchDoublet.bottomLoop spM config SPs compatSPs := by
  induction SPs generalizing compatSPs with
  | nil => rfl
  | cons sp SPs ih =>
    simp only [SearchDoublet.bottomLoopRounded, SearchDoublet.bottomLoop, id, ih]

/-- Without rounding the rounded loop of `transformCoordinates` is the loop. -/
theorem transformCoordinates.loopRounded_id (sqrt : K → K) (spM : InternalSpacePoint K)
    (bottom : Bool) (cosPhiM sinPhiM : K) (vec : List (InternalSpacePoint K))
    (linCircleVec : List (LinCircle K)) :
    transformCoordinates.loopRounded id sqrt spM bottom cosPhiM sinPhiM vec linCircleVec =
      transformCoordinates.loop sqrt spM bottom cosPhiM sinPhiM vec linCircleVec := by
  induction vec generalizing linCircleVec with
  | nil => rfl
  | cons sp vec ih =>
    simp only [transformCoordinates.loopRounded, transformCoordinates.loop, id, ih]

/-- Without rounding the rounded `transformCoordinates` is `transformCoordinates`. -/
theorem transformCoordinates.rounded_id (sqrt : K → K) (vec : List (InternalSpacePoint K))
    (spM : InternalSpacePoint K) (bottom : Bool) (linCircleVec : List (LinCircle K)) :
    transformCoordinates.rounded id sqrt vec spM bottom linCircleVec =
      transformCoordinates sqrt vec spM bottom linCircleVec := by
  simp only [transformCoordinates.rounded, transformCoordinates, id,
    transformCoordinates.loopRounded_id]

/-- Without rounding the rounded pass of the inner loop of `SearchTriplet` is the pass. -/
theorem SearchTriplet.tripletCutsRounded_id (sqrt : K → K) (spM : InternalSpacePoint K)
    (config : SeedfinderConfig K)
    (cotThetaB Vb Ub ErB iDeltaRB iSinTheta2 scatteringInRegion2 : K) (lt : LinCircle K) :
    SearchTriplet.tripletCutsRounded id sqrt spM config cotThetaB Vb Ub ErB iDeltaRB iSinTheta2
        scatteringInRegion2 lt =
      SearchTriplet.tripletCuts sqrt spM config cotThetaB Vb Ub ErB iDeltaRB iSinTheta2
        scatteringInRegion2 lt := by
  simp only [SearchTriplet.tripletCutsRounded, SearchTriplet.tripletCuts,
    SearchTriplet.error2Rounded, id]

end Binary32Proofs

section Binary32Counterexamples

/-- C25 (counterexample): in binary32 the middle `(30, 0, 111)` and the bottom `(15, 0, 0)`, both
on the x axis (same azimuth) and with radii equal to `x`, with `deltaRMin = 5 > 0` and
`cotThetaMax = 7.4f`: the bottom loop of `SearchDoublet` computes `cotTheta = 7.4f`, which is not
above `cotThetaMax`, and returns the bottom, while `transformCoordinates` stores
`cotTheta = 7759463/2^20 = 7.4000006` in its `LinCircle`, larger than the `cotTheta` of the duplet
search and than `cotThetaMax`. -/
theorem transformCoordinates_cotTheta_exceeds_duplet_in_binary32 :
    0 < Example.configBinary32.deltaRMin ∧
      (Example.steepMiddle.radius ^ 2 = Example.steepMiddle.x ^ 2 + Example.steepMiddle.y ^ 2 ∧
        0 ≤ Example.steepMiddle.radius) ∧
      (Example.steepBottom.radius ^ 2 = Example.steepBottom.x ^ 2 + Example.steepBottom.y ^ 2 ∧
        0 ≤ Example.steepBottom.radius) ∧
      (Example.steepMiddle.x = Example.steepMiddle.radius * 1 ∧
        Example.steepMiddle.y = Example.steepMiddle.radius * 0 ∧
        Example.steepBottom.x = Example.steepBottom.radius * 1 ∧
        Example.steepBottom.y = Example.steepBottom.radius * 0) ∧
      (SearchDoublet.bottomLoopRounded Binary32.round Example.steepMiddle Example.configBinary32
        [Example.steepBottom] []).map (fun p => (p.x, p.y, p.z, p.radius)) = [(15, 0, 0, 15)] ∧
      SearchDoublet.cotThetaRounded Binary32.round Example.steepMiddle Example.steepBottom =
        15518925 / 2097152 ∧
      Example.configBinary32.cotThetaMax = 15518925 / 2097152 ∧
      (transformCoordinates.rounded Binary32.round Binary32.sqrt [Example.steepBottom]
        Example.steepMiddle true []).map (fun l => l.cotTheta) = [7759463 / 1048576] ∧
      ¬ |(7759463 / 1048576 : ℚ)| ≤ |(15518925 / 2097152 : ℚ)| ∧
      (7759463 / 1048576 : ℚ) ≠ 15518925 / 2097152 := by
  decide!

/-- C23 (counterexample): in binary32, for the middle `(50, 0, 0)` with `varianceR = 1`, the
bottom `(45, 0, 5)` and the top `(55, 0, 5)`, all variances non-negative, the term `error2` that
`SearchTriplet` computes from the `LinCircle`s of `transformCoordinates` is `-2^-27 < 0`. -/
theorem SearchTriplet_error2_negative_in_binary32 :
    (0 ≤ Example.slantMiddle.varianceR ∧ 0 ≤ Example.slantMiddle.varianceZ ∧
        0 ≤ Example.slantBottom.varianceR ∧ 0 ≤ Example.slantBottom.varianceZ ∧
        0 ≤ Example.slantTop.varianceR ∧ 0 ≤ Example.slantTop.varianceZ) ∧
      (transformCoordinates.rounded Binary32.round Binary32.sqrt [Example.slantBottom]
          Example.slantMiddle true []).map (fun lb =>
        (transformCoordinates.rounded Binary32.round Binary32.sqrt [Example.slantTop]
            Example.slantMiddle false []).map (fun lt =>
          SearchTriplet.error2Rounded Binary32.round Example.slantMiddle lb.cotTheta lb.Er
            lb.iDeltaR lt)) = [[-1 / 134217728]] ∧
      (-1 / 134217728 : ℚ) < 0 := by
  decide!

/-- C13 (counterexample): in binary32, for the middle `(16, 30)` at radius 34, the bottom
`(8, 15)` and the top `(40, 75)` on the same radial line (`z = 0`, zero variances, equal
`cotTheta`), `transformCoordinates` followed by a pass of the inner loop of `SearchTriplet` does
not give the exact zeros: the top `LinCircle` has `V ≠ 0`, the pass records the curvature
`-2476913/2^52` and the impact `5592405/2^44`, and with `impactMax = 0` the top is not handed
over. -/
theorem transformCoordinates_SearchTriplet_colinear_inexact_in_binary32 :
    (0 < Example.lineMiddle.radius ∧
        Example.lineMiddle.radius ^ 2 = Example.lineMiddle.x ^ 2 + Example.lineMiddle.y ^ 2) ∧
      (Example.lineBottom.x = 1 / 2 * Example.lineMiddle.x ∧
        Example.lineBottom.y = 1 / 2 * Example.lineMiddle.y ∧ |(1 / 2 : ℚ)| < 1) ∧
      (Example.lineTop.x = 5 / 2 * Example.lineMiddle.x ∧
        Example.lineTop.y = 5 / 2 * Example.lineMiddle.y ∧ 1 < |(5 / 2 : ℚ)|) ∧
      (transformCoordinates.rounded Binary32.round Binary32.sqrt [Example.lineBottom]
          Example.lineMiddle true []).map (fun l => l.cotTheta) =
        (transformCoordinates.rounded Binary32.round Binary32.sqrt [Example.lineTop]
          Example.lineMiddle false []).map (fun l => l.cotTheta) ∧
      (transformCoordinates.rounded Binary32.round Binary32.sqrt [Example.lineTop]
          Example.lineMiddle false []).map (fun l => l.V) = [-13210203 / 18014398509481984] ∧
      (transformCoordinates.rounded Binary32.round Binary32.sqrt [Example.lineBottom]
          Example.lineMiddle true []).map (fun lb =>
        (transformCoordinates.rounded Binary32.round Binary32.sqrt [Example.lineTop]
            Example.lineMiddle false []).map (fun lt =>
          SearchTriplet.passRounded Binary32.round Binary32.sqrt Example.lineMiddle
            Example.configBinary32 lb lt)) =
        [[some (-2476913 / 4503599627370496, 5592405 / 17592186044416)]] ∧
      (0 ≤ ({ Example.configBinary32 with impactMax := 0 } : SeedfinderConfig ℚ).impactMax ∧
        (transformCoordinates.rounded Binary32.round Binary32.sqrt [Example.lineBottom]
            Example.lineMiddle true []).map (fun lb =>
          (transformCoordinates.rounded Binary32.round Binary32.sqrt [Example.lineTop]
              Example.lineMiddle false []).map (fun lt =>
            SearchTriplet.passRounded Binary32.round Binary32.sqrt Example.lineMiddle
              { Example.configBinary32 with impactMax := 0 } lb lt)) = [[none]]) := by
  decide!

end Binary32Counterexamples

end Acts
